import Mathlib

/-!
learnopengl: the programs `hello-window` and `hello-triangle`.

A shallow embedding of the two programs `src/hello-window/main.cpp` and
`src/hello-triangle/main.cpp`.

Both programs are straight-line sequences of GLFW / GLAD / OpenGL library calls
followed by a render loop.  The libraries are external, so the embedding is
parametric in an *environment* `Env` holding the answer of every library call
whose result the program receives.  Running a program produces the ordered
*trace* of library calls (and stream writes) it issued together with the way the
process ended.  The render loop need not terminate, so it takes fuel; a run that
has used up its fuel is reported as `Res.running` and still carries the trace
issued so far.
-/

namespace LearnOpenGL

/-! ## Constants of the library headers

The headers `stdlib.h`, `GLFW/glfw3.h` and `glad/glad.h` are not among the
sources of the repository.  The macros the programs use from them are given here
with the values of those headers.  The general theorems use no value other than
`EXIT_FAILURE ≠ 0`; the other values only show in the concrete examples. -/

/-- Modelled from the spec: the null pointer `NULL` that `glfwCreateWindow` returns on failure. -/
def NULL : Nat := 0
/-- Modelled from the spec: the macro `EXIT_FAILURE` of `stdlib.h`, given as `EXIT_FAILURE (1)`. -/
def EXIT_FAILURE : Int := 1
/-- Modelled from the spec: `sizeof(float)`, taken to be 4 bytes. -/
def sizeof_float : Int := 4
/-- Modelled from the spec: the macro `GLFW_PRESS` of `GLFW/glfw3.h`, the answer of
`glfwGetKey` for a key that is reported as pressed. -/
def GLFW_PRESS : Int := 1
/-- Modelled from the spec: the macro `GLFW_KEY_ESCAPE` of `GLFW/glfw3.h`, the Escape key. -/
def GLFW_KEY_ESCAPE : Int := 256
/-- Modelled from the spec: the macro `GLFW_CONTEXT_VERSION_MAJOR` of `GLFW/glfw3.h`. -/
def GLFW_CONTEXT_VERSION_MAJOR : Int := 0x00022002
/-- Modelled from the spec: the macro `GLFW_CONTEXT_VERSION_MINOR` of `GLFW/glfw3.h`. -/
def GLFW_CONTEXT_VERSION_MINOR : Int := 0x00022003
/-- Modelled from the spec: the macro `GLFW_OPENGL_PROFILE` of `GLFW/glfw3.h`. -/
def GLFW_OPENGL_PROFILE : Int := 0x00022008
/-- Modelled from the spec: the macro `GLFW_OPENGL_CORE_PROFILE` of `GLFW/glfw3.h`. -/
def GLFW_OPENGL_CORE_PROFILE : Int := 0x00032001
/-- Modelled from the spec: the macro `GL_COLOR_BUFFER_BIT` of `glad/glad.h`, the colour buffer. -/
def GL_COLOR_BUFFER_BIT : Nat := 0x00004000
/-- Modelled from the spec: the macro `GL_TRIANGLES` of `glad/glad.h`, a primitive mode. -/
def GL_TRIANGLES : Nat := 0x0004
/-- Modelled from the spec: the macro `GL_ARRAY_BUFFER` of `glad/glad.h`, a buffer target. -/
def GL_ARRAY_BUFFER : Nat := 0x8892
/-- Modelled from the spec: the macro `GL_STATIC_DRAW` of `glad/glad.h`, a usage hint. -/
def GL_STATIC_DRAW : Nat := 0x88E4
/-- Modelled from the spec: the macro `GL_FLOAT` of `glad/glad.h`, a component type. -/
def GL_FLOAT : Nat := 0x1406
/-- Modelled from the spec: the macro `GL_FALSE` of `glad/glad.h`. -/
def GL_FALSE : Nat := 0
/-- Modelled from the spec: the macro `GL_VERTEX_SHADER` of `glad/glad.h`, a shader type. -/
def GL_VERTEX_SHADER : Nat := 0x8B31
/-- Modelled from the spec: the macro `GL_FRAGMENT_SHADER` of `glad/glad.h`, a shader type. -/
def GL_FRAGMENT_SHADER : Nat := 0x8B30
/-- Modelled from the spec: the macro `GL_COMPILE_STATUS` of `glad/glad.h`, a query name. -/
def GL_COMPILE_STATUS : Nat := 0x8B81
/-- Modelled from the spec: the macro `GL_LINK_STATUS` of `glad/glad.h`, a query name. -/
def GL_LINK_STATUS : Nat := 0x8B82

/-! ## Data model -/

/-- A decimal floating literal of the source text, `num / 10 ^ scale`
(`0.2f` is `⟨2, 1⟩`, `-0.75f` is `⟨-75, 2⟩`).  The literal is kept as written;
its rounding to a machine `float` is not modelled. -/
structure Dec where
  num : Int
  scale : Nat
  deriving DecidableEq, Repr

/-- One observable action of a program: a library call with the arguments the
program passes, a write to a standard stream, or the call of `exit`.
The constructors are the library functions the two programs call, together with
the remaining OpenGL functions that delete an object (`glDeleteProgram`,
`glDeleteBuffers`, `glDeleteVertexArrays`), which neither program calls.
Pointers and GL object names are natural numbers; `GLFWwindow*` is a natural
number with `NULL = 0`. -/
inductive Call where
  | glfwInit
  | glfwWindowHint (hint value : Int)
  | glfwCreateWindow (width height : Int) (title : String) (monitor share : Nat)
  | glfwMakeContextCurrent (window : Nat)
  | gladLoadGLLoader
  | glViewport (x y width height : Int)
  | glfwSetFramebufferSizeCallback (window : Nat)
  | glfwWindowShouldClose (window : Nat)
  | glClearColor (red green blue alpha : Dec)
  | glClear (mask : Nat)
  | glfwGetKey (window : Nat) (key : Int)
  | glfwSetWindowShouldClose (window : Nat) (value : Int)
  | glfwPollEvents
  | glfwSwapBuffers (window : Nat)
  | glfwTerminate
  | cerr (text : String)
  | cout (text : String)
  | exit (status : Int)
  | glGenBuffers (n : Int)
  | glGenVertexArrays (n : Int)
  | glBindVertexArray (array : Nat)
  | glBindBuffer (target buffer : Nat)
  | glBufferData (target : Nat) (size : Int) (data : List Dec) (usage : Nat)
  | glVertexAttribPointer (index : Nat) (size : Int) (type normalized : Nat)
      (stride : Int) (pointer : Nat)
  | glEnableVertexAttribArray (index : Nat)
  | glCreateShader (type : Nat)
  | glShaderSource (shader : Nat) (count : Int) (source : String)
  | glCompileShader (shader : Nat)
  | glGetShaderiv (shader pname : Nat)
  | glGetShaderInfoLog (shader : Nat) (bufSize : Int)
  | glCreateProgram
  | glAttachShader (program shader : Nat)
  | glLinkProgram (program : Nat)
  | glGetProgramiv (program pname : Nat)
  | glGetProgramInfoLog (program : Nat) (bufSize : Int)
  | glDeleteShader (shader : Nat)
  | glDeleteProgram (program : Nat)
  | glDeleteBuffers (n : Int) (buffer : Nat)
  | glDeleteVertexArrays (n : Int) (array : Nat)
  | glUseProgram (program : Nat)
  | glDrawArrays (mode : Nat) (first count : Int)
  deriving DecidableEq, Repr

/-- The answers of the external libraries.  A function-valued field gives the
answer of the `k`-th call (counted from 0) of that library function. -/
structure Env where
  /-- result of `glfwInit()` -/
  glfwInit : Int
  /-- pointer returned by `glfwCreateWindow` (`NULL` on failure) -/
  glfwCreateWindow : Nat
  /-- result of `gladLoadGLLoader` (0 on failure) -/
  gladLoadGLLoader : Int
  /-- result of the `k`-th `glfwWindowShouldClose` -/
  glfwWindowShouldClose : Nat → Int
  /-- result of the `k`-th `glfwGetKey` -/
  glfwGetKey : Nat → Int
  /-- framebuffer resize events `(width, height)` delivered by the `k`-th `glfwPollEvents` -/
  framebufferResizes : Nat → List (Int × Int)
  /-- name returned by the `k`-th `glCreateShader` -/
  glCreateShader : Nat → Nat
  /-- status stored by the `k`-th `glGetShaderiv` -/
  glGetShaderiv : Nat → Int
  /-- text stored by the `k`-th `glGetShaderInfoLog` -/
  glGetShaderInfoLog : Nat → String
  /-- name returned by the `k`-th `glCreateProgram` -/
  glCreateProgram : Nat → Nat
  /-- status stored by the `k`-th `glGetProgramiv` -/
  glGetProgramiv : Nat → Int
  /-- text stored by the `k`-th `glGetProgramInfoLog` -/
  glGetProgramInfoLog : Nat → String
  /-- name stored by the `k`-th `glGenBuffers(1, ..)` -/
  glGenBuffers : Nat → Nat
  /-- name stored by the `k`-th `glGenVertexArrays(1, ..)` -/
  glGenVertexArrays : Nat → Nat

/-- The state of a run: the calls issued so far (oldest first), whether a
framebuffer-size callback is installed, and how often each answering library
function has been called. -/
structure World where
  trace : List Call := []
  callbackSet : Bool := false
  nWindowShouldClose : Nat := 0
  nGetKey : Nat := 0
  nPollEvents : Nat := 0
  nCreateShader : Nat := 0
  nGetShaderiv : Nat := 0
  nGetShaderInfoLog : Nat := 0
  nCreateProgram : Nat := 0
  nGetProgramiv : Nat := 0
  nGetProgramInfoLog : Nat := 0
  nGenBuffers : Nat := 0
  nGenVertexArrays : Nat := 0
  deriving DecidableEq, Repr

/-- The state in which `main` starts. -/
def World.init : World := {}

/-- How a computation ends: normally with a value, by `exit(status)` (the
process is gone and nothing after the call runs), or still inside the render
loop when the fuel is used up. -/
inductive Res (α : Type) where
  | ok (value : α) (w : World)
  | exited (status : Int) (w : World)
  | running (w : World)
  deriving DecidableEq, Repr

/-- The world in which a computation ended. -/
def Res.world {α : Type} : Res α → World
  | Res.ok _ w => w
  | Res.exited _ w => w
  | Res.running w => w

/-- The exit code of the process when the result is that of `main`:
the value returned by `main`, or the argument of `exit`; none while running. -/
def Res.exitCode : Res Int → Option Int
  | Res.ok c _ => some c
  | Res.exited c _ => some c
  | Res.running _ => none

/-- Sequencing of results: a computation that exited or ran out of fuel stops. -/
def Res.andThen {α β : Type} (r : Res α) (k : α → World → Res β) : Res β :=
  match r with
  | Res.ok a w => k a w
  | Res.exited c w => Res.exited c w
  | Res.running w => Res.running w

/-- Computations of the programs: they read the environment and transform the world. -/
def M (α : Type) : Type := Env → World → Res α

instance : Monad M where
  pure a := fun _ w => Res.ok a w
  bind m f := fun env w => (m env w).andThen (fun a w1 => f a env w1)

/-- Append a call to the trace. -/
def World.log (w : World) (c : Call) : World := { w with trace := w.trace ++ [c] }

/-- Issue a call that returns nothing the program uses. -/
def call (c : Call) : M Unit := fun _ w => Res.ok () (w.log c)

/-! ## Library primitives -/

def glfwInit : M Int := fun env w => Res.ok env.glfwInit (w.log Call.glfwInit)

def glfwWindowHint (hint value : Int) : M Unit := call (Call.glfwWindowHint hint value)

def glfwCreateWindow (width height : Int) (title : String) (monitor share : Nat) : M Nat :=
  fun env w => Res.ok env.glfwCreateWindow (w.log (Call.glfwCreateWindow width height title monitor share))

def glfwMakeContextCurrent (window : Nat) : M Unit := call (Call.glfwMakeContextCurrent window)

/-- The call `gladLoadGLLoader((GLADloadproc)glfwGetProcAddress)`. -/
def gladLoadGLLoader : M Int :=
  fun env w => Res.ok env.gladLoadGLLoader (w.log Call.gladLoadGLLoader)

def glViewport (x y width height : Int) : M Unit := call (Call.glViewport x y width height)

/-- The call `glfwSetFramebufferSizeCallback(window, callback)`: from now on
`glfwPollEvents` runs the callback for every resize event.  The world records only
that a callback is installed; the function itself is handed to `glfwPollEvents`,
since each program installs one function, its `framebuffer_size_callback`. -/
def glfwSetFramebufferSizeCallback (window : Nat) (_callback : Nat → Int → Int → M Unit) :
    M Unit :=
  fun _ w => Res.ok () { w.log (Call.glfwSetFramebufferSizeCallback window) with callbackSet := true }

def glfwWindowShouldClose (window : Nat) : M Int :=
  fun env w => Res.ok (env.glfwWindowShouldClose w.nWindowShouldClose)
    { w.log (Call.glfwWindowShouldClose window) with nWindowShouldClose := w.nWindowShouldClose + 1 }

def glClearColor (red green blue alpha : Dec) : M Unit := call (Call.glClearColor red green blue alpha)

def glClear (mask : Nat) : M Unit := call (Call.glClear mask)

def glfwGetKey (window : Nat) (key : Int) : M Int :=
  fun env w => Res.ok (env.glfwGetKey w.nGetKey)
    { w.log (Call.glfwGetKey window key) with nGetKey := w.nGetKey + 1 }

def glfwSetWindowShouldClose (window : Nat) (value : Int) : M Unit :=
  call (Call.glfwSetWindowShouldClose window value)

def glfwSwapBuffers (window : Nat) : M Unit := call (Call.glfwSwapBuffers window)

def glfwTerminate : M Unit := call Call.glfwTerminate

/-- The statement `std::cerr << text << std::endl`. -/
def cerr (text : String) : M Unit := call (Call.cerr text)

/-- The statement `std::cout << text << std::endl`. -/
def cout (text : String) : M Unit := call (Call.cout text)

/-- The call `exit(status)`: it does not return. -/
def exit {α : Type} (status : Int) : M α := fun _ w => Res.exited status (w.log (Call.exit status))

/-- Run the callbacks of a list of framebuffer resize events. -/
def deliver (callback : Nat → Int → Int → M Unit) (window : Nat) : List (Int × Int) → M Unit
  | [] => pure ()
  | (width, height) :: rest => do
      callback window width height
      deliver callback window rest

/-- The call `glfwPollEvents()`: when a framebuffer-size callback is installed,
the library calls it for every resize event it processes. -/
def glfwPollEvents (callback : Nat → Int → Int → M Unit) (window : Nat) : M Unit :=
  fun env w =>
    let w1 : World := { w.log Call.glfwPollEvents with nPollEvents := w.nPollEvents + 1 }
    if w.callbackSet then deliver callback window (env.framebufferResizes w.nPollEvents) env w1
    else Res.ok () w1

/-! ## OpenGL primitives used by `hello-triangle` -/

/-- The call `glGenBuffers(1, &VBO)`: returns the name stored in `VBO`. -/
def glGenBuffers (n : Int) : M Nat :=
  fun env w => Res.ok (env.glGenBuffers w.nGenBuffers)
    { w.log (Call.glGenBuffers n) with nGenBuffers := w.nGenBuffers + 1 }

/-- The call `glGenVertexArrays(1, &VAO)`: returns the name stored in `VAO`. -/
def glGenVertexArrays (n : Int) : M Nat :=
  fun env w => Res.ok (env.glGenVertexArrays w.nGenVertexArrays)
    { w.log (Call.glGenVertexArrays n) with nGenVertexArrays := w.nGenVertexArrays + 1 }

def glBindVertexArray (array : Nat) : M Unit := call (Call.glBindVertexArray array)

def glBindBuffer (target buffer : Nat) : M Unit := call (Call.glBindBuffer target buffer)

def glBufferData (target : Nat) (size : Int) (data : List Dec) (usage : Nat) : M Unit :=
  call (Call.glBufferData target size data usage)

def glVertexAttribPointer (index : Nat) (size : Int) (type normalized : Nat) (stride : Int)
    (pointer : Nat) : M Unit :=
  call (Call.glVertexAttribPointer index size type normalized stride pointer)

def glEnableVertexAttribArray (index : Nat) : M Unit := call (Call.glEnableVertexAttribArray index)

def glCreateShader (type : Nat) : M Nat :=
  fun env w => Res.ok (env.glCreateShader w.nCreateShader)
    { w.log (Call.glCreateShader type) with nCreateShader := w.nCreateShader + 1 }

/-- The call `glShaderSource(shader, count, &source, NULL)`. -/
def glShaderSource (shader : Nat) (count : Int) (source : String) : M Unit :=
  call (Call.glShaderSource shader count source)

def glCompileShader (shader : Nat) : M Unit := call (Call.glCompileShader shader)

/-- The call `glGetShaderiv(shader, pname, &success)`: returns the value stored in `success`. -/
def glGetShaderiv (shader pname : Nat) : M Int :=
  fun env w => Res.ok (env.glGetShaderiv w.nGetShaderiv)
    { w.log (Call.glGetShaderiv shader pname) with nGetShaderiv := w.nGetShaderiv + 1 }

/-- The call `glGetShaderInfoLog(shader, bufSize, NULL, infoLog)`: returns the text stored in `infoLog`. -/
def glGetShaderInfoLog (shader : Nat) (bufSize : Int) : M String :=
  fun env w => Res.ok (env.glGetShaderInfoLog w.nGetShaderInfoLog)
    { w.log (Call.glGetShaderInfoLog shader bufSize) with nGetShaderInfoLog := w.nGetShaderInfoLog + 1 }

def glCreateProgram : M Nat :=
  fun env w => Res.ok (env.glCreateProgram w.nCreateProgram)
    { w.log Call.glCreateProgram with nCreateProgram := w.nCreateProgram + 1 }

def glAttachShader (program shader : Nat) : M Unit := call (Call.glAttachShader program shader)

def glLinkProgram (program : Nat) : M Unit := call (Call.glLinkProgram program)

/-- The call `glGetProgramiv(program, pname, &success)`: returns the value stored in `success`. -/
def glGetProgramiv (program pname : Nat) : M Int :=
  fun env w => Res.ok (env.glGetProgramiv w.nGetProgramiv)
    { w.log (Call.glGetProgramiv program pname) with nGetProgramiv := w.nGetProgramiv + 1 }

/-- The call `glGetProgramInfoLog(program, bufSize, NULL, infoLog)`: returns the text stored in `infoLog`. -/
def glGetProgramInfoLog (program : Nat) (bufSize : Int) : M String :=
  fun env w => Res.ok (env.glGetProgramInfoLog w.nGetProgramInfoLog)
    { w.log (Call.glGetProgramInfoLog program bufSize) with nGetProgramInfoLog := w.nGetProgramInfoLog + 1 }

def glDeleteShader (shader : Nat) : M Unit := call (Call.glDeleteShader shader)

def glUseProgram (program : Nat) : M Unit := call (Call.glUseProgram program)

def glDrawArrays (mode : Nat) (first count : Int) : M Unit := call (Call.glDrawArrays mode first count)

/-! ## `src/hello-window/main.cpp` -/

namespace HelloWindow

def cleanupAndExit {α : Type} : M α := do
  glfwTerminate
  exit EXIT_FAILURE

def verifyWindowCreation (window : Nat) : M Unit := do
  if window = NULL then
    cerr "Failed to create GLFW window"
    cleanupAndExit

def initializeGladFunctionLoader : M Unit := do
  if (← gladLoadGLLoader) = 0 then
    cerr "Failed to initialize GLAD"
    cleanupAndExit

def framebuffer_size_callback (_window : Nat) (width height : Int) : M Unit :=
  glViewport 0 0 width height

def processInput (window : Nat) : M Unit := do
  if (← glfwGetKey window GLFW_KEY_ESCAPE) = GLFW_PRESS then
    glfwSetWindowShouldClose window 1

/-- The loop `while (!glfwWindowShouldClose(window)) { ... }` of `main`;
`fuel` bounds the number of evaluations of the loop condition. -/
def renderLoop (window : Nat) : Nat → M Unit
  | 0 => fun _ w => Res.running w
  | fuel + 1 => do
      if (← glfwWindowShouldClose window) = 0 then
        glClearColor ⟨2, 1⟩ ⟨3, 1⟩ ⟨3, 1⟩ ⟨10, 1⟩
        glClear GL_COLOR_BUFFER_BIT
        processInput window
        glfwPollEvents framebuffer_size_callback window
        glfwSwapBuffers window
        renderLoop window fuel

def main (fuel : Nat) : M Int := do
  let _ ← glfwInit
  glfwWindowHint GLFW_CONTEXT_VERSION_MAJOR 3
  glfwWindowHint GLFW_CONTEXT_VERSION_MINOR 3
  glfwWindowHint GLFW_OPENGL_PROFILE GLFW_OPENGL_CORE_PROFILE
  let window ← glfwCreateWindow 800 600 "LearnOpenGL" NULL NULL
  verifyWindowCreation window
  glfwMakeContextCurrent window
  initializeGladFunctionLoader
  glViewport 0 0 800 600
  glfwSetFramebufferSizeCallback window framebuffer_size_callback
  renderLoop window fuel
  return 0

/-- A run of the program against the library answers `env`, with `fuel` loop checks. -/
def run (env : Env) (fuel : Nat) : Res Int := main fuel env World.init

end HelloWindow

/-! ## `src/hello-triangle/main.cpp` -/

namespace HelloTriangle

def cleanupAndExit {α : Type} : M α := do
  glfwTerminate
  exit EXIT_FAILURE

def verifyWindowCreation (window : Nat) : M Unit := do
  if window = NULL then
    cerr "Failed to create GLFW window"
    cleanupAndExit

def initializeGladFunctionLoader : M Unit := do
  if (← gladLoadGLLoader) = 0 then
    cerr "Failed to initialize GLAD"
    cleanupAndExit

def framebuffer_size_callback (_window : Nat) (width height : Int) : M Unit :=
  glViewport 0 0 width height

def processInput (window : Nat) : M Unit := do
  if (← glfwGetKey window GLFW_KEY_ESCAPE) = GLFW_PRESS then
    glfwSetWindowShouldClose window 1

def initializeGLFW : M Unit := do
  let _ ← glfwInit
  glfwWindowHint GLFW_CONTEXT_VERSION_MAJOR 3
  glfwWindowHint GLFW_CONTEXT_VERSION_MINOR 3
  glfwWindowHint GLFW_OPENGL_PROFILE GLFW_OPENGL_CORE_PROFILE

def setupVAO (vertices : List Dec) (verticesSize : Int) : M Nat := do
  let VBO ← glGenBuffers 1
  let VAO ← glGenVertexArrays 1
  glBindVertexArray VAO
  glBindBuffer GL_ARRAY_BUFFER VBO
  glBufferData GL_ARRAY_BUFFER verticesSize vertices GL_STATIC_DRAW
  glVertexAttribPointer 0 3 GL_FLOAT GL_FALSE (3 * sizeof_float) 0
  glEnableVertexAttribArray 0
  return VAO

def checkShaderCompilationErrors (shaderObject : Nat) : M Unit := do
  let success ← glGetShaderiv shaderObject GL_COMPILE_STATUS
  if success = 0 then
    let infoLog ← glGetShaderInfoLog shaderObject 512
    cerr ("ERROR::SHADER::VERTEX::COMPILATION_FAILED\n" ++ infoLog)

def createCompiledVertexShaderObject (vertexShaderSource : String) : M Nat := do
  let vertexShader ← glCreateShader GL_VERTEX_SHADER
  glShaderSource vertexShader 1 vertexShaderSource
  glCompileShader vertexShader
  checkShaderCompilationErrors vertexShader
  return vertexShader

def createCompiledFragmentVertexObject (fragmentShaderSource : String) : M Nat := do
  let fragmentShader ← glCreateShader GL_FRAGMENT_SHADER
  glShaderSource fragmentShader 1 fragmentShaderSource
  glCompileShader fragmentShader
  checkShaderCompilationErrors fragmentShader
  return fragmentShader

def checkLinkingErrors (shaderProgram : Nat) : M Unit := do
  let success ← glGetProgramiv shaderProgram GL_LINK_STATUS
  if success = 0 then
    let infoLog ← glGetProgramInfoLog shaderProgram 512
    cout ("ERROR::SHADER::VERTEX::COMPILATION_FAILED\n" ++ infoLog)

def createShadingProgram (vertexShader fragmentShader : Nat) : M Nat := do
  let shaderProgram ← glCreateProgram
  glAttachShader shaderProgram vertexShader
  glAttachShader shaderProgram fragmentShader
  glLinkProgram shaderProgram
  checkLinkingErrors shaderProgram
  return shaderProgram

def vertexShaderSource : String :=
  "#version 330 core\n" ++
  "layout (location = 0) in vec3 aPos;\n" ++
  "void main()\n" ++
  "\x7b\n" ++
  "   gl_Position = vec4(aPos.x, aPos.y, aPos.z, 1.0);\n" ++
  "\x7d"

def fragmentShaderSourceOrange : String :=
  "#version 330 core\n" ++
  "out vec4 FragColor;\n" ++
  "\n" ++
  "void main()\n" ++
  "\x7b\n" ++
  "    FragColor = vec4(1.0f, 0.5f, 0.2f, 1.0f);\n" ++
  "\x7d "

def fragmentShaderSourceYellow : String :=
  "#version 330 core\n" ++
  "out vec4 FragColor;\n" ++
  "\n" ++
  "void main()\n" ++
  "\x7b\n" ++
  "    FragColor = vec4(1.0f, 1.0f, 0.0f, 1.0f);\n" ++
  "\x7d "

def firstTriangleVertices : List Dec :=
  [⟨-10, 1⟩, ⟨-10, 1⟩, ⟨0, 1⟩,
   ⟨-5, 1⟩, ⟨-10, 1⟩, ⟨0, 1⟩,
   ⟨-75, 2⟩, ⟨10, 1⟩, ⟨0, 1⟩]

def secondTriangleVertices : List Dec :=
  [⟨5, 1⟩, ⟨-10, 1⟩, ⟨0, 1⟩,
   ⟨10, 1⟩, ⟨-10, 1⟩, ⟨0, 1⟩,
   ⟨75, 2⟩, ⟨10, 1⟩, ⟨0, 1⟩]

/-- The value of `sizeof(a)` for a `float` array `a` with the given elements. -/
def sizeof_array (a : List Dec) : Int := a.length * sizeof_float

/-- The loop `while (!glfwWindowShouldClose(window)) { ... }` of `main`;
`fuel` bounds the number of evaluations of the loop condition. -/
def renderLoop (window orangeShadingProgram yellowShadingProgram firstTriangleVAO
    secondTriangleVAO : Nat) : Nat → M Unit
  | 0 => fun _ w => Res.running w
  | fuel + 1 => do
      if (← glfwWindowShouldClose window) = 0 then
        glClearColor ⟨2, 1⟩ ⟨3, 1⟩ ⟨3, 1⟩ ⟨10, 1⟩
        glClear GL_COLOR_BUFFER_BIT
        glUseProgram orangeShadingProgram
        glBindVertexArray firstTriangleVAO
        glDrawArrays GL_TRIANGLES 0 3
        glUseProgram yellowShadingProgram
        glBindVertexArray secondTriangleVAO
        glDrawArrays GL_TRIANGLES 0 3
        processInput window
        glfwPollEvents framebuffer_size_callback window
        glfwSwapBuffers window
        renderLoop window orangeShadingProgram yellowShadingProgram firstTriangleVAO
          secondTriangleVAO fuel

def main (fuel : Nat) : M Int := do
  initializeGLFW
  let window ← glfwCreateWindow 800 600 "LearnOpenGL" NULL NULL
  verifyWindowCreation window
  glfwMakeContextCurrent window
  initializeGladFunctionLoader
  glViewport 0 0 800 600
  glfwSetFramebufferSizeCallback window framebuffer_size_callback
  let vertexShader ← createCompiledVertexShaderObject vertexShaderSource
  let fragmentShaderOrange ← createCompiledFragmentVertexObject fragmentShaderSourceOrange
  let fragmentShaderYellow ← createCompiledFragmentVertexObject fragmentShaderSourceYellow
  let orangeShadingProgram ← createShadingProgram vertexShader fragmentShaderOrange
  let yellowShadingProgram ← createShadingProgram vertexShader fragmentShaderYellow
  glDeleteShader vertexShader
  glDeleteShader fragmentShaderOrange
  glDeleteShader fragmentShaderYellow
  let firstTriangleVAO ← setupVAO firstTriangleVertices (sizeof_array firstTriangleVertices)
  let secondTriangleVAO ← setupVAO secondTriangleVertices (sizeof_array secondTriangleVertices)
  renderLoop window orangeShadingProgram yellowShadingProgram firstTriangleVAO
    secondTriangleVAO fuel
  return 0

/-- A run of the program against the library answers `env`, with `fuel` loop checks. -/
def run (env : Env) (fuel : Nat) : Res Int := main fuel env World.init

end HelloTriangle

end LearnOpenGL

namespace LearnOpenGL

/-! ## The two programs -/

/-- The two programs of the repository. -/
inductive Program where
  | helloWindow
  | helloTriangle
  deriving DecidableEq, Repr

/-- A run of a program against the library answers `env`, with `fuel` loop checks. -/
def Program.run : Program → Env → Nat → Res Int
  | Program.helloWindow => HelloWindow.run
  | Program.helloTriangle => HelloTriangle.run

/-! ## Observations on traces -/

/-- An evaluation of the loop condition `glfwWindowShouldClose(window)`. -/
def Call.isCheck : Call → Bool
  | Call.glfwWindowShouldClose _ => true
  | _ => false

def Call.isClear : Call → Bool
  | Call.glClear _ => true
  | _ => false

def Call.isDraw : Call → Bool
  | Call.glDrawArrays _ _ _ => true
  | _ => false

def Call.isGetKey : Call → Bool
  | Call.glfwGetKey _ _ => true
  | _ => false

def Call.isSetClose : Call → Bool
  | Call.glfwSetWindowShouldClose _ _ => true
  | _ => false

def Call.isPoll : Call → Bool
  | Call.glfwPollEvents => true
  | _ => false

def Call.isSwap : Call → Bool
  | Call.glfwSwapBuffers _ => true
  | _ => false

def Call.isUseProgram : Call → Bool
  | Call.glUseProgram _ => true
  | _ => false

/-- The calls that only the render loop issues: the check of the close flag,
clear, draw, program selection, input poll, setting the close flag, event poll,
buffer swap. -/
def Call.isLoopCall (c : Call) : Bool :=
  c.isCheck || c.isClear || c.isDraw || c.isUseProgram || c.isGetKey || c.isSetClose ||
    c.isPoll || c.isSwap

/-- The calls that report a failed compilation or link: the info-log queries
and the writes to the standard streams. -/
def Call.isDiagnostic : Call → Bool
  | Call.glGetShaderInfoLog _ _ => true
  | Call.glGetProgramInfoLog _ _ => true
  | Call.cerr _ => true
  | Call.cout _ => true
  | _ => false

def Call.isCompile : Call → Bool
  | Call.glCompileShader _ => true
  | _ => false

def Call.isAttach : Call → Bool
  | Call.glAttachShader _ _ => true
  | _ => false

def Call.isLink : Call → Bool
  | Call.glLinkProgram _ => true
  | _ => false

def Call.isBufferData : Call → Bool
  | Call.glBufferData _ _ _ _ => true
  | _ => false

def Call.isCreateShader : Call → Bool
  | Call.glCreateShader _ => true
  | _ => false

def Call.isCreateProgram : Call → Bool
  | Call.glCreateProgram => true
  | _ => false

def Call.isGenBuffers : Call → Bool
  | Call.glGenBuffers _ => true
  | _ => false

def Call.isGenVertexArrays : Call → Bool
  | Call.glGenVertexArrays _ => true
  | _ => false

/-- The calls that create a GPU-side object. -/
def Call.isCreate (c : Call) : Bool :=
  c.isCreateShader || c.isCreateProgram || c.isGenBuffers || c.isGenVertexArrays

/-- The calls that delete a GPU-side object. -/
def Call.isDelete : Call → Bool
  | Call.glDeleteShader _ => true
  | Call.glDeleteProgram _ => true
  | Call.glDeleteBuffers _ _ => true
  | Call.glDeleteVertexArrays _ _ => true
  | _ => false

/-- The kinds of call an iteration of a render loop is made of. -/
def Call.isFrameCall : Call → Bool
  | Call.glClearColor _ _ _ _ => true
  | Call.glClear _ => true
  | Call.glUseProgram _ => true
  | Call.glBindVertexArray _ => true
  | Call.glDrawArrays _ _ _ => true
  | Call.glfwGetKey _ _ => true
  | Call.glfwSetWindowShouldClose _ _ => true
  | Call.glfwPollEvents => true
  | Call.glViewport _ _ _ _ => true
  | Call.glfwSwapBuffers _ => true
  | _ => false

/-- The calls of one iteration of a render loop other than the callbacks run by `glfwPollEvents`:
clear, draw, input poll, event poll, buffer swap. -/
def Call.isFrameStep (c : Call) : Bool :=
  c.isClear || c.isDraw || c.isGetKey || c.isPoll || c.isSwap

/-- The segments of a trace that follow each evaluation of the loop condition,
each up to the next evaluation: segment `k` holds what the program did after
the `k`-th check. -/
def frames : List Call → List (List Call)
  | [] => []
  | c :: cs =>
    if c.isCheck then cs.takeWhile (fun x => !x.isCheck) :: frames cs else frames cs

/-- The part of a trace before the first evaluation of the loop condition:
the startup of the program. -/
def startup (trace : List Call) : List Call := trace.takeWhile (fun c => !c.isCheck)

/-- The part of a trace from the first evaluation of the loop condition on:
the render loop. -/
def renderPart (trace : List Call) : List Call := trace.dropWhile (fun c => !c.isCheck)

def Call.isShaderSource : Call → Bool
  | Call.glShaderSource _ _ _ => true
  | _ => false

/-- The calls that build a program: attaching a shader, linking. -/
def Call.isAttachOrLink (c : Call) : Bool := c.isAttach || c.isLink

def Call.isAttribPointer : Call → Bool
  | Call.glVertexAttribPointer _ _ _ _ _ _ => true
  | _ => false

def Call.isDeleteShader : Call → Bool
  | Call.glDeleteShader _ => true
  | _ => false

/-- The shader name a call passes to the library, for the calls that take one. -/
def Call.shaderArg : Call → Option Nat
  | Call.glShaderSource shader _ _ => some shader
  | Call.glCompileShader shader => some shader
  | Call.glGetShaderiv shader _ => some shader
  | Call.glGetShaderInfoLog shader _ => some shader
  | Call.glAttachShader _ shader => some shader
  | Call.glDeleteShader shader => some shader
  | _ => none

/-- The calls that pass a shader name to the library. -/
def Call.usesShader (c : Call) : Bool := c.shaderArg.isSome

/-- No call after a `glDeleteShader(s)` passes the shader name `s` to the library again. -/
def noUseAfterDelete : List Call → Bool
  | [] => true
  | Call.glDeleteShader s :: cs =>
    cs.all (fun c => decide (c.shaderArg ≠ some s)) && noUseAfterDelete cs
  | _ :: cs => noUseAfterDelete cs

/-- After a call `glDeleteShader(s)` for the given name `s`, no call passes `s`
to the library again. -/
def noUseAfterDeleteOf (s : Nat) : List Call → Bool
  | [] => true
  | Call.glDeleteShader s1 :: cs =>
    (if s1 = s then cs.all (fun c => decide (c.shaderArg ≠ some s)) else true) &&
      noUseAfterDeleteOf s cs
  | _ :: cs => noUseAfterDeleteOf s cs

/-- No shader is attached and no program is linked after a `glDeleteShader` call. -/
def deletedAfterLinking : List Call → Bool
  | [] => true
  | Call.glDeleteShader _ :: cs => cs.all (fun c => !c.isAttachOrLink) && deletedAfterLinking cs
  | _ :: cs => deletedAfterLinking cs

/-- The state a draw call reads, for each draw call of a trace in order: the
program made current by the last `glUseProgram` before it and the vertex array
bound by the last `glBindVertexArray` before it (`none` when there was none).
The first argument is the state in which the trace starts. -/
def drawStates : Option Nat × Option Nat → List Call → List (Option Nat × Option Nat)
  | _, [] => []
  | s, Call.glUseProgram program :: cs => drawStates (some program, s.2) cs
  | s, Call.glBindVertexArray array :: cs => drawStates (s.1, some array) cs
  | s, Call.glDrawArrays _ _ _ :: cs => s :: drawStates s cs
  | s, _ :: cs => drawStates s cs

/-- The current program and bound vertex array after a list of calls. -/
def glState : Option Nat × Option Nat → List Call → Option Nat × Option Nat
  | s, [] => s
  | s, Call.glUseProgram program :: cs => glState (some program, s.2) cs
  | s, Call.glBindVertexArray array :: cs => glState (s.1, some array) cs
  | s, _ :: cs => glState s cs

/-- The list `a, b, a, b, ...` with `n` pairs. -/
def alternate {α : Type} (a b : α) : Nat → List α
  | 0 => []
  | n + 1 => a :: b :: alternate a b n

/-! ## Predicted traces (used by the proofs) -/

/-- The calls made by the library while it runs the program's callback for a
list of resize events. -/
def resizeCalls (l : List (Int × Int)) : List Call :=
  l.map (fun p => Call.glViewport 0 0 p.1 p.2)

/-- The calls of `processInput` at its `k`-th call. -/
def inputCalls (env : Env) (window : Nat) (k : Nat) : List Call :=
  Call.glfwGetKey window GLFW_KEY_ESCAPE ::
    (if env.glfwGetKey k = GLFW_PRESS then [Call.glfwSetWindowShouldClose window 1] else [])

/-- The end of an iteration: input, events (with callbacks), swap. -/
def frameTail (env : Env) (window : Nat) (k : Nat) : List Call :=
  inputCalls env window k ++
    (Call.glfwPollEvents :: (resizeCalls (env.framebufferResizes k) ++
      [Call.glfwSwapBuffers window]))

/-- The calls of `n` iterations starting with iteration `i`, where `frame k`
is what iteration `k` does after its check. -/
def loopCalls (frame : Nat → List Call) (window : Nat) (i : Nat) : Nat → List Call
  | 0 => []
  | n + 1 => Call.glfwWindowShouldClose window :: (frame i ++ loopCalls frame window (i + 1) n)

/-- The bodies of `n` iterations starting with iteration `i`. -/
def framesFrom (frame : Nat → List Call) (i : Nat) : Nat → List (List Call)
  | 0 => []
  | n + 1 => frame i :: framesFrom frame (i + 1) n

namespace HelloWindow

/-- The calls of `main` before the render loop, when setup succeeds. -/
def setupCalls (env : Env) : List Call :=
  [Call.glfwInit,
   Call.glfwWindowHint GLFW_CONTEXT_VERSION_MAJOR 3,
   Call.glfwWindowHint GLFW_CONTEXT_VERSION_MINOR 3,
   Call.glfwWindowHint GLFW_OPENGL_PROFILE GLFW_OPENGL_CORE_PROFILE,
   Call.glfwCreateWindow 800 600 "LearnOpenGL" NULL NULL,
   Call.glfwMakeContextCurrent env.glfwCreateWindow,
   Call.gladLoadGLLoader,
   Call.glViewport 0 0 800 600,
   Call.glfwSetFramebufferSizeCallback env.glfwCreateWindow]

/-- The calls of iteration `k` of the render loop after its check. -/
def frameCalls (env : Env) (k : Nat) : List Call :=
  Call.glClearColor ⟨2, 1⟩ ⟨3, 1⟩ ⟨3, 1⟩ ⟨10, 1⟩ :: Call.glClear GL_COLOR_BUFFER_BIT ::
    frameTail env env.glfwCreateWindow k

end HelloWindow

namespace HelloTriangle

/-- The calls of `checkShaderCompilationErrors` when the library reports `status`
and the info log `log`. -/
def checkShaderCalls (shader : Nat) (status : Int) (log : String) : List Call :=
  Call.glGetShaderiv shader GL_COMPILE_STATUS ::
    (if status = 0 then
      [Call.glGetShaderInfoLog shader 512,
       Call.cerr ("ERROR::SHADER::VERTEX::COMPILATION_FAILED\n" ++ log)]
     else [])

/-- The calls of `createCompiledVertexShaderObject` / `createCompiledFragmentVertexObject`. -/
def compileCalls (type : Nat) (source : String) (shader : Nat) (status : Int) (log : String) :
    List Call :=
  Call.glCreateShader type :: Call.glShaderSource shader 1 source :: Call.glCompileShader shader ::
    checkShaderCalls shader status log

/-- The calls of `checkLinkingErrors` when the library reports `status` and the info log `log`. -/
def checkLinkCalls (program : Nat) (status : Int) (log : String) : List Call :=
  Call.glGetProgramiv program GL_LINK_STATUS ::
    (if status = 0 then
      [Call.glGetProgramInfoLog program 512,
       Call.cout ("ERROR::SHADER::VERTEX::COMPILATION_FAILED\n" ++ log)]
     else [])

/-- The calls of `createShadingProgram`. -/
def linkCalls (vertexShader fragmentShader program : Nat) (status : Int) (log : String) :
    List Call :=
  Call.glCreateProgram :: Call.glAttachShader program vertexShader ::
    Call.glAttachShader program fragmentShader :: Call.glLinkProgram program ::
    checkLinkCalls program status log

/-- The calls of `setupVAO`. -/
def vaoCalls (vertices : List Dec) (verticesSize : Int) (VBO VAO : Nat) : List Call :=
  [Call.glGenBuffers 1, Call.glGenVertexArrays 1, Call.glBindVertexArray VAO,
   Call.glBindBuffer GL_ARRAY_BUFFER VBO,
   Call.glBufferData GL_ARRAY_BUFFER verticesSize vertices GL_STATIC_DRAW,
   Call.glVertexAttribPointer 0 3 GL_FLOAT GL_FALSE (3 * sizeof_float) 0,
   Call.glEnableVertexAttribArray 0]

/-- The number of info-log queries before the `k`-th status query, for a
stream of statuses: one per earlier failure. -/
def logIndex (status : Nat → Int) : Nat → Nat
  | 0 => 0
  | k + 1 => logIndex status k + (if status k = 0 then 1 else 0)

/-- The calls of `main` between window setup and shader deletion: three
shaders compiled, two programs linked. -/
def shaderSetupCalls (env : Env) : List Call :=
  compileCalls GL_VERTEX_SHADER vertexShaderSource (env.glCreateShader 0)
      (env.glGetShaderiv 0) (env.glGetShaderInfoLog (logIndex env.glGetShaderiv 0)) ++
  compileCalls GL_FRAGMENT_SHADER fragmentShaderSourceOrange (env.glCreateShader 1)
      (env.glGetShaderiv 1) (env.glGetShaderInfoLog (logIndex env.glGetShaderiv 1)) ++
  compileCalls GL_FRAGMENT_SHADER fragmentShaderSourceYellow (env.glCreateShader 2)
      (env.glGetShaderiv 2) (env.glGetShaderInfoLog (logIndex env.glGetShaderiv 2)) ++
  linkCalls (env.glCreateShader 0) (env.glCreateShader 1) (env.glCreateProgram 0)
      (env.glGetProgramiv 0) (env.glGetProgramInfoLog (logIndex env.glGetProgramiv 0)) ++
  linkCalls (env.glCreateShader 0) (env.glCreateShader 2) (env.glCreateProgram 1)
      (env.glGetProgramiv 1) (env.glGetProgramInfoLog (logIndex env.glGetProgramiv 1))

/-- The three `glDeleteShader` calls of `main`. -/
def deleteCalls (env : Env) : List Call :=
  [Call.glDeleteShader (env.glCreateShader 0), Call.glDeleteShader (env.glCreateShader 1),
   Call.glDeleteShader (env.glCreateShader 2)]

/-- The calls of the two `setupVAO` calls of `main`. -/
def vaoSetupCalls (env : Env) : List Call :=
  vaoCalls firstTriangleVertices (sizeof_array firstTriangleVertices)
      (env.glGenBuffers 0) (env.glGenVertexArrays 0) ++
  vaoCalls secondTriangleVertices (sizeof_array secondTriangleVertices)
      (env.glGenBuffers 1) (env.glGenVertexArrays 1)

/-- The calls of `main` before the render loop, when setup succeeds. -/
def setupCalls (env : Env) : List Call :=
  HelloWindow.setupCalls env ++ (shaderSetupCalls env ++ (deleteCalls env ++ vaoSetupCalls env))

/-- The world in which `main` enters the render loop. -/
def setupWorld (env : Env) : World :=
  { trace := setupCalls env
    callbackSet := true
    nCreateShader := 3
    nGetShaderiv := 3
    nGetShaderInfoLog := logIndex env.glGetShaderiv 3
    nCreateProgram := 2
    nGetProgramiv := 2
    nGetProgramInfoLog := logIndex env.glGetProgramiv 2
    nGenBuffers := 2
    nGenVertexArrays := 2 }

/-- The draw calls of one iteration of the render loop. -/
def drawCalls (env : Env) : List Call :=
  [Call.glUseProgram (env.glCreateProgram 0), Call.glBindVertexArray (env.glGenVertexArrays 0),
   Call.glDrawArrays GL_TRIANGLES 0 3,
   Call.glUseProgram (env.glCreateProgram 1), Call.glBindVertexArray (env.glGenVertexArrays 1),
   Call.glDrawArrays GL_TRIANGLES 0 3]

/-- The calls of iteration `k` of the render loop after its check. -/
def frameCalls (env : Env) (k : Nat) : List Call :=
  Call.glClearColor ⟨2, 1⟩ ⟨3, 1⟩ ⟨3, 1⟩ ⟨10, 1⟩ :: Call.glClear GL_COLOR_BUFFER_BIT ::
    (drawCalls env ++ frameTail env env.glfwCreateWindow k)

end HelloTriangle

namespace HelloWindow

/-- The world in which `main` enters the render loop. -/
def setupWorld (env : Env) : World :=
  { trace := setupCalls env, callbackSet := true }

end HelloWindow

/-- The calls of a program before its render loop, when setup succeeds. -/
def Program.setupCalls : Program → Env → List Call
  | Program.helloWindow => HelloWindow.setupCalls
  | Program.helloTriangle => HelloTriangle.setupCalls

/-- The calls of iteration `k` of a program's render loop after its check. -/
def Program.frameCalls : Program → Env → Nat → List Call
  | Program.helloWindow => HelloWindow.frameCalls
  | Program.helloTriangle => HelloTriangle.frameCalls

/-- The calls of a run that ends in `verifyWindowCreation`. -/
def windowFailureCalls : List Call :=
  [Call.glfwInit,
   Call.glfwWindowHint GLFW_CONTEXT_VERSION_MAJOR 3,
   Call.glfwWindowHint GLFW_CONTEXT_VERSION_MINOR 3,
   Call.glfwWindowHint GLFW_OPENGL_PROFILE GLFW_OPENGL_CORE_PROFILE,
   Call.glfwCreateWindow 800 600 "LearnOpenGL" NULL NULL,
   Call.cerr "Failed to create GLFW window",
   Call.glfwTerminate,
   Call.exit EXIT_FAILURE]

/-- The calls of a run that ends in `initializeGladFunctionLoader`. -/
def loaderFailureCalls (env : Env) : List Call :=
  [Call.glfwInit,
   Call.glfwWindowHint GLFW_CONTEXT_VERSION_MAJOR 3,
   Call.glfwWindowHint GLFW_CONTEXT_VERSION_MINOR 3,
   Call.glfwWindowHint GLFW_OPENGL_PROFILE GLFW_OPENGL_CORE_PROFILE,
   Call.glfwCreateWindow 800 600 "LearnOpenGL" NULL NULL,
   Call.glfwMakeContextCurrent env.glfwCreateWindow,
   Call.gladLoadGLLoader,
   Call.cerr "Failed to initialize GLAD",
   Call.glfwTerminate,
   Call.exit EXIT_FAILURE]

/-- The library `env` with other compile statuses, link statuses and info logs. -/
def Env.withStatuses (env : Env) (compileStatus linkStatus : Nat → Int)
    (shaderLog programLog : Nat → String) : Env :=
  { env with
    glGetShaderiv := compileStatus
    glGetProgramiv := linkStatus
    glGetShaderInfoLog := shaderLog
    glGetProgramInfoLog := programLog }

/-! ## Concrete library behaviours -/

namespace Example

/-- A library that creates the window, loads OpenGL, reports every shader and
program as good, and reads the close flag as set at the third check, Escape
having been pressed during the second iteration. -/
def closeAfterTwoFrames : Env where
  glfwInit := 1
  glfwCreateWindow := 7
  gladLoadGLLoader := 1
  glfwWindowShouldClose := fun k => if k < 2 then 0 else 1
  glfwGetKey := fun k => if k = 1 then 1 else 0
  framebufferResizes := fun k => if k = 0 then [(1024, 768)] else []
  glCreateShader := fun k => k + 1
  glGetShaderiv := fun _ => 1
  glGetShaderInfoLog := fun _ => ""
  glCreateProgram := fun k => k + 4
  glGetProgramiv := fun _ => 1
  glGetProgramInfoLog := fun _ => ""
  glGenBuffers := fun k => k + 1
  glGenVertexArrays := fun k => k + 1

/-- A library whose `glfwCreateWindow` fails. -/
def noWindow : Env := { closeAfterTwoFrames with glfwCreateWindow := NULL }

/-- A library whose `gladLoadGLLoader` fails. -/
def noLoader : Env := { closeAfterTwoFrames with gladLoadGLLoader := 0 }

/-- A library that never reads the close flag as set. -/
def neverClose : Env := { closeAfterTwoFrames with glfwWindowShouldClose := fun _ => 0 }

/-- A library whose `glCreateShader` fails every time and returns 0. -/
def noShader : Env := { closeAfterTwoFrames with glCreateShader := fun _ => 0 }

/-- A library whose `glCreateShader` fails twice, returning 0, and then creates
the shader 5. -/
def oneShader : Env :=
  { closeAfterTwoFrames with glCreateShader := fun k => if k = 2 then 5 else 0 }

/-- A library that reports every compilation and every link as failed. -/
def badShaders : Env :=
  { closeAfterTwoFrames with
    glGetShaderiv := fun _ => 0
    glGetShaderInfoLog := fun _ => "0:1: error"
    glGetProgramiv := fun _ => 0
    glGetProgramInfoLog := fun _ => "link error" }

end Example

end LearnOpenGL

namespace LearnOpenGL

/-! ## Running computations -/

@[simp] theorem M.pure_run {α : Type} (a : α) (env : Env) (w : World) :
    (pure a : M α) env w = Res.ok a w := rfl

@[simp] theorem M.bind_run {α β : Type} (m : M α) (f : α → M β) (env : Env) (w : World) :
    (m >>= f) env w = (m env w).andThen (fun a w1 => f a env w1) := rfl

@[simp] theorem M.ite_run {α : Type} (c : Prop) [Decidable c] (m1 m2 : M α) (env : Env)
    (w : World) : (if c then m1 else m2) env w = if c then m1 env w else m2 env w := by
  split <;> rfl

@[simp] theorem Res.andThen_ok {α β : Type} (a : α) (w : World) (k : α → World → Res β) :
    (Res.ok a w).andThen k = k a w := rfl

@[simp] theorem Res.andThen_exited {α β : Type} (c : Int) (w : World) (k : α → World → Res β) :
    (Res.exited c w : Res α).andThen k = Res.exited c w := rfl

@[simp] theorem Res.andThen_running {α β : Type} (w : World) (k : α → World → Res β) :
    (Res.running w : Res α).andThen k = Res.running w := rfl

@[simp] theorem call_run (c : Call) (env : Env) (w : World) :
    call c env w = Res.ok () { w with trace := w.trace ++ [c] } := rfl

theorem deliver_run (callback : Nat → Int → Int → M Unit) (window : Nat) (env : Env)
    (hcb : ∀ width height w, callback window width height env w =
      Res.ok () { w with trace := w.trace ++ [Call.glViewport 0 0 width height] }) :
    ∀ (l : List (Int × Int)) (w : World),
      deliver callback window l env w = Res.ok () { w with trace := w.trace ++ resizeCalls l } := by
  intro l
  induction l with
  | nil => intro w; simp [deliver, resizeCalls]
  | cons p rest ih =>
    intro w
    obtain ⟨width, height⟩ := p
    simp [deliver, hcb, ih, resizeCalls]

end LearnOpenGL

namespace LearnOpenGL

/-! ## The render loop of `hello-window` -/

theorem window_processInput_run (window : Nat) (env : Env) (w : World) :
    HelloWindow.processInput window env w =
      Res.ok () { w with trace := w.trace ++ inputCalls env window w.nGetKey,
                         nGetKey := w.nGetKey + 1 } := by
  by_cases h : env.glfwGetKey w.nGetKey = GLFW_PRESS <;>
    simp [HelloWindow.processInput, glfwGetKey, glfwSetWindowShouldClose, World.log, inputCalls, h]

theorem window_pollEvents_run (window : Nat) (env : Env) (w : World) (hcb : w.callbackSet = true) :
    glfwPollEvents HelloWindow.framebuffer_size_callback window env w =
      Res.ok () { w with trace := w.trace ++ Call.glfwPollEvents ::
                           resizeCalls (env.framebufferResizes w.nPollEvents),
                         nPollEvents := w.nPollEvents + 1 } := by
  have hd := deliver_run HelloWindow.framebuffer_size_callback window env
    (fun width height w => by simp [HelloWindow.framebuffer_size_callback, glViewport])
  simp [glfwPollEvents, hcb, hd, World.log]

/-- One step of the loop of `hello-window` whose check reads the flag as not set. -/
theorem window_renderLoop_step (env : Env) (window : Nat) (fuel : Nat) (w : World)
    (hcb : w.callbackSet = true) (hp : w.nPollEvents = w.nGetKey)
    (h0 : env.glfwWindowShouldClose w.nWindowShouldClose = 0) :
    HelloWindow.renderLoop window (fuel + 1) env w =
      HelloWindow.renderLoop window fuel env
        { w with trace := w.trace ++ Call.glfwWindowShouldClose window ::
                   (Call.glClearColor ⟨2, 1⟩ ⟨3, 1⟩ ⟨3, 1⟩ ⟨10, 1⟩ ::
                    Call.glClear GL_COLOR_BUFFER_BIT :: frameTail env window w.nGetKey),
                 nWindowShouldClose := w.nWindowShouldClose + 1,
                 nGetKey := w.nGetKey + 1,
                 nPollEvents := w.nPollEvents + 1 } := by
  simp [HelloWindow.renderLoop, glfwWindowShouldClose, h0, glClearColor, glClear,
    window_processInput_run, window_pollEvents_run, hcb, glfwSwapBuffers, World.log, frameTail, hp]

/-- The step of the loop of `hello-window` whose check reads the flag as set. -/
theorem window_renderLoop_stop (env : Env) (window : Nat) (fuel : Nat) (w : World)
    (h1 : env.glfwWindowShouldClose w.nWindowShouldClose ≠ 0) :
    HelloWindow.renderLoop window (fuel + 1) env w =
      Res.ok () { w with trace := w.trace ++ [Call.glfwWindowShouldClose window],
                         nWindowShouldClose := w.nWindowShouldClose + 1 } := by
  simp [HelloWindow.renderLoop, glfwWindowShouldClose, h1, World.log]

end LearnOpenGL

namespace LearnOpenGL

/-! ## Loops in general -/

/-- Either some check among the first `fuel` reads the flag as set, and then
there is a first one, or all of them read it as not set. -/
theorem first_set_or_none (sc : Nat → Int) (fuel : Nat) :
    (∃ n, n < fuel ∧ (∀ j, j < n → sc j = 0) ∧ sc n ≠ 0) ∨ (∀ j, j < fuel → sc j = 0) := by
  induction fuel with
  | zero => right; intro j hj; omega
  | succ fuel ih =>
    rcases ih with ⟨n, hn, hlt, hne⟩ | hall
    · left; exact ⟨n, by omega, hlt, hne⟩
    · by_cases h : sc fuel = 0
      · right
        intro j hj
        rcases Nat.lt_succ_iff_lt_or_eq.mp hj with hlt | heq
        · exact hall j hlt
        · rw [heq]; exact h
      · left; exact ⟨fuel, by omega, hall, h⟩

/-- The trace of a loop that checks, runs `frame` and repeats. -/
theorem loop_spec (env : Env) (window : Nat) (frame : Nat → List Call)
    (loop : Nat → World → Res Unit)
    (hzero : ∀ w, loop 0 w = Res.running w)
    (hstep : ∀ fuel w, w.callbackSet = true → w.nPollEvents = w.nGetKey →
      env.glfwWindowShouldClose w.nWindowShouldClose = 0 →
      loop (fuel + 1) w = loop fuel
        { w with trace := w.trace ++ Call.glfwWindowShouldClose window :: frame w.nGetKey,
                 nWindowShouldClose := w.nWindowShouldClose + 1,
                 nGetKey := w.nGetKey + 1,
                 nPollEvents := w.nPollEvents + 1 })
    (hstop : ∀ fuel w, env.glfwWindowShouldClose w.nWindowShouldClose ≠ 0 →
      loop (fuel + 1) w =
        Res.ok () { w with trace := w.trace ++ [Call.glfwWindowShouldClose window],
                           nWindowShouldClose := w.nWindowShouldClose + 1 }) :
    ∀ (fuel : Nat) (w : World) (i : Nat), w.callbackSet = true → w.nWindowShouldClose = i →
      w.nGetKey = i → w.nPollEvents = i →
      (∀ n, n < fuel → (∀ j, j < n → env.glfwWindowShouldClose (i + j) = 0) →
        env.glfwWindowShouldClose (i + n) ≠ 0 →
        ∃ w1, loop fuel w = Res.ok () w1 ∧
          w1.trace = w.trace ++ (loopCalls frame window i n ++ [Call.glfwWindowShouldClose window])) ∧
      ((∀ j, j < fuel → env.glfwWindowShouldClose (i + j) = 0) →
        ∃ w1, loop fuel w = Res.running w1 ∧
          w1.trace = w.trace ++ loopCalls frame window i fuel) := by
  intro fuel
  induction fuel with
  | zero =>
    intro w i _ _ _ _
    refine ⟨fun n hn => absurd hn (Nat.not_lt_zero n), fun _ => ⟨w, hzero w, ?_⟩⟩
    simp [loopCalls]
  | succ fuel ih =>
    intro w i hcb hc hk hp
    have hnext := ih
      { w with trace := w.trace ++ Call.glfwWindowShouldClose window :: frame w.nGetKey,
               nWindowShouldClose := w.nWindowShouldClose + 1,
               nGetKey := w.nGetKey + 1,
               nPollEvents := w.nPollEvents + 1 } (i + 1) hcb
      (by simp [hc]) (by simp [hk]) (by simp [hp])
    constructor
    · intro n hn hlt hne
      cases n with
      | zero =>
        have h1 : env.glfwWindowShouldClose w.nWindowShouldClose ≠ 0 := by
          rw [hc]; simpa using hne
        exact ⟨_, hstop fuel w h1, by simp [loopCalls]⟩
      | succ n =>
        have h0 : env.glfwWindowShouldClose w.nWindowShouldClose = 0 := by
          rw [hc]; simpa using hlt 0 (Nat.succ_pos n)
        obtain ⟨w1, hrun, htr⟩ := hnext.1 n (by omega)
          (fun j hj => by
            have := hlt (j + 1) (by omega)
            rwa [show i + (j + 1) = i + 1 + j by omega] at this)
          (by rwa [show i + (n + 1) = i + 1 + n by omega] at hne)
        refine ⟨w1, ?_, ?_⟩
        · rw [hstep fuel w hcb (by rw [hp, hk]) h0]; exact hrun
        · rw [htr]; simp [loopCalls, hk]
    · intro hall
      have h0 : env.glfwWindowShouldClose w.nWindowShouldClose = 0 := by
        rw [hc]; simpa using hall 0 (Nat.succ_pos fuel)
      obtain ⟨w1, hrun, htr⟩ := hnext.2
        (fun j hj => by
          have := hall (j + 1) (by omega)
          rwa [show i + (j + 1) = i + 1 + j by omega] at this)
      refine ⟨w1, ?_, ?_⟩
      · rw [hstep fuel w hcb (by rw [hp, hk]) h0]; exact hrun
      · rw [htr]; simp [loopCalls, hk]

end LearnOpenGL

namespace LearnOpenGL

/-! ## Setup of `hello-window` -/

theorem window_main_window_failure (env : Env) (fuel : Nat) (hw : env.glfwCreateWindow = NULL) :
    HelloWindow.run env fuel =
      Res.exited EXIT_FAILURE { World.init with trace := windowFailureCalls } := by
  simp [HelloWindow.run, HelloWindow.main, glfwInit, glfwWindowHint, glfwCreateWindow,
    HelloWindow.verifyWindowCreation, HelloWindow.cleanupAndExit, cerr, glfwTerminate, exit, hw,
    World.log, World.init, windowFailureCalls]

theorem window_main_loader_failure (env : Env) (fuel : Nat) (hw : env.glfwCreateWindow ≠ NULL)
    (hg : env.gladLoadGLLoader = 0) :
    HelloWindow.run env fuel =
      Res.exited EXIT_FAILURE { World.init with trace := loaderFailureCalls env } := by
  simp [HelloWindow.run, HelloWindow.main, glfwInit, glfwWindowHint, glfwCreateWindow,
    HelloWindow.verifyWindowCreation, HelloWindow.cleanupAndExit, cerr, glfwTerminate, exit, hw,
    glfwMakeContextCurrent, HelloWindow.initializeGladFunctionLoader, gladLoadGLLoader, hg,
    World.log, World.init, loaderFailureCalls]

theorem window_main_setup (env : Env) (fuel : Nat) (hw : env.glfwCreateWindow ≠ NULL)
    (hg : env.gladLoadGLLoader ≠ 0) :
    HelloWindow.run env fuel =
      (HelloWindow.renderLoop env.glfwCreateWindow fuel env (HelloWindow.setupWorld env)).andThen
        (fun _ w => Res.ok 0 w) := by
  simp [HelloWindow.run, HelloWindow.main, glfwInit, glfwWindowHint, glfwCreateWindow,
    HelloWindow.verifyWindowCreation, hw,
    glfwMakeContextCurrent, HelloWindow.initializeGladFunctionLoader, gladLoadGLLoader, hg,
    glViewport, glfwSetFramebufferSizeCallback,
    World.log, World.init, HelloWindow.setupWorld, HelloWindow.setupCalls]

end LearnOpenGL

namespace LearnOpenGL

/-! ## The functions of `hello-triangle` -/

theorem triangle_checkShader_run (shader : Nat) (env : Env) (w : World) :
    HelloTriangle.checkShaderCompilationErrors shader env w =
      Res.ok () { w with
        trace := w.trace ++ HelloTriangle.checkShaderCalls shader (env.glGetShaderiv w.nGetShaderiv)
          (env.glGetShaderInfoLog w.nGetShaderInfoLog),
        nGetShaderiv := w.nGetShaderiv + 1,
        nGetShaderInfoLog := w.nGetShaderInfoLog +
          (if env.glGetShaderiv w.nGetShaderiv = 0 then 1 else 0) } := by
  by_cases h : env.glGetShaderiv w.nGetShaderiv = 0 <;>
    simp [HelloTriangle.checkShaderCompilationErrors, glGetShaderiv, glGetShaderInfoLog, cerr,
      World.log, HelloTriangle.checkShaderCalls, h]

theorem triangle_vertexShader_run (source : String) (env : Env) (w : World) :
    HelloTriangle.createCompiledVertexShaderObject source env w =
      Res.ok (env.glCreateShader w.nCreateShader) { w with
        trace := w.trace ++ HelloTriangle.compileCalls GL_VERTEX_SHADER source
          (env.glCreateShader w.nCreateShader) (env.glGetShaderiv w.nGetShaderiv)
          (env.glGetShaderInfoLog w.nGetShaderInfoLog),
        nCreateShader := w.nCreateShader + 1,
        nGetShaderiv := w.nGetShaderiv + 1,
        nGetShaderInfoLog := w.nGetShaderInfoLog +
          (if env.glGetShaderiv w.nGetShaderiv = 0 then 1 else 0) } := by
  simp [HelloTriangle.createCompiledVertexShaderObject, glCreateShader, glShaderSource,
    glCompileShader, triangle_checkShader_run, World.log, HelloTriangle.compileCalls]

theorem triangle_fragmentShader_run (source : String) (env : Env) (w : World) :
    HelloTriangle.createCompiledFragmentVertexObject source env w =
      Res.ok (env.glCreateShader w.nCreateShader) { w with
        trace := w.trace ++ HelloTriangle.compileCalls GL_FRAGMENT_SHADER source
          (env.glCreateShader w.nCreateShader) (env.glGetShaderiv w.nGetShaderiv)
          (env.glGetShaderInfoLog w.nGetShaderInfoLog),
        nCreateShader := w.nCreateShader + 1,
        nGetShaderiv := w.nGetShaderiv + 1,
        nGetShaderInfoLog := w.nGetShaderInfoLog +
          (if env.glGetShaderiv w.nGetShaderiv = 0 then 1 else 0) } := by
  simp [HelloTriangle.createCompiledFragmentVertexObject, glCreateShader, glShaderSource,
    glCompileShader, triangle_checkShader_run, World.log, HelloTriangle.compileCalls]

theorem triangle_checkLink_run (program : Nat) (env : Env) (w : World) :
    HelloTriangle.checkLinkingErrors program env w =
      Res.ok () { w with
        trace := w.trace ++ HelloTriangle.checkLinkCalls program (env.glGetProgramiv w.nGetProgramiv)
          (env.glGetProgramInfoLog w.nGetProgramInfoLog),
        nGetProgramiv := w.nGetProgramiv + 1,
        nGetProgramInfoLog := w.nGetProgramInfoLog +
          (if env.glGetProgramiv w.nGetProgramiv = 0 then 1 else 0) } := by
  by_cases h : env.glGetProgramiv w.nGetProgramiv = 0 <;>
    simp [HelloTriangle.checkLinkingErrors, glGetProgramiv, glGetProgramInfoLog, cout,
      World.log, HelloTriangle.checkLinkCalls, h]

theorem triangle_program_run (vertexShader fragmentShader : Nat) (env : Env) (w : World) :
    HelloTriangle.createShadingProgram vertexShader fragmentShader env w =
      Res.ok (env.glCreateProgram w.nCreateProgram) { w with
        trace := w.trace ++ HelloTriangle.linkCalls vertexShader fragmentShader
          (env.glCreateProgram w.nCreateProgram) (env.glGetProgramiv w.nGetProgramiv)
          (env.glGetProgramInfoLog w.nGetProgramInfoLog),
        nCreateProgram := w.nCreateProgram + 1,
        nGetProgramiv := w.nGetProgramiv + 1,
        nGetProgramInfoLog := w.nGetProgramInfoLog +
          (if env.glGetProgramiv w.nGetProgramiv = 0 then 1 else 0) } := by
  simp [HelloTriangle.createShadingProgram, glCreateProgram, glAttachShader, glLinkProgram,
    triangle_checkLink_run, World.log, HelloTriangle.linkCalls]

theorem triangle_setupVAO_run (vertices : List Dec) (verticesSize : Int) (env : Env) (w : World) :
    HelloTriangle.setupVAO vertices verticesSize env w =
      Res.ok (env.glGenVertexArrays w.nGenVertexArrays) { w with
        trace := w.trace ++ HelloTriangle.vaoCalls vertices verticesSize
          (env.glGenBuffers w.nGenBuffers) (env.glGenVertexArrays w.nGenVertexArrays),
        nGenBuffers := w.nGenBuffers + 1,
        nGenVertexArrays := w.nGenVertexArrays + 1 } := by
  simp [HelloTriangle.setupVAO, glGenBuffers, glGenVertexArrays, glBindVertexArray, glBindBuffer,
    glBufferData, glVertexAttribPointer, glEnableVertexAttribArray, World.log,
    HelloTriangle.vaoCalls]

/-! ## Setup of `hello-triangle` -/

theorem triangle_main_window_failure (env : Env) (fuel : Nat) (hw : env.glfwCreateWindow = NULL) :
    HelloTriangle.run env fuel =
      Res.exited EXIT_FAILURE { World.init with trace := windowFailureCalls } := by
  simp [HelloTriangle.run, HelloTriangle.main, HelloTriangle.initializeGLFW, glfwInit,
    glfwWindowHint, glfwCreateWindow,
    HelloTriangle.verifyWindowCreation, HelloTriangle.cleanupAndExit, cerr, glfwTerminate, exit,
    hw, World.log, World.init, windowFailureCalls]

theorem triangle_main_loader_failure (env : Env) (fuel : Nat) (hw : env.glfwCreateWindow ≠ NULL)
    (hg : env.gladLoadGLLoader = 0) :
    HelloTriangle.run env fuel =
      Res.exited EXIT_FAILURE { World.init with trace := loaderFailureCalls env } := by
  simp [HelloTriangle.run, HelloTriangle.main, HelloTriangle.initializeGLFW, glfwInit,
    glfwWindowHint, glfwCreateWindow,
    HelloTriangle.verifyWindowCreation, HelloTriangle.cleanupAndExit, cerr, glfwTerminate, exit,
    hw, glfwMakeContextCurrent, HelloTriangle.initializeGladFunctionLoader, gladLoadGLLoader, hg,
    World.log, World.init, loaderFailureCalls]

theorem triangle_main_setup (env : Env) (fuel : Nat) (hw : env.glfwCreateWindow ≠ NULL)
    (hg : env.gladLoadGLLoader ≠ 0) :
    HelloTriangle.run env fuel =
      (HelloTriangle.renderLoop env.glfwCreateWindow (env.glCreateProgram 0)
        (env.glCreateProgram 1) (env.glGenVertexArrays 0) (env.glGenVertexArrays 1) fuel env
        (HelloTriangle.setupWorld env)).andThen (fun _ w => Res.ok 0 w) := by
  simp [HelloTriangle.run, HelloTriangle.main, HelloTriangle.initializeGLFW, glfwInit,
    glfwWindowHint, glfwCreateWindow,
    HelloTriangle.verifyWindowCreation, hw,
    glfwMakeContextCurrent, HelloTriangle.initializeGladFunctionLoader, gladLoadGLLoader, hg,
    glViewport, glfwSetFramebufferSizeCallback,
    triangle_vertexShader_run, triangle_fragmentShader_run, triangle_program_run,
    triangle_setupVAO_run, glDeleteShader,
    World.log, World.init, HelloTriangle.setupWorld, HelloTriangle.setupCalls,
    HelloWindow.setupCalls, HelloTriangle.shaderSetupCalls, HelloTriangle.deleteCalls,
    HelloTriangle.vaoSetupCalls, HelloTriangle.logIndex]

end LearnOpenGL

namespace LearnOpenGL

/-! ## The render loop of `hello-triangle` -/

theorem triangle_processInput_run (window : Nat) (env : Env) (w : World) :
    HelloTriangle.processInput window env w =
      Res.ok () { w with trace := w.trace ++ inputCalls env window w.nGetKey,
                         nGetKey := w.nGetKey + 1 } := by
  by_cases h : env.glfwGetKey w.nGetKey = GLFW_PRESS <;>
    simp [HelloTriangle.processInput, glfwGetKey, glfwSetWindowShouldClose, World.log,
      inputCalls, h]

theorem triangle_pollEvents_run (window : Nat) (env : Env) (w : World)
    (hcb : w.callbackSet = true) :
    glfwPollEvents HelloTriangle.framebuffer_size_callback window env w =
      Res.ok () { w with trace := w.trace ++ Call.glfwPollEvents ::
                           resizeCalls (env.framebufferResizes w.nPollEvents),
                         nPollEvents := w.nPollEvents + 1 } := by
  have hd := deliver_run HelloTriangle.framebuffer_size_callback window env
    (fun width height w => by simp [HelloTriangle.framebuffer_size_callback, glViewport])
  simp [glfwPollEvents, hcb, hd, World.log]

/-- One step of the loop of `hello-triangle` whose check reads the flag as not set. -/
theorem triangle_renderLoop_step (env : Env) (window o y v1 v2 : Nat) (fuel : Nat) (w : World)
    (hcb : w.callbackSet = true) (hp : w.nPollEvents = w.nGetKey)
    (h0 : env.glfwWindowShouldClose w.nWindowShouldClose = 0) :
    HelloTriangle.renderLoop window o y v1 v2 (fuel + 1) env w =
      HelloTriangle.renderLoop window o y v1 v2 fuel env
        { w with trace := w.trace ++ Call.glfwWindowShouldClose window ::
                   (Call.glClearColor ⟨2, 1⟩ ⟨3, 1⟩ ⟨3, 1⟩ ⟨10, 1⟩ ::
                    Call.glClear GL_COLOR_BUFFER_BIT ::
                    ([Call.glUseProgram o, Call.glBindVertexArray v1,
                      Call.glDrawArrays GL_TRIANGLES 0 3,
                      Call.glUseProgram y, Call.glBindVertexArray v2,
                      Call.glDrawArrays GL_TRIANGLES 0 3] ++ frameTail env window w.nGetKey)),
                 nWindowShouldClose := w.nWindowShouldClose + 1,
                 nGetKey := w.nGetKey + 1,
                 nPollEvents := w.nPollEvents + 1 } := by
  simp [HelloTriangle.renderLoop, glfwWindowShouldClose, h0, glClearColor, glClear,
    glUseProgram, glBindVertexArray, glDrawArrays,
    triangle_processInput_run, triangle_pollEvents_run, hcb, glfwSwapBuffers, World.log,
    frameTail, hp]

/-- The step of the loop of `hello-triangle` whose check reads the flag as set. -/
theorem triangle_renderLoop_stop (env : Env) (window o y v1 v2 : Nat) (fuel : Nat) (w : World)
    (h1 : env.glfwWindowShouldClose w.nWindowShouldClose ≠ 0) :
    HelloTriangle.renderLoop window o y v1 v2 (fuel + 1) env w =
      Res.ok () { w with trace := w.trace ++ [Call.glfwWindowShouldClose window],
                         nWindowShouldClose := w.nWindowShouldClose + 1 } := by
  simp [HelloTriangle.renderLoop, glfwWindowShouldClose, h1, World.log]

/-! ## Every run of either program -/

/-- A run after successful setup whose check `n` is the first to read the flag as set:
`main` returns 0 after `n` iterations. -/
theorem run_closed (p : Program) (env : Env) (hw : env.glfwCreateWindow ≠ NULL)
    (hg : env.gladLoadGLLoader ≠ 0) (n : Nat)
    (h0 : ∀ j, j < n → env.glfwWindowShouldClose j = 0) (h1 : env.glfwWindowShouldClose n ≠ 0)
    (fuel : Nat) (hf : n < fuel) :
    ∃ w, p.run env fuel = Res.ok 0 w ∧
      w.trace = p.setupCalls env ++ (loopCalls (p.frameCalls env) env.glfwCreateWindow 0 n ++
        [Call.glfwWindowShouldClose env.glfwCreateWindow]) := by
  cases p with
  | helloWindow =>
    obtain ⟨w1, hrun, htr⟩ := (loop_spec env env.glfwCreateWindow (HelloWindow.frameCalls env)
      (fun fuel w => HelloWindow.renderLoop env.glfwCreateWindow fuel env w)
      (fun w => rfl)
      (fun fuel w hcb hp hc => window_renderLoop_step env _ fuel w hcb hp hc)
      (fun fuel w hc => window_renderLoop_stop env _ fuel w hc)
      fuel (HelloWindow.setupWorld env) 0 rfl rfl rfl rfl).1 n hf
      (fun j hj => by simpa using h0 j hj) (by simpa using h1)
    refine ⟨w1, ?_, ?_⟩
    · show HelloWindow.run env fuel = _
      rw [window_main_setup env fuel hw hg, hrun]; rfl
    · rw [htr]; rfl
  | helloTriangle =>
    obtain ⟨w1, hrun, htr⟩ := (loop_spec env env.glfwCreateWindow (HelloTriangle.frameCalls env)
      (fun fuel w => HelloTriangle.renderLoop env.glfwCreateWindow (env.glCreateProgram 0)
        (env.glCreateProgram 1) (env.glGenVertexArrays 0) (env.glGenVertexArrays 1) fuel env w)
      (fun w => rfl)
      (fun fuel w hcb hp hc => triangle_renderLoop_step env _ _ _ _ _ fuel w hcb hp hc)
      (fun fuel w hc => triangle_renderLoop_stop env _ _ _ _ _ fuel w hc)
      fuel (HelloTriangle.setupWorld env) 0 rfl rfl rfl rfl).1 n hf
      (fun j hj => by simpa using h0 j hj) (by simpa using h1)
    refine ⟨w1, ?_, ?_⟩
    · show HelloTriangle.run env fuel = _
      rw [triangle_main_setup env fuel hw hg, hrun]; rfl
    · rw [htr]; rfl

/-- A run after successful setup all of whose `fuel` checks read the flag as
not set: it is still in the loop after `fuel` iterations. -/
theorem run_running (p : Program) (env : Env) (hw : env.glfwCreateWindow ≠ NULL)
    (hg : env.gladLoadGLLoader ≠ 0) (fuel : Nat)
    (h0 : ∀ j, j < fuel → env.glfwWindowShouldClose j = 0) :
    ∃ w, p.run env fuel = Res.running w ∧
      w.trace = p.setupCalls env ++ loopCalls (p.frameCalls env) env.glfwCreateWindow 0 fuel := by
  cases p with
  | helloWindow =>
    obtain ⟨w1, hrun, htr⟩ := (loop_spec env env.glfwCreateWindow (HelloWindow.frameCalls env)
      (fun fuel w => HelloWindow.renderLoop env.glfwCreateWindow fuel env w)
      (fun w => rfl)
      (fun fuel w hcb hp hc => window_renderLoop_step env _ fuel w hcb hp hc)
      (fun fuel w hc => window_renderLoop_stop env _ fuel w hc)
      fuel (HelloWindow.setupWorld env) 0 rfl rfl rfl rfl).2
      (fun j hj => by simpa using h0 j hj)
    refine ⟨w1, ?_, ?_⟩
    · show HelloWindow.run env fuel = _
      rw [window_main_setup env fuel hw hg, hrun]; rfl
    · rw [htr]; rfl
  | helloTriangle =>
    obtain ⟨w1, hrun, htr⟩ := (loop_spec env env.glfwCreateWindow (HelloTriangle.frameCalls env)
      (fun fuel w => HelloTriangle.renderLoop env.glfwCreateWindow (env.glCreateProgram 0)
        (env.glCreateProgram 1) (env.glGenVertexArrays 0) (env.glGenVertexArrays 1) fuel env w)
      (fun w => rfl)
      (fun fuel w hcb hp hc => triangle_renderLoop_step env _ _ _ _ _ fuel w hcb hp hc)
      (fun fuel w hc => triangle_renderLoop_stop env _ _ _ _ _ fuel w hc)
      fuel (HelloTriangle.setupWorld env) 0 rfl rfl rfl rfl).2
      (fun j hj => by simpa using h0 j hj)
    refine ⟨w1, ?_, ?_⟩
    · show HelloTriangle.run env fuel = _
      rw [triangle_main_setup env fuel hw hg, hrun]; rfl
    · rw [htr]; rfl

theorem run_window_failure (p : Program) (env : Env) (fuel : Nat)
    (hw : env.glfwCreateWindow = NULL) :
    p.run env fuel = Res.exited EXIT_FAILURE { World.init with trace := windowFailureCalls } := by
  cases p with
  | helloWindow => exact window_main_window_failure env fuel hw
  | helloTriangle => exact triangle_main_window_failure env fuel hw

theorem run_loader_failure (p : Program) (env : Env) (fuel : Nat)
    (hw : env.glfwCreateWindow ≠ NULL) (hg : env.gladLoadGLLoader = 0) :
    p.run env fuel =
      Res.exited EXIT_FAILURE { World.init with trace := loaderFailureCalls env } := by
  cases p with
  | helloWindow => exact window_main_loader_failure env fuel hw hg
  | helloTriangle => exact triangle_main_loader_failure env fuel hw hg

end LearnOpenGL

namespace LearnOpenGL

/-- The four ways a run with `fuel` loop checks can go. -/
theorem run_cases (p : Program) (env : Env) (fuel : Nat) :
    (env.glfwCreateWindow = NULL ∧
      p.run env fuel =
        Res.exited EXIT_FAILURE { World.init with trace := windowFailureCalls }) ∨
    (env.glfwCreateWindow ≠ NULL ∧ env.gladLoadGLLoader = 0 ∧
      p.run env fuel =
        Res.exited EXIT_FAILURE { World.init with trace := loaderFailureCalls env }) ∨
    (env.glfwCreateWindow ≠ NULL ∧ env.gladLoadGLLoader ≠ 0 ∧
      ∃ n, n < fuel ∧ (∀ j, j < n → env.glfwWindowShouldClose j = 0) ∧
        env.glfwWindowShouldClose n ≠ 0 ∧
        ∃ w, p.run env fuel = Res.ok 0 w ∧
          w.trace = p.setupCalls env ++
            (loopCalls (p.frameCalls env) env.glfwCreateWindow 0 n ++
              [Call.glfwWindowShouldClose env.glfwCreateWindow])) ∨
    (env.glfwCreateWindow ≠ NULL ∧ env.gladLoadGLLoader ≠ 0 ∧
      (∀ j, j < fuel → env.glfwWindowShouldClose j = 0) ∧
      ∃ w, p.run env fuel = Res.running w ∧
        w.trace = p.setupCalls env ++
          loopCalls (p.frameCalls env) env.glfwCreateWindow 0 fuel) := by
  by_cases hw : env.glfwCreateWindow = NULL
  · exact Or.inl ⟨hw, run_window_failure p env fuel hw⟩
  · by_cases hg : env.gladLoadGLLoader = 0
    · exact Or.inr (Or.inl ⟨hw, hg, run_loader_failure p env fuel hw hg⟩)
    · rcases first_set_or_none env.glfwWindowShouldClose fuel with ⟨n, hn, h0, h1⟩ | hall
      · exact Or.inr (Or.inr (Or.inl ⟨hw, hg, n, hn, h0, h1,
          run_closed p env hw hg n h0 h1 fuel hn⟩))
      · exact Or.inr (Or.inr (Or.inr ⟨hw, hg, hall, run_running p env hw hg fuel hall⟩))

end LearnOpenGL

namespace LearnOpenGL

/-! ## Frames of a trace -/

theorem takeWhile_not_check (f rest : List Call) (hf : ∀ c, c ∈ f → c.isCheck = false)
    (hrest : rest = [] ∨ ∃ c r, rest = c :: r ∧ c.isCheck = true) :
    (f ++ rest).takeWhile (fun x => !x.isCheck) = f := by
  induction f with
  | nil =>
    rcases hrest with h | ⟨c, r, h, hc⟩
    · simp [h]
    · simp [h, List.takeWhile, hc]
  | cons a f ih =>
    have ha : a.isCheck = false := hf a (List.mem_cons_self a f)
    rw [List.cons_append, List.takeWhile_cons]
    simp only [ha, Bool.not_false, if_true]
    rw [ih (fun c hc => hf c (List.mem_cons_of_mem a hc))]

theorem frames_cons_check (c : Call) (cs : List Call) (hc : c.isCheck = true) :
    frames (c :: cs) = cs.takeWhile (fun x => !x.isCheck) :: frames cs := by
  simp [frames, hc]

theorem frames_append_of_no_check (a b : List Call) (ha : ∀ c, c ∈ a → c.isCheck = false) :
    frames (a ++ b) = frames b := by
  induction a with
  | nil => rfl
  | cons x a ih =>
    have hx : x.isCheck = false := ha x (List.mem_cons_self x a)
    simp only [List.cons_append, frames, hx]
    exact ih (fun c hc => ha c (List.mem_cons_of_mem x hc))

theorem frames_no_check (a : List Call) (ha : ∀ c, c ∈ a → c.isCheck = false) :
    frames a = [] := by
  have := frames_append_of_no_check a [] ha
  simpa [frames] using this

theorem loopCalls_head (frame : Nat → List Call) (window i n : Nat) (tail : List Call)
    (htail : tail = [] ∨ ∃ c r, tail = c :: r ∧ c.isCheck = true) :
    loopCalls frame window i n ++ tail = [] ∨
      ∃ c r, loopCalls frame window i n ++ tail = c :: r ∧ c.isCheck = true := by
  cases n with
  | zero => simpa [loopCalls] using htail
  | succ n =>
    right
    exact ⟨Call.glfwWindowShouldClose window, frame i ++ (loopCalls frame window (i + 1) n ++ tail),
      by simp [loopCalls], rfl⟩

theorem frames_loopCalls (frame : Nat → List Call) (window : Nat)
    (hframe : ∀ k c, c ∈ frame k → c.isCheck = false) (tail : List Call)
    (htail : tail = [] ∨ ∃ c r, tail = c :: r ∧ c.isCheck = true) :
    ∀ (n i : Nat), frames (loopCalls frame window i n ++ tail) =
      framesFrom frame i n ++ frames tail := by
  intro n
  induction n with
  | zero => intro i; simp [loopCalls, framesFrom]
  | succ n ih =>
    intro i
    have hshape : loopCalls frame window i (n + 1) ++ tail =
        Call.glfwWindowShouldClose window ::
          (frame i ++ (loopCalls frame window (i + 1) n ++ tail)) := by
      simp [loopCalls]
    rw [hshape, frames_cons_check (Call.glfwWindowShouldClose window) _ rfl,
      takeWhile_not_check (frame i) _ (hframe i)
        (loopCalls_head frame window (i + 1) n tail htail),
      frames_append_of_no_check (frame i) _ (hframe i), ih (i + 1)]
    rfl

theorem framesFrom_length (frame : Nat → List Call) : ∀ (n i : Nat),
    (framesFrom frame i n).length = n := by
  intro n
  induction n with
  | zero => intro i; rfl
  | succ n ih => intro i; simp [framesFrom, ih]

theorem framesFrom_getElem? (frame : Nat → List Call) : ∀ (n i k : Nat), k < n →
    (framesFrom frame i n)[k]? = some (frame (i + k)) := by
  intro n
  induction n with
  | zero => intro i k hk; omega
  | succ n ih =>
    intro i k hk
    cases k with
    | zero => simp [framesFrom]
    | succ k =>
      simp only [framesFrom, List.getElem?_cons_succ]
      rw [ih (i + 1) k (by omega)]
      congr 2
      omega

theorem countP_resizeCalls (q : Call → Bool) (hq : ∀ x y width height, q (Call.glViewport x y width height) = false)
    (l : List (Int × Int)) : (resizeCalls l).countP q = 0 := by
  induction l with
  | nil => rfl
  | cons a l ih =>
    simp only [resizeCalls, List.map_cons] at ih ⊢
    rw [List.countP_cons_of_neg]
    · exact ih
    · simp [hq]

theorem countP_loopCalls (q : Call → Bool) (frame : Nat → List Call) (window : Nat) (c : Nat)
    (hq : q (Call.glfwWindowShouldClose window) = false) (hc : ∀ k, (frame k).countP q = c) :
    ∀ (n i : Nat), (loopCalls frame window i n).countP q = n * c := by
  intro n
  induction n with
  | zero => intro i; simp [loopCalls]
  | succ n ih =>
    intro i
    rw [loopCalls, List.countP_cons_of_neg, List.countP_append, hc, ih]
    · ring
    · simp [hq]

end LearnOpenGL

namespace LearnOpenGL

/-! ## What the setup and the iterations consist of -/

theorem mem_resizeCalls (c : Call) (l : List (Int × Int)) (hc : c ∈ resizeCalls l) :
    ∃ width height, c = Call.glViewport 0 0 width height := by
  simp only [resizeCalls, List.mem_map] at hc
  obtain ⟨a, -, ha⟩ := hc
  exact ⟨a.1, a.2, ha.symm⟩

theorem mem_frameTail (c : Call) (env : Env) (window k : Nat) (hc : c ∈ frameTail env window k) :
    c = Call.glfwGetKey window GLFW_KEY_ESCAPE ∨ c = Call.glfwSetWindowShouldClose window 1 ∨
      c = Call.glfwPollEvents ∨ (∃ width height, c = Call.glViewport 0 0 width height) ∨
      c = Call.glfwSwapBuffers window := by
  simp only [frameTail, inputCalls, List.mem_append, List.mem_cons, List.mem_singleton,
    List.cons_append] at hc
  rcases hc with h | h | h | h | h
  · exact Or.inl h
  · split at h
    · simp only [List.mem_singleton] at h; exact Or.inr (Or.inl h)
    · simp at h
  · exact Or.inr (Or.inr (Or.inl h))
  · exact Or.inr (Or.inr (Or.inr (Or.inl (mem_resizeCalls c _ h))))
  · rcases h with h | h
    · exact Or.inr (Or.inr (Or.inr (Or.inr h)))
    · simp at h

theorem frameTail_no_check (env : Env) (window k : Nat) (c : Call)
    (hc : c ∈ frameTail env window k) : c.isCheck = false := by
  rcases mem_frameTail c env window k hc with h | h | h | ⟨a, b, h⟩ | h <;> subst h <;> rfl

theorem frameCalls_no_check (p : Program) (env : Env) (k : Nat) (c : Call)
    (hc : c ∈ p.frameCalls env k) : c.isCheck = false := by
  cases p with
  | helloWindow =>
    simp only [Program.frameCalls, HelloWindow.frameCalls, List.mem_cons] at hc
    rcases hc with h | h | h
    · subst h; rfl
    · subst h; rfl
    · exact frameTail_no_check env _ k c h
  | helloTriangle =>
    simp only [Program.frameCalls, HelloTriangle.frameCalls, HelloTriangle.drawCalls,
      List.mem_cons, List.mem_append, List.mem_singleton, List.cons_append, List.nil_append] at hc
    rcases hc with h | h | h | h | h | h | h | h | h
    any_goals (subst h; rfl)
    exact frameTail_no_check env _ k c h

theorem countP_frameTail (q : Call → Bool) (env : Env) (window k : Nat)
    (hv : ∀ x y width height, q (Call.glViewport x y width height) = false)
    (hs : q (Call.glfwSetWindowShouldClose window 1) = false) :
    (frameTail env window k).countP q =
      (if q (Call.glfwGetKey window GLFW_KEY_ESCAPE) then 1 else 0) +
      (if q Call.glfwPollEvents then 1 else 0) +
      (if q (Call.glfwSwapBuffers window) then 1 else 0) := by
  simp only [frameTail, inputCalls, List.countP_append, List.countP_cons, List.countP_nil,
    countP_resizeCalls q hv, List.cons_append]
  split <;> simp [List.countP_cons, hs] <;> omega

end LearnOpenGL

namespace LearnOpenGL

theorem countP_checkShaderCalls_loop (shader : Nat) (status : Int) (log : String) :
    (HelloTriangle.checkShaderCalls shader status log).countP Call.isLoopCall = 0 := by
  unfold HelloTriangle.checkShaderCalls
  split <;> rfl

theorem countP_checkLinkCalls_loop (program : Nat) (status : Int) (log : String) :
    (HelloTriangle.checkLinkCalls program status log).countP Call.isLoopCall = 0 := by
  unfold HelloTriangle.checkLinkCalls
  split <;> rfl

theorem countP_setupCalls_loop (p : Program) (env : Env) :
    (p.setupCalls env).countP Call.isLoopCall = 0 := by
  cases p with
  | helloWindow => rfl
  | helloTriangle =>
    have hw : (HelloWindow.setupCalls env).countP Call.isLoopCall = 0 := rfl
    have hd : (HelloTriangle.deleteCalls env).countP Call.isLoopCall = 0 := rfl
    have hv : (HelloTriangle.vaoSetupCalls env).countP Call.isLoopCall = 0 := rfl
    have hc : ∀ type source shader status log,
        (HelloTriangle.compileCalls type source shader status log).countP Call.isLoopCall = 0 := by
      intro type source shader status log
      have := countP_checkShaderCalls_loop shader status log
      simp only [HelloTriangle.compileCalls, List.countP_cons, this]
      rfl
    have hl : ∀ vs fs program status log,
        (HelloTriangle.linkCalls vs fs program status log).countP Call.isLoopCall = 0 := by
      intro vs fs program status log
      have := countP_checkLinkCalls_loop program status log
      simp only [HelloTriangle.linkCalls, List.countP_cons, this]
      rfl
    simp only [Program.setupCalls, HelloTriangle.setupCalls, HelloTriangle.shaderSetupCalls,
      List.countP_append, hw, hd, hv, hc, hl]

/-- No call of the setup is one of the calls of the render loop. -/
theorem setupCalls_no_loop_call (p : Program) (env : Env) (c : Call)
    (hc : c ∈ p.setupCalls env) : c.isLoopCall = false := by
  have h := countP_setupCalls_loop p env
  rw [List.countP_eq_zero] at h
  simpa using h c hc

theorem setupCalls_no_check (p : Program) (env : Env) (c : Call)
    (hc : c ∈ p.setupCalls env) : c.isCheck = false := by
  have h := setupCalls_no_loop_call p env c hc
  simp only [Call.isLoopCall, Bool.or_eq_false_iff] at h
  exact h.1.1.1.1.1.1.1

/-- If no call of a list satisfies the stronger predicate, none satisfies the weaker. -/
theorem countP_zero_of_imp (q r : Call → Bool) (l : List Call) (hqr : ∀ c, q c = true → r c = true)
    (h : l.countP r = 0) : l.countP q = 0 := by
  rw [List.countP_eq_zero] at h ⊢
  intro c hc hq
  exact h c hc (hqr c hq)

end LearnOpenGL

namespace LearnOpenGL

theorem frames_closed (p : Program) (env : Env) (n : Nat) :
    frames (p.setupCalls env ++ (loopCalls (p.frameCalls env) env.glfwCreateWindow 0 n ++
      [Call.glfwWindowShouldClose env.glfwCreateWindow])) =
      framesFrom (p.frameCalls env) 0 n ++ [[]] := by
  rw [frames_append_of_no_check _ _ (setupCalls_no_check p env),
    frames_loopCalls (p.frameCalls env) env.glfwCreateWindow (frameCalls_no_check p env) _
      (Or.inr ⟨Call.glfwWindowShouldClose env.glfwCreateWindow, [], rfl, rfl⟩)]
  rfl

theorem frames_running (p : Program) (env : Env) (n : Nat) :
    frames (p.setupCalls env ++ loopCalls (p.frameCalls env) env.glfwCreateWindow 0 n) =
      framesFrom (p.frameCalls env) 0 n := by
  have h := frames_loopCalls (p.frameCalls env) env.glfwCreateWindow (frameCalls_no_check p env)
    [] (Or.inl rfl) n 0
  rw [frames_append_of_no_check _ _ (setupCalls_no_check p env)]
  simpa [frames] using h

/-- The clears, draws, input polls, event polls and swaps of one iteration. -/
theorem countP_frameCalls (p : Program) (env : Env) (k : Nat) :
    (p.frameCalls env k).countP Call.isClear = 1 ∧
    (p.frameCalls env k).countP Call.isDraw =
      (match p with | Program.helloWindow => 0 | Program.helloTriangle => 2) ∧
    (p.frameCalls env k).countP Call.isGetKey = 1 ∧
    (p.frameCalls env k).countP Call.isPoll = 1 ∧
    (p.frameCalls env k).countP Call.isSwap = 1 := by
  have h1 := countP_frameTail Call.isClear env env.glfwCreateWindow k (fun _ _ _ _ => rfl) rfl
  have h2 := countP_frameTail Call.isDraw env env.glfwCreateWindow k (fun _ _ _ _ => rfl) rfl
  have h3 := countP_frameTail Call.isGetKey env env.glfwCreateWindow k (fun _ _ _ _ => rfl) rfl
  have h4 := countP_frameTail Call.isPoll env env.glfwCreateWindow k (fun _ _ _ _ => rfl) rfl
  have h5 := countP_frameTail Call.isSwap env env.glfwCreateWindow k (fun _ _ _ _ => rfl) rfl
  cases p with
  | helloWindow =>
    simp only [Program.frameCalls, HelloWindow.frameCalls, List.countP_cons, h1, h2, h3, h4, h5]
    simp [Call.isClear, Call.isDraw, Call.isGetKey, Call.isPoll, Call.isSwap]
  | helloTriangle =>
    simp only [Program.frameCalls, HelloTriangle.frameCalls, HelloTriangle.drawCalls,
      List.countP_cons, List.countP_append, List.countP_nil, h1, h2, h3, h4, h5]
    simp [Call.isClear, Call.isDraw, Call.isGetKey, Call.isPoll, Call.isSwap]

/-- Counting in the trace of a run that is in or past its loop, for a kind of
call that the setup does not issue and every iteration issues `c` times. -/
theorem countP_run_trace (p : Program) (env : Env) (q : Call → Bool) (c n : Nat)
    (tail : List Call) (htail : tail.countP q = 0)
    (hsetup : ∀ x, q x = true → x.isLoopCall = true)
    (hcheck : q (Call.glfwWindowShouldClose env.glfwCreateWindow) = false)
    (hframe : ∀ k, (p.frameCalls env k).countP q = c) :
    (p.setupCalls env ++ (loopCalls (p.frameCalls env) env.glfwCreateWindow 0 n ++ tail)).countP q =
      n * c := by
  rw [List.countP_append, List.countP_append,
    countP_zero_of_imp q Call.isLoopCall _ hsetup (countP_setupCalls_loop p env),
    countP_loopCalls q _ _ c hcheck hframe, htail]
  simp

end LearnOpenGL

namespace LearnOpenGL

theorem countP_isCheck_loopCalls (frame : Nat → List Call) (window : Nat)
    (hframe : ∀ k c, c ∈ frame k → c.isCheck = false) :
    ∀ (n i : Nat), (loopCalls frame window i n).countP Call.isCheck = n := by
  intro n
  induction n with
  | zero => intro i; simp [loopCalls]
  | succ n ih =>
    intro i
    have hz : (frame i).countP Call.isCheck = 0 := by
      rw [List.countP_eq_zero]
      intro c hc
      simp [hframe i c hc]
    have hc : Call.isCheck (Call.glfwWindowShouldClose window) = true := rfl
    rw [loopCalls, List.countP_cons_of_pos (p := Call.isCheck) _ hc, List.countP_append, hz, ih]
    omega

theorem countP_isCheck_run_trace (p : Program) (env : Env) (n : Nat) (tail : List Call) :
    (p.setupCalls env ++ (loopCalls (p.frameCalls env) env.glfwCreateWindow 0 n ++ tail)).countP
      Call.isCheck = n + tail.countP Call.isCheck := by
  rw [List.countP_append, List.countP_append,
    countP_zero_of_imp Call.isCheck Call.isLoopCall _ (fun c hc => by simp [Call.isLoopCall, hc])
      (countP_setupCalls_loop p env),
    countP_isCheck_loopCalls _ _ (frameCalls_no_check p env)]
  omega

end LearnOpenGL

namespace LearnOpenGL

theorem frames_windowFailureCalls : frames windowFailureCalls = [] := rfl

theorem frames_loaderFailureCalls (env : Env) : frames (loaderFailureCalls env) = [] := rfl

/-- The segment after a check that read the flag as not set is the iteration
the program ran then. -/
theorem frame_of_run (p : Program) (env : Env) (fuel k : Nat) (f : List Call)
    (hf : (frames (p.run env fuel).world.trace)[k]? = some f)
    (h0 : env.glfwWindowShouldClose k = 0) : f = p.frameCalls env k := by
  rcases run_cases p env fuel with ⟨-, hrun⟩ | ⟨-, -, hrun⟩ | ⟨-, -, n, -, -, h1, w, hrun, htr⟩ |
    ⟨-, -, -, w, hrun, htr⟩
  · rw [hrun] at hf
    simp [Res.world, frames_windowFailureCalls] at hf
  · rw [hrun] at hf
    simp [Res.world, frames_loaderFailureCalls] at hf
  · rw [hrun] at hf
    simp only [Res.world] at hf
    rw [htr, frames_closed] at hf
    rcases Nat.lt_trichotomy k n with hlt | heq | hgt
    · rw [List.getElem?_append_left (by rw [framesFrom_length]; exact hlt),
        framesFrom_getElem? _ n 0 k hlt] at hf
      simp only [Option.some.injEq] at hf
      rw [← hf]; simp
    · subst heq
      exact absurd h0 h1
    · rw [List.getElem?_eq_none (by simp [framesFrom_length]; omega)] at hf
      simp at hf
  · rw [hrun] at hf
    simp only [Res.world] at hf
    rw [htr, frames_running] at hf
    by_cases hlt : k < fuel
    · rw [framesFrom_getElem? _ fuel 0 k hlt] at hf
      simp only [Option.some.injEq] at hf
      rw [← hf]; simp
    · rw [List.getElem?_eq_none (by simp [framesFrom_length]; omega)] at hf
      simp at hf

/-- The totals of a run: every completed iteration has one swap, one clear, one
input poll, one event poll and the program's number of draws. -/
theorem counts_of_run (p : Program) (env : Env) (fuel : Nat) :
    ∃ n, (p.run env fuel).world.trace.countP Call.isSwap = n ∧
      (p.run env fuel).world.trace.countP Call.isClear = n ∧
      (p.run env fuel).world.trace.countP Call.isGetKey = n ∧
      (p.run env fuel).world.trace.countP Call.isPoll = n ∧
      (p.run env fuel).world.trace.countP Call.isDraw =
        n * (match p with | Program.helloWindow => 0 | Program.helloTriangle => 2) := by
  have key : ∀ (n : Nat) (tail : List Call), tail = [] ∨
      tail = [Call.glfwWindowShouldClose env.glfwCreateWindow] →
      ∀ t, t = p.setupCalls env ++ (loopCalls (p.frameCalls env) env.glfwCreateWindow 0 n ++ tail) →
      t.countP Call.isSwap = n ∧ t.countP Call.isClear = n ∧ t.countP Call.isGetKey = n ∧
      t.countP Call.isPoll = n ∧ t.countP Call.isDraw =
        n * (match p with | Program.helloWindow => 0 | Program.helloTriangle => 2) := by
    intro n tail htail t ht
    have hz : ∀ q : Call → Bool,
        q (Call.glfwWindowShouldClose env.glfwCreateWindow) = false → tail.countP q = 0 := by
      intro q hq
      rcases htail with h | h <;> subst h <;> simp [hq]
    subst ht
    refine ⟨?_, ?_, ?_, ?_, ?_⟩
    · rw [countP_run_trace p env Call.isSwap 1 n tail (hz _ rfl)
        (fun x hx => by simp [Call.isLoopCall, hx]) rfl
        (fun k => (countP_frameCalls p env k).2.2.2.2)]
      simp
    · rw [countP_run_trace p env Call.isClear 1 n tail (hz _ rfl)
        (fun x hx => by simp [Call.isLoopCall, hx]) rfl
        (fun k => (countP_frameCalls p env k).1)]
      simp
    · rw [countP_run_trace p env Call.isGetKey 1 n tail (hz _ rfl)
        (fun x hx => by simp [Call.isLoopCall, hx]) rfl
        (fun k => (countP_frameCalls p env k).2.2.1)]
      simp
    · rw [countP_run_trace p env Call.isPoll 1 n tail (hz _ rfl)
        (fun x hx => by simp [Call.isLoopCall, hx]) rfl
        (fun k => (countP_frameCalls p env k).2.2.2.1)]
      simp
    · rw [countP_run_trace p env Call.isDraw _ n tail (hz _ rfl)
        (fun x hx => by simp [Call.isLoopCall, hx]) rfl
        (fun k => (countP_frameCalls p env k).2.1)]
  rcases run_cases p env fuel with ⟨-, hrun⟩ | ⟨-, -, hrun⟩ | ⟨-, -, n, -, -, -, w, hrun, htr⟩ |
    ⟨-, -, -, w, hrun, htr⟩
  · refine ⟨0, ?_⟩
    rw [hrun]
    simp only [Res.world, Nat.zero_mul]
    exact ⟨rfl, rfl, rfl, rfl, rfl⟩
  · refine ⟨0, ?_⟩
    rw [hrun]
    simp only [Res.world, Nat.zero_mul]
    exact ⟨rfl, rfl, rfl, rfl, rfl⟩
  · refine ⟨n, ?_⟩
    rw [hrun]
    exact key n _ (Or.inr rfl) w.trace htr
  · refine ⟨fuel, ?_⟩
    rw [hrun]
    exact key fuel [] (Or.inl rfl) w.trace (by rw [htr, List.append_nil])

end LearnOpenGL

namespace LearnOpenGL

theorem frameTail_getLast (env : Env) (window k : Nat) :
    (frameTail env window k).getLast? = some (Call.glfwSwapBuffers window) := by
  have h : frameTail env window k =
      (inputCalls env window k ++
        (Call.glfwPollEvents :: resizeCalls (env.framebufferResizes k))) ++
        [Call.glfwSwapBuffers window] := by
    simp [frameTail]
  rw [h, List.getLast?_append]
  simp

end LearnOpenGL

namespace LearnOpenGL

/-! ## Counting and filtering in the setup of `hello-triangle` -/

theorem countP_checkShaderCalls (q : Call → Bool) (shader : Nat) (status : Int) (log : String)
    (h1 : ∀ s n, q (Call.glGetShaderInfoLog s n) = false) (h2 : ∀ t, q (Call.cerr t) = false) :
    (HelloTriangle.checkShaderCalls shader status log).countP q =
      if q (Call.glGetShaderiv shader GL_COMPILE_STATUS) then 1 else 0 := by
  unfold HelloTriangle.checkShaderCalls
  split <;> simp [List.countP_cons, h1, h2]

theorem countP_checkLinkCalls (q : Call → Bool) (program : Nat) (status : Int) (log : String)
    (h1 : ∀ s n, q (Call.glGetProgramInfoLog s n) = false) (h2 : ∀ t, q (Call.cout t) = false) :
    (HelloTriangle.checkLinkCalls program status log).countP q =
      if q (Call.glGetProgramiv program GL_LINK_STATUS) then 1 else 0 := by
  unfold HelloTriangle.checkLinkCalls
  split <;> simp [List.countP_cons, h1, h2]

theorem filter_checkShaderCalls (shader : Nat) (status : Int) (log : String) :
    (HelloTriangle.checkShaderCalls shader status log).filter (fun c => !c.isDiagnostic) =
      [Call.glGetShaderiv shader GL_COMPILE_STATUS] := by
  unfold HelloTriangle.checkShaderCalls
  split <;> rfl

theorem filter_checkLinkCalls (program : Nat) (status : Int) (log : String) :
    (HelloTriangle.checkLinkCalls program status log).filter (fun c => !c.isDiagnostic) =
      [Call.glGetProgramiv program GL_LINK_STATUS] := by
  unfold HelloTriangle.checkLinkCalls
  split <;> rfl

theorem filter_compileCalls (type : Nat) (source : String) (shader : Nat) (status : Int)
    (log : String) :
    (HelloTriangle.compileCalls type source shader status log).filter (fun c => !c.isDiagnostic) =
      [Call.glCreateShader type, Call.glShaderSource shader 1 source, Call.glCompileShader shader,
       Call.glGetShaderiv shader GL_COMPILE_STATUS] := by
  have h := filter_checkShaderCalls shader status log
  simp only [HelloTriangle.compileCalls, List.filter_cons, h]
  rfl

theorem filter_linkCalls (vs fs program : Nat) (status : Int) (log : String) :
    (HelloTriangle.linkCalls vs fs program status log).filter (fun c => !c.isDiagnostic) =
      [Call.glCreateProgram, Call.glAttachShader program vs, Call.glAttachShader program fs,
       Call.glLinkProgram program, Call.glGetProgramiv program GL_LINK_STATUS] := by
  have h := filter_checkLinkCalls program status log
  simp only [HelloTriangle.linkCalls, List.filter_cons, h]
  rfl

/-- The setup of `hello-triangle` without its diagnostics does not depend on
the compile and link statuses. -/
theorem filter_shaderSetupCalls (env : Env) :
    (HelloTriangle.shaderSetupCalls env).filter (fun c => !c.isDiagnostic) =
      [Call.glCreateShader GL_VERTEX_SHADER,
       Call.glShaderSource (env.glCreateShader 0) 1 HelloTriangle.vertexShaderSource,
       Call.glCompileShader (env.glCreateShader 0),
       Call.glGetShaderiv (env.glCreateShader 0) GL_COMPILE_STATUS,
       Call.glCreateShader GL_FRAGMENT_SHADER,
       Call.glShaderSource (env.glCreateShader 1) 1 HelloTriangle.fragmentShaderSourceOrange,
       Call.glCompileShader (env.glCreateShader 1),
       Call.glGetShaderiv (env.glCreateShader 1) GL_COMPILE_STATUS,
       Call.glCreateShader GL_FRAGMENT_SHADER,
       Call.glShaderSource (env.glCreateShader 2) 1 HelloTriangle.fragmentShaderSourceYellow,
       Call.glCompileShader (env.glCreateShader 2),
       Call.glGetShaderiv (env.glCreateShader 2) GL_COMPILE_STATUS,
       Call.glCreateProgram,
       Call.glAttachShader (env.glCreateProgram 0) (env.glCreateShader 0),
       Call.glAttachShader (env.glCreateProgram 0) (env.glCreateShader 1),
       Call.glLinkProgram (env.glCreateProgram 0),
       Call.glGetProgramiv (env.glCreateProgram 0) GL_LINK_STATUS,
       Call.glCreateProgram,
       Call.glAttachShader (env.glCreateProgram 1) (env.glCreateShader 0),
       Call.glAttachShader (env.glCreateProgram 1) (env.glCreateShader 2),
       Call.glLinkProgram (env.glCreateProgram 1),
       Call.glGetProgramiv (env.glCreateProgram 1) GL_LINK_STATUS] := by
  simp only [HelloTriangle.shaderSetupCalls, List.filter_append, filter_compileCalls,
    filter_linkCalls]
  rfl

end LearnOpenGL

namespace LearnOpenGL

/-- Replace the compile and link statuses and the info logs a library reports. -/
theorem filter_trace_status_free (env : Env) (s l : Nat → Int) (a b : Nat → String) (fuel : Nat) :
    (HelloTriangle.run (env.withStatuses s l a b) fuel).world.trace.filter
        (fun c => !c.isDiagnostic) =
      (HelloTriangle.run env fuel).world.trace.filter (fun c => !c.isDiagnostic) ∧
    (HelloTriangle.run (env.withStatuses s l a b) fuel).exitCode =
      (HelloTriangle.run env fuel).exitCode := by
  have hsetup : ∀ e1 e2 : Env, e1.glfwCreateWindow = e2.glfwCreateWindow →
      e1.glCreateShader = e2.glCreateShader → e1.glCreateProgram = e2.glCreateProgram →
      e1.glGenBuffers = e2.glGenBuffers → e1.glGenVertexArrays = e2.glGenVertexArrays →
      (Program.helloTriangle.setupCalls e1).filter (fun c => !c.isDiagnostic) =
        (Program.helloTriangle.setupCalls e2).filter (fun c => !c.isDiagnostic) := by
    intro e1 e2 h1 h2 h3 h4 h5
    simp only [Program.setupCalls, HelloTriangle.setupCalls, List.filter_append, filter_shaderSetupCalls,
      HelloWindow.setupCalls, HelloTriangle.deleteCalls, HelloTriangle.vaoSetupCalls, h1, h2, h3,
      h4, h5]
  have hframe : Program.helloTriangle.frameCalls (env.withStatuses s l a b) =
      Program.helloTriangle.frameCalls env := rfl
  rcases run_cases Program.helloTriangle env fuel with ⟨hw, hrun⟩ | ⟨hw, hg, hrun⟩ |
    ⟨hw, hg, n, hn, h0, h1, w, hrun, htr⟩ | ⟨hw, hg, hall, w, hrun, htr⟩
  · have hrun2 := run_window_failure Program.helloTriangle (env.withStatuses s l a b) fuel hw
    simp only [Program.run] at hrun hrun2
    rw [hrun, hrun2]
    exact ⟨rfl, rfl⟩
  · have hrun2 := run_loader_failure Program.helloTriangle (env.withStatuses s l a b) fuel hw hg
    simp only [Program.run] at hrun hrun2
    rw [hrun, hrun2]
    exact ⟨rfl, rfl⟩
  · obtain ⟨w2, hrun2, htr2⟩ := run_closed Program.helloTriangle (env.withStatuses s l a b) hw hg n h0 h1
      fuel hn
    simp only [Program.run] at hrun hrun2
    rw [hrun, hrun2]
    refine ⟨?_, rfl⟩
    simp only [Res.world]
    rw [htr, htr2, hframe]
    simp only [List.filter_append]
    rw [hsetup (env.withStatuses s l a b) env rfl rfl rfl rfl rfl]
    rfl
  · obtain ⟨w2, hrun2, htr2⟩ := run_running Program.helloTriangle (env.withStatuses s l a b) hw hg fuel hall
    simp only [Program.run] at hrun hrun2
    rw [hrun, hrun2]
    refine ⟨?_, rfl⟩
    simp only [Res.world]
    rw [htr, htr2, hframe]
    simp only [List.filter_append]
    rw [hsetup (env.withStatuses s l a b) env rfl rfl rfl rfl rfl]
    rfl

/-- Every call of an iteration is of one of the kinds `Call.isFrameCall`. -/
theorem frameCalls_isFrameCall (p : Program) (env : Env) (k : Nat) (c : Call)
    (hc : c ∈ p.frameCalls env k) : c.isFrameCall = true := by
  have htail : ∀ c, c ∈ frameTail env env.glfwCreateWindow k → c.isFrameCall = true := by
    intro c hc
    rcases mem_frameTail c env _ k hc with h | h | h | ⟨x, y, h⟩ | h <;> subst h <;> rfl
  cases p with
  | helloWindow =>
    simp only [Program.frameCalls, HelloWindow.frameCalls, List.mem_cons] at hc
    rcases hc with h | h | h
    · subst h; rfl
    · subst h; rfl
    · exact htail c h
  | helloTriangle =>
    simp only [Program.frameCalls, HelloTriangle.frameCalls, HelloTriangle.drawCalls,
      List.mem_cons, List.mem_append, List.mem_singleton, List.cons_append, List.nil_append] at hc
    rcases hc with h | h | h | h | h | h | h | h | h
    any_goals (subst h; rfl)
    exact htail c h

/-- A kind of call that no iteration issues is not issued by the loop. -/
theorem countP_loopCalls_zero (p : Program) (env : Env) (q : Call → Bool)
    (hq : ∀ c, q c = true → c.isFrameCall = false ∧ c.isCheck = false) (n i : Nat) :
    (loopCalls (p.frameCalls env) env.glfwCreateWindow i n).countP q = 0 := by
  have h := countP_loopCalls q (p.frameCalls env) env.glfwCreateWindow 0
    (by
      cases hc : q (Call.glfwWindowShouldClose env.glfwCreateWindow) with
      | false => rfl
      | true => exact absurd (hq _ hc).2 (by simp [Call.isCheck]))
    (fun k => by
      rw [List.countP_eq_zero]
      intro c hc hqc
      have h1 := frameCalls_isFrameCall p env k c hc
      rw [(hq c hqc).1] at h1
      exact Bool.false_ne_true h1) n i
  simpa using h

end LearnOpenGL

namespace LearnOpenGL

theorem countP_filter_of_imp (q r : Call → Bool) (h : ∀ c, q c = true → r c = true)
    (l : List Call) : (l.filter r).countP q = l.countP q := by
  induction l with
  | nil => rfl
  | cons x l ih =>
    by_cases hr : r x = true
    · rw [List.filter_cons_of_pos hr]
      by_cases hq : q x = true
      · rw [List.countP_cons_of_pos (p := q) _ hq, List.countP_cons_of_pos (p := q) _ hq, ih]
      · rw [List.countP_cons_of_neg (p := q) _ hq, List.countP_cons_of_neg (p := q) _ hq, ih]
    · rw [List.filter_cons_of_neg hr]
      have hq : ¬ q x = true := fun hq => hr (h x hq)
      rw [List.countP_cons_of_neg (p := q) _ hq, ih]

/-- Counting, in the setup of `hello-triangle`, calls of a kind that is not a diagnostic. -/
theorem countP_triangle_setup (env : Env) (q : Call → Bool)
    (hq : ∀ c, q c = true → c.isDiagnostic = false) :
    (HelloTriangle.setupCalls env).countP q =
      (HelloWindow.setupCalls env ++
        ((HelloTriangle.shaderSetupCalls env).filter (fun c => !c.isDiagnostic) ++
          (HelloTriangle.deleteCalls env ++ HelloTriangle.vaoSetupCalls env))).countP q := by
  have h := countP_filter_of_imp q (fun c => !c.isDiagnostic)
    (fun c hc => by simp [hq c hc]) (HelloTriangle.shaderSetupCalls env)
  simp only [HelloTriangle.setupCalls, List.countP_append, h]

theorem triangle_setup_counts (env : Env) :
    (HelloTriangle.setupCalls env).countP Call.isCreateShader = 3 ∧
    (HelloTriangle.setupCalls env).countP Call.isCreateProgram = 2 ∧
    (HelloTriangle.setupCalls env).countP Call.isGenBuffers = 2 ∧
    (HelloTriangle.setupCalls env).countP Call.isGenVertexArrays = 2 ∧
    (HelloTriangle.setupCalls env).countP Call.isCompile = 3 ∧
    (HelloTriangle.setupCalls env).countP Call.isAttach = 4 ∧
    (HelloTriangle.setupCalls env).countP Call.isLink = 2 ∧
    (HelloTriangle.setupCalls env).countP Call.isBufferData = 2 ∧
    (HelloTriangle.setupCalls env).countP Call.isDelete = 3 := by
  refine ⟨?_, ?_, ?_, ?_, ?_, ?_, ?_, ?_, ?_⟩ <;>
  · rw [countP_triangle_setup env _ (fun c hc => by cases c <;> simp_all [Call.isCreateShader,
      Call.isCreateProgram, Call.isGenBuffers, Call.isGenVertexArrays, Call.isCompile,
      Call.isAttach, Call.isLink, Call.isBufferData, Call.isDelete, Call.isDiagnostic]),
      filter_shaderSetupCalls]
    rfl

end LearnOpenGL

namespace LearnOpenGL

/-- After successful setup the trace of a run is the setup followed by calls of the loop. -/
theorem run_trace_shape (p : Program) (env : Env) (fuel : Nat)
    (hw : env.glfwCreateWindow ≠ NULL) (hg : env.gladLoadGLLoader ≠ 0) :
    ∃ n tail, (tail = [] ∨ tail = [Call.glfwWindowShouldClose env.glfwCreateWindow]) ∧
      (p.run env fuel).world.trace =
        p.setupCalls env ++ (loopCalls (p.frameCalls env) env.glfwCreateWindow 0 n ++ tail) ∧
      (∀ code w, p.run env fuel ≠ Res.exited code w) ∧
      (0 < fuel → 0 < n + tail.length) := by
  rcases run_cases p env fuel with ⟨h, -⟩ | ⟨-, h, -⟩ | ⟨-, -, n, hn, -, -, w, hrun, htr⟩ |
    ⟨-, -, -, w, hrun, htr⟩
  · exact absurd h hw
  · exact absurd h hg
  · refine ⟨n, _, Or.inr rfl, ?_, ?_, ?_⟩
    · rw [hrun]; exact htr
    · intro code w1; rw [hrun]; simp
    · intro _; simp
  · refine ⟨fuel, [], Or.inl rfl, ?_, ?_, ?_⟩
    · rw [hrun, List.append_nil]; exact htr
    · intro code w1; rw [hrun]; simp
    · intro h; simpa using h

/-- Calls of a kind that the loop does not issue are counted in the setup. -/
theorem countP_run_setup_kind (p : Program) (env : Env) (fuel : Nat) (q : Call → Bool)
    (hq : ∀ c, q c = true → c.isFrameCall = false ∧ c.isCheck = false)
    (hw : env.glfwCreateWindow ≠ NULL) (hg : env.gladLoadGLLoader ≠ 0) :
    (p.run env fuel).world.trace.countP q = (p.setupCalls env).countP q := by
  obtain ⟨n, tail, htail, htr, -, -⟩ := run_trace_shape p env fuel hw hg
  have hz : tail.countP q = 0 := by
    rcases htail with h | h
    · subst h; rfl
    · subst h
      cases hc : q (Call.glfwWindowShouldClose env.glfwCreateWindow) with
      | false => simp [hc]
      | true => exact absurd (hq _ hc).2 (by simp [Call.isCheck])
  rw [htr, List.countP_append, List.countP_append, countP_loopCalls_zero p env q hq, hz]
  simp

end LearnOpenGL

namespace LearnOpenGL

theorem isCompile_not_loop (c : Call) (h : c.isCompile = true) :
    c.isFrameCall = false ∧ c.isCheck = false := by
  cases c <;> simp_all [Call.isCompile, Call.isFrameCall, Call.isCheck]

theorem isLink_not_loop (c : Call) (h : c.isLink = true) :
    c.isFrameCall = false ∧ c.isCheck = false := by
  cases c <;> simp_all [Call.isLink, Call.isFrameCall, Call.isCheck]

theorem isAttach_not_loop (c : Call) (h : c.isAttach = true) :
    c.isFrameCall = false ∧ c.isCheck = false := by
  cases c <;> simp_all [Call.isAttach, Call.isFrameCall, Call.isCheck]

theorem isBufferData_not_loop (c : Call) (h : c.isBufferData = true) :
    c.isFrameCall = false ∧ c.isCheck = false := by
  cases c <;> simp_all [Call.isBufferData, Call.isFrameCall, Call.isCheck]

theorem isCreateShader_not_loop (c : Call) (h : c.isCreateShader = true) :
    c.isFrameCall = false ∧ c.isCheck = false := by
  cases c <;> simp_all [Call.isCreateShader, Call.isFrameCall, Call.isCheck]

theorem isCreateProgram_not_loop (c : Call) (h : c.isCreateProgram = true) :
    c.isFrameCall = false ∧ c.isCheck = false := by
  cases c <;> simp_all [Call.isCreateProgram, Call.isFrameCall, Call.isCheck]

theorem isGenBuffers_not_loop (c : Call) (h : c.isGenBuffers = true) :
    c.isFrameCall = false ∧ c.isCheck = false := by
  cases c <;> simp_all [Call.isGenBuffers, Call.isFrameCall, Call.isCheck]

theorem isGenVertexArrays_not_loop (c : Call) (h : c.isGenVertexArrays = true) :
    c.isFrameCall = false ∧ c.isCheck = false := by
  cases c <;> simp_all [Call.isGenVertexArrays, Call.isFrameCall, Call.isCheck]

theorem isDelete_not_loop (c : Call) (h : c.isDelete = true) :
    c.isFrameCall = false ∧ c.isCheck = false := by
  cases c <;> simp_all [Call.isDelete, Call.isFrameCall, Call.isCheck]

end LearnOpenGL

namespace LearnOpenGL

/-! ## Startup and render part of a trace -/

theorem filter_filter_of_imp (q r : Call → Bool) (h : ∀ c, q c = true → r c = true)
    (l : List Call) : (l.filter r).filter q = l.filter q := by
  induction l with
  | nil => rfl
  | cons x l ih =>
    by_cases hr : r x = true
    · rw [List.filter_cons_of_pos hr]
      by_cases hq : q x = true
      · rw [List.filter_cons_of_pos hq, List.filter_cons_of_pos hq, ih]
      · rw [List.filter_cons_of_neg hq, List.filter_cons_of_neg hq, ih]
    · rw [List.filter_cons_of_neg hr]
      have hq : ¬ q x = true := fun hq => hr (h x hq)
      rw [List.filter_cons_of_neg hq, ih]

theorem startup_renderPart (pre rest : List Call) (hpre : ∀ c, c ∈ pre → c.isCheck = false)
    (hrest : rest = [] ∨ ∃ c r, rest = c :: r ∧ c.isCheck = true) :
    startup (pre ++ rest) = pre ∧ renderPart (pre ++ rest) = rest := by
  have h1 : startup (pre ++ rest) = pre := takeWhile_not_check pre rest hpre hrest
  refine ⟨h1, ?_⟩
  have h2 : startup (pre ++ rest) ++ renderPart (pre ++ rest) = pre ++ rest :=
    List.takeWhile_append_dropWhile _ _
  rw [h1] at h2
  exact List.append_cancel_left h2

/-- After successful setup the startup of a run is the setup, and the render
part is made of iterations and checks. -/
theorem startup_of_run (p : Program) (env : Env) (fuel : Nat)
    (hw : env.glfwCreateWindow ≠ NULL) (hg : env.gladLoadGLLoader ≠ 0) :
    startup (p.run env fuel).world.trace = p.setupCalls env ∧
    ∃ n tail, (tail = [] ∨ tail = [Call.glfwWindowShouldClose env.glfwCreateWindow]) ∧
      renderPart (p.run env fuel).world.trace =
        loopCalls (p.frameCalls env) env.glfwCreateWindow 0 n ++ tail := by
  obtain ⟨n, tail, htail, htr, -, -⟩ := run_trace_shape p env fuel hw hg
  have hrest := loopCalls_head (p.frameCalls env) env.glfwCreateWindow 0 n tail
    (by
      rcases htail with h | h
      · exact Or.inl h
      · exact Or.inr ⟨_, [], h, rfl⟩)
  have h := startup_renderPart (p.setupCalls env) _ (setupCalls_no_check p env) hrest
  rw [htr]
  exact ⟨h.1, n, tail, htail, h.2⟩

theorem filter_isDelete_triangle_setup (env : Env) :
    (HelloTriangle.setupCalls env).filter Call.isDelete =
      [Call.glDeleteShader (env.glCreateShader 0), Call.glDeleteShader (env.glCreateShader 1),
       Call.glDeleteShader (env.glCreateShader 2)] := by
  have h := filter_filter_of_imp Call.isDelete (fun c => !c.isDiagnostic)
    (fun c hc => by cases c <;> simp_all [Call.isDelete, Call.isDiagnostic])
    (HelloTriangle.shaderSetupCalls env)
  simp only [HelloTriangle.setupCalls, List.filter_append, ← h, filter_shaderSetupCalls]
  rfl

end LearnOpenGL

namespace LearnOpenGL

theorem isCreate_not_loop (c : Call) (h : c.isCreate = true) :
    c.isFrameCall = false ∧ c.isCheck = false := by
  cases c <;> simp_all [Call.isCreate, Call.isCreateShader, Call.isCreateProgram,
    Call.isGenBuffers, Call.isGenVertexArrays, Call.isFrameCall, Call.isCheck]

theorem filter_isCreate_triangle_setup (env : Env) :
    (HelloTriangle.setupCalls env).filter Call.isCreate =
      [Call.glCreateShader GL_VERTEX_SHADER, Call.glCreateShader GL_FRAGMENT_SHADER,
       Call.glCreateShader GL_FRAGMENT_SHADER, Call.glCreateProgram, Call.glCreateProgram,
       Call.glGenBuffers 1, Call.glGenVertexArrays 1, Call.glGenBuffers 1,
       Call.glGenVertexArrays 1] := by
  have h := filter_filter_of_imp Call.isCreate (fun c => !c.isDiagnostic)
    (fun c hc => by cases c <;> simp_all [Call.isCreate, Call.isCreateShader,
      Call.isCreateProgram, Call.isGenBuffers, Call.isGenVertexArrays, Call.isDiagnostic])
    (HelloTriangle.shaderSetupCalls env)
  simp only [HelloTriangle.setupCalls, List.filter_append, ← h, filter_shaderSetupCalls]
  rfl

/-- The render part of a run issues no call of a kind that iterations do not issue. -/
theorem countP_renderPart_zero (p : Program) (env : Env) (fuel : Nat) (q : Call → Bool)
    (hq : ∀ c, q c = true → c.isFrameCall = false ∧ c.isCheck = false)
    (hw : env.glfwCreateWindow ≠ NULL) (hg : env.gladLoadGLLoader ≠ 0) :
    (renderPart (p.run env fuel).world.trace).countP q = 0 := by
  obtain ⟨-, n, tail, htail, hr⟩ := startup_of_run p env fuel hw hg
  have hz : tail.countP q = 0 := by
    rcases htail with h | h
    · subst h; rfl
    · subst h
      cases hc : q (Call.glfwWindowShouldClose env.glfwCreateWindow) with
      | false => simp [hc]
      | true => exact absurd (hq _ hc).2 (by simp [Call.isCheck])
  rw [hr, List.countP_append, countP_loopCalls_zero p env q hq, hz]

end LearnOpenGL

namespace LearnOpenGL

/-! ## Membership in the loop -/

theorem mem_loopCalls (frame : Nat → List Call) (window : Nat) (c : Call) :
    ∀ (n i : Nat), c ∈ loopCalls frame window i n →
      c = Call.glfwWindowShouldClose window ∨ ∃ j, j < n ∧ c ∈ frame (i + j) := by
  intro n
  induction n with
  | zero => intro i h; simp [loopCalls] at h
  | succ n ih =>
    intro i h
    simp only [loopCalls, List.mem_cons, List.mem_append] at h
    rcases h with h | h | h
    · exact Or.inl h
    · exact Or.inr ⟨0, Nat.succ_pos n, by simpa using h⟩
    · rcases ih (i + 1) h with h1 | ⟨j, hj, hmem⟩
      · exact Or.inl h1
      · refine Or.inr ⟨j + 1, by omega, ?_⟩
        rwa [show i + (j + 1) = i + 1 + j by omega]

theorem frame_mem_loopCalls (frame : Nat → List Call) (window : Nat) (c : Call) :
    ∀ (n i j : Nat), j < n → c ∈ frame (i + j) → c ∈ loopCalls frame window i n := by
  intro n
  induction n with
  | zero => intro i j hj; omega
  | succ n ih =>
    intro i j hj hc
    simp only [loopCalls, List.mem_cons, List.mem_append]
    cases j with
    | zero => exact Or.inr (Or.inl (by simpa using hc))
    | succ j =>
      refine Or.inr (Or.inr (ih (i + 1) j (by omega) ?_))
      rwa [show i + 1 + j = i + (j + 1) by omega]

/-- The post-input part of an iteration: events, callbacks, swap. -/
theorem countP_eventCalls (q : Call → Bool) (env : Env) (window k : Nat)
    (hv : ∀ x y width height, q (Call.glViewport x y width height) = false) :
    (Call.glfwPollEvents :: (resizeCalls (env.framebufferResizes k) ++
      [Call.glfwSwapBuffers window])).countP q =
      (if q Call.glfwPollEvents then 1 else 0) +
      (if q (Call.glfwSwapBuffers window) then 1 else 0) := by
  simp only [List.countP_cons, List.countP_append, List.countP_nil, countP_resizeCalls q hv]
  omega

/-- Every call of a run that sets the close flag sets it to true. -/
theorem setClose_of_run (p : Program) (env : Env) (fuel : Nat) (c : Call)
    (hc : c ∈ (p.run env fuel).world.trace) (hs : c.isSetClose = true) :
    c = Call.glfwSetWindowShouldClose env.glfwCreateWindow 1 := by
  rcases run_cases p env fuel with ⟨-, hrun⟩ | ⟨-, -, hrun⟩ | ⟨hw, hg, -⟩ | ⟨hw, hg, -⟩
  · rw [hrun] at hc
    simp only [Res.world, windowFailureCalls, List.mem_cons, List.mem_singleton] at hc
    rcases hc with h | h | h | h | h | h | h | h | h <;> first
      | (subst h; simp [Call.isSetClose] at hs)
      | simp at h
  · rw [hrun] at hc
    simp only [Res.world, loaderFailureCalls, List.mem_cons, List.mem_singleton] at hc
    rcases hc with h | h | h | h | h | h | h | h | h | h | h <;> first
      | (subst h; simp [Call.isSetClose] at hs)
      | simp at h
  all_goals
    obtain ⟨n, tail, htail, htr, -, -⟩ := run_trace_shape p env fuel hw hg
    rw [htr, List.mem_append, List.mem_append] at hc
    rcases hc with hc | hc | hc
    · have := setupCalls_no_loop_call p env c hc
      simp [Call.isLoopCall, hs] at this
    · rcases mem_loopCalls _ _ c n 0 hc with h | ⟨j, -, hmem⟩
      · subst h; simp [Call.isSetClose] at hs
      · cases p with
        | helloWindow =>
          simp only [Program.frameCalls, HelloWindow.frameCalls, List.mem_cons] at hmem
          rcases hmem with h | h | h
          · subst h; simp [Call.isSetClose] at hs
          · subst h; simp [Call.isSetClose] at hs
          · rcases mem_frameTail c env _ _ h with h | h | h | ⟨x, y, h⟩ | h
            · subst h; simp [Call.isSetClose] at hs
            · exact h
            · subst h; simp [Call.isSetClose] at hs
            · subst h; simp [Call.isSetClose] at hs
            · subst h; simp [Call.isSetClose] at hs
        | helloTriangle =>
          simp only [Program.frameCalls, HelloTriangle.frameCalls, HelloTriangle.drawCalls,
            List.mem_cons, List.mem_append, List.mem_singleton, List.cons_append,
            List.nil_append] at hmem
          rcases hmem with h | h | h | h | h | h | h | h | h
          any_goals (subst h; simp [Call.isSetClose] at hs)
          rcases mem_frameTail c env _ _ h with h | h | h | ⟨x, y, h⟩ | h
          · subst h; simp [Call.isSetClose] at hs
          · exact h
          · subst h; simp [Call.isSetClose] at hs
          · subst h; simp [Call.isSetClose] at hs
          · subst h; simp [Call.isSetClose] at hs
    · rcases htail with h | h
      · subst h; simp at hc
      · subst h
        simp only [List.mem_singleton] at hc
        subst hc
        simp [Call.isSetClose] at hs

end LearnOpenGL

namespace LearnOpenGL

/-! ## Draw states -/

theorem drawStates_append (a b : List Call) : ∀ s : Option Nat × Option Nat,
    drawStates s (a ++ b) = drawStates s a ++ drawStates (glState s a) b := by
  induction a with
  | nil => intro s; simp [drawStates, glState]
  | cons c a ih =>
    intro s
    cases c <;> simp [drawStates, glState, ih]

theorem drawStates_no_draw (l : List Call) (h : l.countP Call.isDraw = 0) :
    ∀ s : Option Nat × Option Nat, drawStates s l = [] := by
  induction l with
  | nil => intro s; rfl
  | cons c l ih =>
    intro s
    have hc : c.isDraw = false := by
      cases hcd : c.isDraw with
      | false => rfl
      | true => rw [List.countP_cons_of_pos (p := Call.isDraw) _ hcd] at h; omega
    have hl : l.countP Call.isDraw = 0 := by
      rw [List.countP_cons_of_neg (p := Call.isDraw) _ (by simp [hc])] at h
      exact h
    cases c <;> simp_all [drawStates, Call.isDraw]

/-- Whatever the state before it, an iteration of `hello-triangle` draws with
the first program and first vertex array, then with the second of each. -/
theorem drawStates_triangle_frame (env : Env) (k : Nat) (s : Option Nat × Option Nat) :
    drawStates s (HelloTriangle.frameCalls env k) =
      [(some (env.glCreateProgram 0), some (env.glGenVertexArrays 0)),
       (some (env.glCreateProgram 1), some (env.glGenVertexArrays 1))] := by
  have htail : ∀ s, drawStates s (frameTail env env.glfwCreateWindow k) = [] :=
    drawStates_no_draw _ (by
      rw [countP_frameTail _ _ _ _ (fun _ _ _ _ => rfl) rfl]; rfl)
  show drawStates s (Call.glClearColor ⟨2, 1⟩ ⟨3, 1⟩ ⟨3, 1⟩ ⟨10, 1⟩ ::
    Call.glClear GL_COLOR_BUFFER_BIT :: Call.glUseProgram (env.glCreateProgram 0) ::
    Call.glBindVertexArray (env.glGenVertexArrays 0) :: Call.glDrawArrays GL_TRIANGLES 0 3 ::
    Call.glUseProgram (env.glCreateProgram 1) ::
    Call.glBindVertexArray (env.glGenVertexArrays 1) :: Call.glDrawArrays GL_TRIANGLES 0 3 ::
    frameTail env env.glfwCreateWindow k) = _
  generalize frameTail env env.glfwCreateWindow k = tl at htail
  simp only [drawStates, htail]

theorem drawStates_triangle_loop (env : Env) (tail : List Call)
    (htail : tail.countP Call.isDraw = 0) : ∀ (n i : Nat) (s : Option Nat × Option Nat),
    drawStates s (loopCalls (HelloTriangle.frameCalls env) env.glfwCreateWindow i n ++ tail) =
      alternate (some (env.glCreateProgram 0), some (env.glGenVertexArrays 0))
        (some (env.glCreateProgram 1), some (env.glGenVertexArrays 1)) n := by
  intro n
  induction n with
  | zero => intro i s; simpa [loopCalls, alternate] using drawStates_no_draw tail htail s
  | succ n ih =>
    intro i s
    have hshape : loopCalls (HelloTriangle.frameCalls env) env.glfwCreateWindow i (n + 1) ++ tail =
        Call.glfwWindowShouldClose env.glfwCreateWindow :: (HelloTriangle.frameCalls env i ++
          (loopCalls (HelloTriangle.frameCalls env) env.glfwCreateWindow (i + 1) n ++ tail)) := by
      simp [loopCalls]
    have hcheck : ∀ cs, drawStates s (Call.glfwWindowShouldClose env.glfwCreateWindow :: cs) =
        drawStates s cs := fun cs => rfl
    rw [hshape, hcheck, drawStates_append, drawStates_triangle_frame, ih]
    rfl

theorem filter_nil_of_countP (q : Call → Bool) (l : List Call) (h : l.countP q = 0) :
    l.filter q = [] := by
  induction l with
  | nil => rfl
  | cons c l ih =>
    cases hq : q c with
    | true => rw [List.countP_cons_of_pos (p := q) _ hq] at h; omega
    | false =>
      rw [List.countP_cons_of_neg (p := q) _ (by simp [hq])] at h
      rw [List.filter_cons_of_neg (by simp [hq]), ih h]

/-- Filtering a run of `hello-triangle` for a kind of call that is neither a
diagnostic nor issued by the loop. -/
theorem filter_triangle_run (env : Env) (fuel : Nat) (q : Call → Bool)
    (hq1 : ∀ c, q c = true → c.isFrameCall = false ∧ c.isCheck = false)
    (hq2 : ∀ c, q c = true → c.isDiagnostic = false)
    (hw : env.glfwCreateWindow ≠ NULL) (hg : env.gladLoadGLLoader ≠ 0) :
    (HelloTriangle.run env fuel).world.trace.filter q =
      (HelloWindow.setupCalls env ++
        ((HelloTriangle.shaderSetupCalls env).filter (fun c => !c.isDiagnostic) ++
          (HelloTriangle.deleteCalls env ++ HelloTriangle.vaoSetupCalls env))).filter q := by
  obtain ⟨n, tail, htail, htr, -, -⟩ := run_trace_shape Program.helloTriangle env fuel hw hg
  have htr2 : (HelloTriangle.run env fuel).world.trace =
      HelloTriangle.setupCalls env ++
        (loopCalls (HelloTriangle.frameCalls env) env.glfwCreateWindow 0 n ++ tail) := htr
  have hz : tail.countP q = 0 := by
    rcases htail with h | h
    · subst h; rfl
    · subst h
      cases hc : q (Call.glfwWindowShouldClose env.glfwCreateWindow) with
      | false => simp [hc]
      | true => exact absurd (hq1 _ hc).2 (by simp [Call.isCheck])
  have hloop : (loopCalls (HelloTriangle.frameCalls env) env.glfwCreateWindow 0 n).countP q = 0 :=
    countP_loopCalls_zero Program.helloTriangle env q hq1 n 0
  have hf := filter_filter_of_imp q (fun c => !c.isDiagnostic)
    (fun c hc => by simp [hq2 c hc]) (HelloTriangle.shaderSetupCalls env)
  rw [htr2]
  simp only [List.filter_append, HelloTriangle.setupCalls, hf]
  rw [filter_nil_of_countP q _ hloop, filter_nil_of_countP q _ hz]
  simp

end LearnOpenGL

namespace LearnOpenGL

theorem alternate_getElem? {α : Type} (a b : α) : ∀ (n i : Nat) (d1 d2 : α),
    (alternate a b n)[2 * i]? = some d1 → (alternate a b n)[2 * i + 1]? = some d2 →
      d1 = a ∧ d2 = b := by
  intro n
  induction n with
  | zero => intro i d1 d2 h1; simp [alternate] at h1
  | succ n ih =>
    intro i d1 d2 h1 h2
    cases i with
    | zero =>
      simp only [alternate, Nat.mul_zero, List.getElem?_cons_zero, Option.some.injEq,
        Nat.zero_add, List.getElem?_cons_succ] at h1 h2
      exact ⟨h1.symm, h2.symm⟩
    | succ i =>
      have e1 : 2 * (i + 1) = (2 * i + 1) + 1 := by ring
      have e2 : 2 * (i + 1) + 1 = ((2 * i + 1) + 1) + 1 := by ring
      rw [e1] at h1
      rw [e2] at h2
      simp only [alternate, List.getElem?_cons_succ] at h1 h2
      exact ih i d1 d2 h1 h2

/-- The draw states of a run of `hello-triangle` after successful setup. -/
theorem drawStates_triangle_run (env : Env) (fuel : Nat)
    (hw : env.glfwCreateWindow ≠ NULL) (hg : env.gladLoadGLLoader ≠ 0) :
    drawStates (none, none) (HelloTriangle.run env fuel).world.trace =
      alternate (some (env.glCreateProgram 0), some (env.glGenVertexArrays 0))
        (some (env.glCreateProgram 1), some (env.glGenVertexArrays 1))
        ((HelloTriangle.run env fuel).world.trace.countP Call.isSwap) := by
  obtain ⟨n, tail, htail, htr, -, -⟩ := run_trace_shape Program.helloTriangle env fuel hw hg
  have htr2 : (HelloTriangle.run env fuel).world.trace =
      HelloTriangle.setupCalls env ++
        (loopCalls (HelloTriangle.frameCalls env) env.glfwCreateWindow 0 n ++ tail) := htr
  have hz : ∀ q : Call → Bool, q (Call.glfwWindowShouldClose env.glfwCreateWindow) = false →
      tail.countP q = 0 := by
    intro q hq
    rcases htail with h | h <;> subst h <;> simp [hq]
  have hswap : (HelloTriangle.run env fuel).world.trace.countP Call.isSwap = n := by
    have := countP_run_trace Program.helloTriangle env Call.isSwap 1 n tail (hz _ rfl)
      (fun x hx => by simp [Call.isLoopCall, hx]) rfl
      (fun k => (countP_frameCalls Program.helloTriangle env k).2.2.2.2)
    rw [htr2]; simpa using this
  have hsetup : (HelloTriangle.setupCalls env).countP Call.isDraw = 0 :=
    countP_zero_of_imp Call.isDraw Call.isLoopCall _
      (fun c hc => by simp [Call.isLoopCall, hc])
      (countP_setupCalls_loop Program.helloTriangle env)
  rw [hswap, htr2, drawStates_append, drawStates_no_draw _ hsetup,
    drawStates_triangle_loop env tail (hz _ rfl)]
  rfl

end LearnOpenGL

namespace LearnOpenGL

/-! ## Where a call of a run comes from -/

theorem mem_run_cases (p : Program) (env : Env) (fuel : Nat) (c : Call)
    (hc : c ∈ (p.run env fuel).world.trace) :
    (c ∈ windowFailureCalls ∨ c ∈ loaderFailureCalls env) ∨
    (env.glfwCreateWindow ≠ NULL ∧ env.gladLoadGLLoader ≠ 0 ∧
      (c ∈ p.setupCalls env ∨ c = Call.glfwWindowShouldClose env.glfwCreateWindow ∨
        ∃ k, c ∈ p.frameCalls env k)) := by
  rcases run_cases p env fuel with ⟨-, hrun⟩ | ⟨-, -, hrun⟩ | ⟨hw, hg, -⟩ | ⟨hw, hg, -⟩
  · rw [hrun] at hc; exact Or.inl (Or.inl hc)
  · rw [hrun] at hc; exact Or.inl (Or.inr hc)
  all_goals
    obtain ⟨n, tail, htail, htr, -, -⟩ := run_trace_shape p env fuel hw hg
    rw [htr, List.mem_append, List.mem_append] at hc
    refine Or.inr ⟨hw, hg, ?_⟩
    rcases hc with hc | hc | hc
    · exact Or.inl hc
    · rcases mem_loopCalls _ _ c n 0 hc with h | ⟨j, -, hmem⟩
      · exact Or.inr (Or.inl h)
      · exact Or.inr (Or.inr ⟨_, hmem⟩)
    · rcases htail with h | h
      · subst h; simp at hc
      · subst h
        exact Or.inr (Or.inl (by simpa using hc))

/-- A call of a kind that is neither a diagnostic, nor issued by the loop, nor
issued on a failure path comes from the setup of `hello-triangle`. -/
theorem mem_triangle_setup_kind (env : Env) (fuel : Nat) (q : Call → Bool) (c : Call)
    (hq1 : ∀ c, q c = true → c.isFrameCall = false ∧ c.isCheck = false)
    (hq2 : ∀ c, q c = true → c.isDiagnostic = false)
    (hq3 : windowFailureCalls.countP q = 0) (hq4 : (loaderFailureCalls env).countP q = 0)
    (hc : c ∈ (HelloTriangle.run env fuel).world.trace) (hqc : q c = true) :
    c ∈ (HelloWindow.setupCalls env ++
        ((HelloTriangle.shaderSetupCalls env).filter (fun c => !c.isDiagnostic) ++
          (HelloTriangle.deleteCalls env ++ HelloTriangle.vaoSetupCalls env))).filter q := by
  by_cases hw : env.glfwCreateWindow = NULL
  · have hrun := triangle_main_window_failure env fuel hw
    rw [hrun] at hc
    rw [List.countP_eq_zero] at hq3
    exact absurd hqc (hq3 c hc)
  · by_cases hg : env.gladLoadGLLoader = 0
    · have hrun := triangle_main_loader_failure env fuel hw hg
      rw [hrun] at hc
      rw [List.countP_eq_zero] at hq4
      exact absurd hqc (hq4 c hc)
    · rw [← filter_triangle_run env fuel q hq1 hq2 hw hg]
      exact List.mem_filter.mpr ⟨hc, hqc⟩

/-- Every draw call of a run is `glDrawArrays(GL_TRIANGLES, 0, 3)`. -/
theorem draw_of_run (p : Program) (env : Env) (fuel : Nat) (c : Call)
    (hc : c ∈ (p.run env fuel).world.trace) (hd : c.isDraw = true) :
    c = Call.glDrawArrays GL_TRIANGLES 0 3 := by
  rcases mem_run_cases p env fuel c hc with (h | h) | ⟨-, -, h | h | ⟨k, h⟩⟩
  · have hz : windowFailureCalls.countP Call.isDraw = 0 := rfl
    rw [List.countP_eq_zero] at hz
    exact absurd hd (hz c h)
  · have hz : (loaderFailureCalls env).countP Call.isDraw = 0 := rfl
    rw [List.countP_eq_zero] at hz
    exact absurd hd (hz c h)
  · have := setupCalls_no_loop_call p env c h
    simp [Call.isLoopCall, hd] at this
  · subst h; simp [Call.isDraw] at hd
  · cases p with
    | helloWindow =>
      have hz := (countP_frameCalls Program.helloWindow env k).2.1
      rw [List.countP_eq_zero] at hz
      exact absurd hd (hz c h)
    | helloTriangle =>
      simp only [Program.frameCalls, HelloTriangle.frameCalls, HelloTriangle.drawCalls,
        List.mem_cons, List.mem_append, List.mem_singleton, List.cons_append,
        List.nil_append] at h
      rcases h with h | h | h | h | h | h | h | h | h
      any_goals (subst h; first | rfl | simp [Call.isDraw] at hd)
      rcases mem_frameTail c env _ _ h with h | h | h | ⟨x, y, h⟩ | h <;> subst h <;>
        simp [Call.isDraw] at hd

end LearnOpenGL

namespace LearnOpenGL

/-! ## Deleting shaders -/

theorem noUseAfterDelete_append (a b : List Call) (ha : a.countP Call.isDeleteShader = 0) :
    noUseAfterDelete (a ++ b) = noUseAfterDelete b := by
  induction a with
  | nil => rfl
  | cons c a ih =>
    have hc : c.isDeleteShader = false := by
      cases hcd : c.isDeleteShader with
      | false => rfl
      | true => rw [List.countP_cons_of_pos (p := Call.isDeleteShader) _ hcd] at ha; omega
    have hl : a.countP Call.isDeleteShader = 0 := by
      rw [List.countP_cons_of_neg (p := Call.isDeleteShader) _ (by simp [hc])] at ha
      exact ha
    cases c <;> simp_all [noUseAfterDelete, Call.isDeleteShader]

theorem deletedAfterLinking_append (a b : List Call) (ha : a.countP Call.isDeleteShader = 0) :
    deletedAfterLinking (a ++ b) = deletedAfterLinking b := by
  induction a with
  | nil => rfl
  | cons c a ih =>
    have hc : c.isDeleteShader = false := by
      cases hcd : c.isDeleteShader with
      | false => rfl
      | true => rw [List.countP_cons_of_pos (p := Call.isDeleteShader) _ hcd] at ha; omega
    have hl : a.countP Call.isDeleteShader = 0 := by
      rw [List.countP_cons_of_neg (p := Call.isDeleteShader) _ (by simp [hc])] at ha
      exact ha
    cases c <;> simp_all [deletedAfterLinking, Call.isDeleteShader]

theorem noUseAfterDelete_of_none (l : List Call) (h : l.countP Call.isDeleteShader = 0) :
    noUseAfterDelete l = true := by
  have := noUseAfterDelete_append l [] h
  simpa [noUseAfterDelete] using this

theorem deletedAfterLinking_of_none (l : List Call) (h : l.countP Call.isDeleteShader = 0) :
    deletedAfterLinking l = true := by
  have := deletedAfterLinking_append l [] h
  simpa [deletedAfterLinking] using this

/-- What follows the three `glDeleteShader` calls in a run of `hello-triangle`:
the vertex array setup and the loop. -/
theorem triangle_after_delete (env : Env) (n : Nat) (tail : List Call)
    (htail : tail = [] ∨ tail = [Call.glfwWindowShouldClose env.glfwCreateWindow])
    (q : Call → Bool) (hq : ∀ c, q c = true → c.isFrameCall = false ∧ c.isCheck = false)
    (hv : (HelloTriangle.vaoSetupCalls env).countP q = 0) :
    (HelloTriangle.vaoSetupCalls env ++
      (loopCalls (HelloTriangle.frameCalls env) env.glfwCreateWindow 0 n ++ tail)).countP q = 0 := by
  have hz : tail.countP q = 0 := by
    rcases htail with h | h
    · subst h; rfl
    · subst h
      cases hc : q (Call.glfwWindowShouldClose env.glfwCreateWindow) with
      | false => simp [hc]
      | true => exact absurd (hq _ hc).2 (by simp [Call.isCheck])
  have hloop : (loopCalls (HelloTriangle.frameCalls env) env.glfwCreateWindow 0 n).countP q = 0 :=
    countP_loopCalls_zero Program.helloTriangle env q hq n 0
  rw [List.countP_append, List.countP_append, hv, hloop, hz]

theorem countP_isDeleteShader_before (env : Env) :
    (HelloWindow.setupCalls env ++ HelloTriangle.shaderSetupCalls env).countP
      Call.isDeleteShader = 0 := by
  have h := countP_filter_of_imp Call.isDeleteShader (fun c => !c.isDiagnostic)
    (fun c hc => by cases c <;> simp_all [Call.isDeleteShader, Call.isDiagnostic])
    (HelloTriangle.shaderSetupCalls env)
  rw [List.countP_append, ← h, filter_shaderSetupCalls]
  rfl

end LearnOpenGL

namespace LearnOpenGL

theorem all_not_of_countP (q : Call → Bool) (l : List Call) (h : l.countP q = 0) :
    l.all (fun c => !q c) = true := by
  rw [List.countP_eq_zero] at h
  rw [List.all_eq_true]
  intro c hc
  simpa using h c hc

theorem all_shaderArg_ne_of_countP (s : Nat) (l : List Call)
    (h : l.countP Call.usesShader = 0) :
    l.all (fun c => decide (c.shaderArg ≠ some s)) = true := by
  rw [List.countP_eq_zero] at h
  rw [List.all_eq_true]
  intro c hc
  have hn := h c hc
  simp only [Call.usesShader, Bool.not_eq_true] at hn
  simp only [ne_eq, decide_eq_true_eq]
  intro hs
  rw [hs] at hn
  simp at hn

theorem usesShader_not_loop (c : Call) (h : c.usesShader = true) :
    c.isFrameCall = false ∧ c.isCheck = false := by
  cases c <;> simp_all [Call.usesShader, Call.shaderArg, Call.isFrameCall, Call.isCheck]

theorem isAttachOrLink_not_loop (c : Call) (h : c.isAttachOrLink = true) :
    c.isFrameCall = false ∧ c.isCheck = false := by
  cases c <;> simp_all [Call.isAttachOrLink, Call.isAttach, Call.isLink, Call.isFrameCall,
    Call.isCheck]

theorem isDeleteShader_not_loop (c : Call) (h : c.isDeleteShader = true) :
    c.isFrameCall = false ∧ c.isCheck = false := by
  cases c <;> simp_all [Call.isDeleteShader, Call.isFrameCall, Call.isCheck]

/-- The trace of a run of `hello-triangle` after successful setup, split at the
three `glDeleteShader` calls. -/
theorem triangle_trace_split (env : Env) (fuel : Nat)
    (hw : env.glfwCreateWindow ≠ NULL) (hg : env.gladLoadGLLoader ≠ 0) :
    ∃ rest, (HelloTriangle.run env fuel).world.trace =
        (HelloWindow.setupCalls env ++ HelloTriangle.shaderSetupCalls env) ++
          (Call.glDeleteShader (env.glCreateShader 0) ::
           Call.glDeleteShader (env.glCreateShader 1) ::
           Call.glDeleteShader (env.glCreateShader 2) :: rest) ∧
      rest.countP Call.usesShader = 0 ∧ rest.countP Call.isAttachOrLink = 0 ∧
      rest.countP Call.isDeleteShader = 0 := by
  obtain ⟨n, tail, htail, htr, -, -⟩ := run_trace_shape Program.helloTriangle env fuel hw hg
  have htr2 : (HelloTriangle.run env fuel).world.trace =
      HelloTriangle.setupCalls env ++
        (loopCalls (HelloTriangle.frameCalls env) env.glfwCreateWindow 0 n ++ tail) := htr
  refine ⟨HelloTriangle.vaoSetupCalls env ++
      (loopCalls (HelloTriangle.frameCalls env) env.glfwCreateWindow 0 n ++ tail), ?_,
    triangle_after_delete env n tail htail _ usesShader_not_loop rfl,
    triangle_after_delete env n tail htail _ isAttachOrLink_not_loop rfl,
    triangle_after_delete env n tail htail _ isDeleteShader_not_loop rfl⟩
  rw [htr2]
  simp [HelloTriangle.setupCalls, HelloTriangle.deleteCalls]

end LearnOpenGL

namespace LearnOpenGL

/-! ## Order of linking and deleting, iterations of a closed run -/

theorem noUseAfterDeleteOf_append (s : Nat) (a b : List Call)
    (ha : a.countP Call.isDeleteShader = 0) :
    noUseAfterDeleteOf s (a ++ b) = noUseAfterDeleteOf s b := by
  induction a with
  | nil => rfl
  | cons c a ih =>
    have hc : c.isDeleteShader = false := by
      cases hcd : c.isDeleteShader with
      | false => rfl
      | true => rw [List.countP_cons_of_pos (p := Call.isDeleteShader) _ hcd] at ha; omega
    have hl : a.countP Call.isDeleteShader = 0 := by
      rw [List.countP_cons_of_neg (p := Call.isDeleteShader) _ (by simp [hc])] at ha
      exact ha
    cases c <;> simp_all [noUseAfterDeleteOf, Call.isDeleteShader]

theorem noUseAfterDeleteOf_of_none (s : Nat) (l : List Call)
    (h : l.countP Call.isDeleteShader = 0) : noUseAfterDeleteOf s l = true := by
  have := noUseAfterDeleteOf_append s l [] h
  simpa [noUseAfterDeleteOf] using this

/-- In a run of `hello-triangle` no shader is attached and no program linked
after a `glDeleteShader` call. -/
theorem deletedAfterLinking_triangle_run (env : Env) (fuel : Nat)
    (hw : env.glfwCreateWindow ≠ NULL) (hg : env.gladLoadGLLoader ≠ 0) :
    deletedAfterLinking (HelloTriangle.run env fuel).world.trace = true := by
  obtain ⟨rest, htr, -, hr2, hr3⟩ := triangle_trace_split env fuel hw hg
  rw [htr, deletedAfterLinking_append _ _ (countP_isDeleteShader_before env)]
  have h1 := all_not_of_countP Call.isAttachOrLink rest hr2
  have h2 := deletedAfterLinking_of_none rest hr3
  simp only [deletedAfterLinking, List.all_cons, h1, h2]
  rfl

/-- The calls of the setup of `hello-triangle` that build programs or delete
objects, in order. -/
theorem filter_build_delete_triangle_setup (env : Env) :
    (HelloTriangle.setupCalls env).filter (fun c => c.isAttachOrLink || c.isDelete) =
      [Call.glAttachShader (env.glCreateProgram 0) (env.glCreateShader 0),
       Call.glAttachShader (env.glCreateProgram 0) (env.glCreateShader 1),
       Call.glLinkProgram (env.glCreateProgram 0),
       Call.glAttachShader (env.glCreateProgram 1) (env.glCreateShader 0),
       Call.glAttachShader (env.glCreateProgram 1) (env.glCreateShader 2),
       Call.glLinkProgram (env.glCreateProgram 1),
       Call.glDeleteShader (env.glCreateShader 0),
       Call.glDeleteShader (env.glCreateShader 1),
       Call.glDeleteShader (env.glCreateShader 2)] := by
  have h := filter_filter_of_imp (fun c => c.isAttachOrLink || c.isDelete)
    (fun c => !c.isDiagnostic)
    (fun c hc => by cases c <;> simp_all [Call.isAttachOrLink, Call.isAttach, Call.isLink,
      Call.isDelete, Call.isDiagnostic])
    (HelloTriangle.shaderSetupCalls env)
  simp only [HelloTriangle.setupCalls, List.filter_append, ← h, filter_shaderSetupCalls]
  rfl

theorem filter_isAttachOrLink_before (env : Env) :
    (HelloWindow.setupCalls env ++ HelloTriangle.shaderSetupCalls env).filter
        Call.isAttachOrLink =
      [Call.glAttachShader (env.glCreateProgram 0) (env.glCreateShader 0),
       Call.glAttachShader (env.glCreateProgram 0) (env.glCreateShader 1),
       Call.glLinkProgram (env.glCreateProgram 0),
       Call.glAttachShader (env.glCreateProgram 1) (env.glCreateShader 0),
       Call.glAttachShader (env.glCreateProgram 1) (env.glCreateShader 2),
       Call.glLinkProgram (env.glCreateProgram 1)] := by
  have h := filter_filter_of_imp Call.isAttachOrLink (fun c => !c.isDiagnostic)
    (fun c hc => by cases c <;> simp_all [Call.isAttachOrLink, Call.isAttach, Call.isLink,
      Call.isDiagnostic])
    (HelloTriangle.shaderSetupCalls env)
  simp only [List.filter_append, ← h, filter_shaderSetupCalls]
  rfl

/-- The number of iterations of a run that `main` has returned from. -/
theorem iterations_of_closed_run (p : Program) (env : Env)
    (hw : env.glfwCreateWindow ≠ NULL) (hg : env.gladLoadGLLoader ≠ 0) (n : Nat)
    (h0 : ∀ j, j < n → env.glfwWindowShouldClose j = 0) (h1 : env.glfwWindowShouldClose n ≠ 0)
    (fuel : Nat) (hf : n < fuel) :
    (p.run env fuel).world.trace.countP Call.isSwap = n ∧
    (frames (p.run env fuel).world.trace).length = n + 1 := by
  obtain ⟨w, hrun, htr⟩ := run_closed p env hw hg n h0 h1 fuel hf
  rw [hrun]
  simp only [Res.world]
  constructor
  · have := countP_run_trace p env Call.isSwap 1 n
      [Call.glfwWindowShouldClose env.glfwCreateWindow] rfl
      (fun x hx => by simp [Call.isLoopCall, hx]) rfl
      (fun k => (countP_frameCalls p env k).2.2.2.2)
    rw [htr, this]; simp
  · rw [htr, frames_closed, List.length_append, framesFrom_length]; rfl

/-- The number of iterations of a run that is still in its loop. -/
theorem iterations_of_running_run (p : Program) (env : Env)
    (hw : env.glfwCreateWindow ≠ NULL) (hg : env.gladLoadGLLoader ≠ 0) (fuel : Nat)
    (h0 : ∀ j, j < fuel → env.glfwWindowShouldClose j = 0) :
    (p.run env fuel).world.trace.countP Call.isSwap = fuel ∧
    (frames (p.run env fuel).world.trace).length = fuel := by
  obtain ⟨w, hrun, htr⟩ := run_running p env hw hg fuel h0
  rw [hrun]
  simp only [Res.world]
  constructor
  · have := countP_run_trace p env Call.isSwap 1 fuel [] rfl
      (fun x hx => by simp [Call.isLoopCall, hx]) rfl
      (fun k => (countP_frameCalls p env k).2.2.2.2)
    rw [List.append_nil] at this
    rw [htr, this]; simp
  · rw [htr, frames_running, framesFrom_length]

end LearnOpenGL

namespace LearnOpenGL

theorem countP_isDelete_before (env : Env) :
    (HelloWindow.setupCalls env ++ HelloTriangle.shaderSetupCalls env).countP
      Call.isDelete = 0 := by
  have h := countP_filter_of_imp Call.isDelete (fun c => !c.isDiagnostic)
    (fun c hc => by cases c <;> simp_all [Call.isDelete, Call.isDiagnostic])
    (HelloTriangle.shaderSetupCalls env)
  rw [List.countP_append, ← h, filter_shaderSetupCalls]
  rfl

/-- The trace of a run of `hello-triangle` after successful setup, split at the
three `glDeleteShader` calls: what precedes them builds both programs and deletes
nothing, what follows them passes no shader name and deletes nothing. -/
theorem triangle_trace_around_delete (env : Env) (fuel : Nat)
    (hw : env.glfwCreateWindow ≠ NULL) (hg : env.gladLoadGLLoader ≠ 0) :
    ∃ pre rest, (HelloTriangle.run env fuel).world.trace =
        pre ++ (Call.glDeleteShader (env.glCreateShader 0) ::
           Call.glDeleteShader (env.glCreateShader 1) ::
           Call.glDeleteShader (env.glCreateShader 2) :: rest) ∧
      pre.countP Call.isDelete = 0 ∧ pre.countP Call.isDeleteShader = 0 ∧
      pre.filter Call.isAttachOrLink =
        [Call.glAttachShader (env.glCreateProgram 0) (env.glCreateShader 0),
         Call.glAttachShader (env.glCreateProgram 0) (env.glCreateShader 1),
         Call.glLinkProgram (env.glCreateProgram 0),
         Call.glAttachShader (env.glCreateProgram 1) (env.glCreateShader 0),
         Call.glAttachShader (env.glCreateProgram 1) (env.glCreateShader 2),
         Call.glLinkProgram (env.glCreateProgram 1)] ∧
      rest.countP Call.usesShader = 0 ∧ rest.countP Call.isAttachOrLink = 0 ∧
      rest.countP Call.isDelete = 0 ∧ rest.countP Call.isDeleteShader = 0 := by
  obtain ⟨n, tail, htail, htr, -, -⟩ := run_trace_shape Program.helloTriangle env fuel hw hg
  have htr2 : (HelloTriangle.run env fuel).world.trace =
      HelloTriangle.setupCalls env ++
        (loopCalls (HelloTriangle.frameCalls env) env.glfwCreateWindow 0 n ++ tail) := htr
  refine ⟨HelloWindow.setupCalls env ++ HelloTriangle.shaderSetupCalls env,
    HelloTriangle.vaoSetupCalls env ++
      (loopCalls (HelloTriangle.frameCalls env) env.glfwCreateWindow 0 n ++ tail), ?_,
    countP_isDelete_before env, countP_isDeleteShader_before env,
    filter_isAttachOrLink_before env,
    triangle_after_delete env n tail htail _ usesShader_not_loop rfl,
    triangle_after_delete env n tail htail _ isAttachOrLink_not_loop rfl,
    triangle_after_delete env n tail htail _ isDelete_not_loop rfl,
    triangle_after_delete env n tail htail _ isDeleteShader_not_loop rfl⟩
  rw [htr2]
  simp [HelloTriangle.setupCalls, HelloTriangle.deleteCalls]

end LearnOpenGL

namespace LearnOpenGL

theorem isAttachOrLink_not_diagnostic (c : Call) (h : c.isAttachOrLink = true) :
    c.isDiagnostic = false := by
  cases c <;> simp_all [Call.isAttachOrLink, Call.isAttach, Call.isLink, Call.isDiagnostic]

theorem isDelete_not_diagnostic (c : Call) (h : c.isDelete = true) :
    c.isDiagnostic = false := by
  cases c <;> simp_all [Call.isDelete, Call.isDiagnostic]

end LearnOpenGL

namespace LearnOpenGL

/-! ## The claims -/

/-- C1: in both programs, whatever the library answers, when `glfwCreateWindow`
returns `NULL` the run consists of the calls up to window creation, the message
"Failed to create GLFW window" on the error stream, one `glfwTerminate` and
`exit(EXIT_FAILURE)`, and nothing else (no `glfwMakeContextCurrent`, no loader call);
when a window is returned and `gladLoadGLLoader` returns 0 the run consists of the
calls up to the loader call, the message "Failed to initialize GLAD", one
`glfwTerminate` and `exit(EXIT_FAILURE)`, and nothing else. -/
theorem setup_failure_is_fatal (p : Program) (env : Env) (fuel : Nat) :
    (env.glfwCreateWindow = NULL →
      ∃ w, p.run env fuel = Res.exited EXIT_FAILURE w ∧
        w.trace =
          [Call.glfwInit,
           Call.glfwWindowHint GLFW_CONTEXT_VERSION_MAJOR 3,
           Call.glfwWindowHint GLFW_CONTEXT_VERSION_MINOR 3,
           Call.glfwWindowHint GLFW_OPENGL_PROFILE GLFW_OPENGL_CORE_PROFILE,
           Call.glfwCreateWindow 800 600 "LearnOpenGL" NULL NULL,
           Call.cerr "Failed to create GLFW window",
           Call.glfwTerminate,
           Call.exit EXIT_FAILURE]) ∧
    (env.glfwCreateWindow ≠ NULL → env.gladLoadGLLoader = 0 →
      ∃ w, p.run env fuel = Res.exited EXIT_FAILURE w ∧
        w.trace =
          [Call.glfwInit,
           Call.glfwWindowHint GLFW_CONTEXT_VERSION_MAJOR 3,
           Call.glfwWindowHint GLFW_CONTEXT_VERSION_MINOR 3,
           Call.glfwWindowHint GLFW_OPENGL_PROFILE GLFW_OPENGL_CORE_PROFILE,
           Call.glfwCreateWindow 800 600 "LearnOpenGL" NULL NULL,
           Call.glfwMakeContextCurrent env.glfwCreateWindow,
           Call.gladLoadGLLoader,
           Call.cerr "Failed to initialize GLAD",
           Call.glfwTerminate,
           Call.exit EXIT_FAILURE]) := by
  constructor
  · intro hw
    exact ⟨_, run_window_failure p env fuel hw, rfl⟩
  · intro hw hg
    exact ⟨_, run_loader_failure p env fuel hw hg, rfl⟩

end LearnOpenGL

namespace LearnOpenGL

/-- Witness for C1: a library without a window and a library without a loader. -/
theorem setup_failure_is_fatal_witness :
    (Example.noWindow.glfwCreateWindow = NULL ∧
      ∃ w, Program.helloWindow.run Example.noWindow 3 = Res.exited EXIT_FAILURE w ∧
        w.trace =
          [Call.glfwInit,
           Call.glfwWindowHint GLFW_CONTEXT_VERSION_MAJOR 3,
           Call.glfwWindowHint GLFW_CONTEXT_VERSION_MINOR 3,
           Call.glfwWindowHint GLFW_OPENGL_PROFILE GLFW_OPENGL_CORE_PROFILE,
           Call.glfwCreateWindow 800 600 "LearnOpenGL" NULL NULL,
           Call.cerr "Failed to create GLFW window",
           Call.glfwTerminate,
           Call.exit EXIT_FAILURE]) ∧
    (Example.noLoader.glfwCreateWindow ≠ NULL ∧ Example.noLoader.gladLoadGLLoader = 0 ∧
      ∃ w, Program.helloTriangle.run Example.noLoader 3 = Res.exited EXIT_FAILURE w ∧
        w.trace =
          [Call.glfwInit,
           Call.glfwWindowHint GLFW_CONTEXT_VERSION_MAJOR 3,
           Call.glfwWindowHint GLFW_CONTEXT_VERSION_MINOR 3,
           Call.glfwWindowHint GLFW_OPENGL_PROFILE GLFW_OPENGL_CORE_PROFILE,
           Call.glfwCreateWindow 800 600 "LearnOpenGL" NULL NULL,
           Call.glfwMakeContextCurrent Example.noLoader.glfwCreateWindow,
           Call.gladLoadGLLoader,
           Call.cerr "Failed to initialize GLAD",
           Call.glfwTerminate,
           Call.exit EXIT_FAILURE]) :=
  ⟨⟨by decide, (setup_failure_is_fatal Program.helloWindow Example.noWindow 3).1 (by decide)⟩,
   ⟨by decide, by decide,
    (setup_failure_is_fatal Program.helloTriangle Example.noLoader 3).2 (by decide) (by decide)⟩⟩

/-- C2: in both programs, a run that terminates has exit code `EXIT_FAILURE` (1)
exactly when window creation returned `NULL` or the loader returned 0, and exit
code 0 exactly when both setup steps succeeded and a check of the close flag read
it as set; there is no other exit code, `exit` is reached only on a setup failure
and `main` returns only from the loop.  Runs do terminate: a setup failure ends
the run whatever the fuel, and after successful setup a check that reads the flag
as set ends it as soon as the fuel reaches that check, while a run whose checks
all read the flag as not set is still running.  The exit code depends on no other
library answer (not on `glfwInit`, not on compile or link statuses). -/
theorem exit_code_contract (p : Program) (env : Env) :
    (∀ fuel code, (p.run env fuel).exitCode = some code →
      (code = 1 ↔ (env.glfwCreateWindow = NULL ∨ env.gladLoadGLLoader = 0)) ∧
      (code = EXIT_FAILURE ↔ (env.glfwCreateWindow = NULL ∨ env.gladLoadGLLoader = 0)) ∧
      (code = 0 ↔ (env.glfwCreateWindow ≠ NULL ∧ env.gladLoadGLLoader ≠ 0 ∧
        ∃ n, n < fuel ∧ (∀ j, j < n → env.glfwWindowShouldClose j = 0) ∧
          env.glfwWindowShouldClose n ≠ 0)) ∧
      (code = 0 ∨ code = EXIT_FAILURE)) ∧
    (∀ fuel code w, p.run env fuel = Res.exited code w →
      code = EXIT_FAILURE ∧ (env.glfwCreateWindow = NULL ∨ env.gladLoadGLLoader = 0)) ∧
    (∀ fuel code w, p.run env fuel = Res.ok code w →
      code = 0 ∧ env.glfwCreateWindow ≠ NULL ∧ env.gladLoadGLLoader ≠ 0 ∧
        w.trace.getLast? = some (Call.glfwWindowShouldClose env.glfwCreateWindow)) ∧
    ((env.glfwCreateWindow = NULL ∨ env.gladLoadGLLoader = 0) →
      ∀ fuel, (p.run env fuel).exitCode = some EXIT_FAILURE) ∧
    (env.glfwCreateWindow ≠ NULL → env.gladLoadGLLoader ≠ 0 →
      ∀ n, env.glfwWindowShouldClose n ≠ 0 → ∀ fuel, n < fuel →
        (p.run env fuel).exitCode = some 0) ∧
    (env.glfwCreateWindow ≠ NULL → env.gladLoadGLLoader ≠ 0 →
      ∀ fuel, (∀ j, j < fuel → env.glfwWindowShouldClose j = 0) →
        (p.run env fuel).exitCode = none) ∧
    (∀ env2 : Env, env2.glfwCreateWindow = env.glfwCreateWindow →
      env2.gladLoadGLLoader = env.gladLoadGLLoader →
      env2.glfwWindowShouldClose = env.glfwWindowShouldClose →
      ∀ fuel, (p.run env2 fuel).exitCode = (p.run env fuel).exitCode) := by
  have hEF : EXIT_FAILURE = 1 := rfl
  refine ⟨?_, ?_, ?_, ?_, ?_, ?_, ?_⟩
  · intro fuel code hcode
    rcases run_cases p env fuel with ⟨hw, hrun⟩ | ⟨hw, hg, hrun⟩ | ⟨hw, hg, n, hn, h0, h1, w, hrun, -⟩ |
      ⟨hw, hg, hall, w, hrun, -⟩
    · rw [hrun] at hcode
      simp only [Res.exitCode, Option.some.injEq] at hcode
      subst hcode
      simp [hw, hEF]
    · rw [hrun] at hcode
      simp only [Res.exitCode, Option.some.injEq] at hcode
      subst hcode
      simp [hg, hEF]
    · rw [hrun] at hcode
      simp only [Res.exitCode, Option.some.injEq] at hcode
      subst hcode
      simp only [hEF, hw, hg, false_or, zero_ne_one, ne_eq, not_false_eq_true, true_and,
        true_or, and_true, iff_false, not_false_iff, true_iff]
      exact ⟨n, hn, h0, h1⟩
    · rw [hrun] at hcode
      simp [Res.exitCode] at hcode
  · intro fuel code w hrun0
    rcases run_cases p env fuel with ⟨hw, hrun⟩ | ⟨hw, hg, hrun⟩ | ⟨hw, hg, n, hn, h0, h1, w1, hrun, -⟩ |
      ⟨hw, hg, hall, w1, hrun, -⟩
    · rw [hrun] at hrun0
      simp only [Res.exited.injEq] at hrun0
      exact ⟨hrun0.1.symm, Or.inl hw⟩
    · rw [hrun] at hrun0
      simp only [Res.exited.injEq] at hrun0
      exact ⟨hrun0.1.symm, Or.inr hg⟩
    · rw [hrun] at hrun0; simp at hrun0
    · rw [hrun] at hrun0; simp at hrun0
  · intro fuel code w hrun0
    rcases run_cases p env fuel with ⟨hw, hrun⟩ | ⟨hw, hg, hrun⟩ | ⟨hw, hg, n, hn, h0, h1, w1, hrun, htr⟩ |
      ⟨hw, hg, hall, w1, hrun, -⟩
    · rw [hrun] at hrun0; simp at hrun0
    · rw [hrun] at hrun0; simp at hrun0
    · rw [hrun] at hrun0
      simp only [Res.ok.injEq] at hrun0
      obtain ⟨hc, hw1⟩ := hrun0
      subst hw1
      refine ⟨hc.symm, hw, hg, ?_⟩
      rw [htr, ← List.append_assoc, List.getLast?_append]
      simp
    · rw [hrun] at hrun0; simp at hrun0
  · intro hfail fuel
    rcases run_cases p env fuel with ⟨hw, hrun⟩ | ⟨hw, hg, hrun⟩ | ⟨hw, hg, -⟩ | ⟨hw, hg, -⟩
    · rw [hrun]; rfl
    · rw [hrun]; rfl
    · rcases hfail with h | h
      · exact absurd h hw
      · exact absurd h hg
    · rcases hfail with h | h
      · exact absurd h hw
      · exact absurd h hg
  · intro hw hg n hset fuel hf
    rcases first_set_or_none env.glfwWindowShouldClose (n + 1) with ⟨m, hm, h0, h1⟩ | hall
    · obtain ⟨w, hrun, -⟩ := run_closed p env hw hg m h0 h1 fuel (by omega)
      rw [hrun]; rfl
    · exact absurd (hall n (Nat.lt_succ_self n)) hset
  · intro hw hg fuel hall
    obtain ⟨w, hrun, -⟩ := run_running p env hw hg fuel hall
    rw [hrun]; rfl
  · intro env2 e1 e2 e3 fuel
    rcases run_cases p env fuel with ⟨hw, hrun⟩ | ⟨hw, hg, hrun⟩ | ⟨hw, hg, n, hn, h0, h1, w, hrun, -⟩ |
      ⟨hw, hg, hall, w, hrun, -⟩
    · rw [hrun, run_window_failure p env2 fuel (e1.trans hw)]
    · rw [hrun, run_loader_failure p env2 fuel (by rw [e1]; exact hw) (e2.trans hg)]; rfl
    · obtain ⟨w2, hrun2, -⟩ := run_closed p env2 (by rw [e1]; exact hw) (by rw [e2]; exact hg) n
        (by rw [e3]; exact h0) (by rw [e3]; exact h1) fuel hn
      rw [hrun, hrun2]; rfl
    · obtain ⟨w2, hrun2, -⟩ := run_running p env2 (by rw [e1]; exact hw) (by rw [e2]; exact hg)
        fuel (by rw [e3]; exact hall)
      rw [hrun, hrun2]; rfl

end LearnOpenGL

namespace LearnOpenGL

/-- Witness for C2: a terminating run of `hello-window` with exit code 0, and a
run of `hello-triangle` without a window. -/
theorem exit_code_contract_witness :
    ((Program.helloWindow.run Example.closeAfterTwoFrames 5).exitCode = some 0 ∧
      (((0 : Int) = EXIT_FAILURE ↔ (Example.closeAfterTwoFrames.glfwCreateWindow = NULL ∨
          Example.closeAfterTwoFrames.gladLoadGLLoader = 0)) ∧
        ((0 : Int) = 0 ↔ (Example.closeAfterTwoFrames.glfwCreateWindow ≠ NULL ∧
          Example.closeAfterTwoFrames.gladLoadGLLoader ≠ 0 ∧
          ∃ n, n < 5 ∧ (∀ j, j < n → Example.closeAfterTwoFrames.glfwWindowShouldClose j = 0) ∧
            Example.closeAfterTwoFrames.glfwWindowShouldClose n ≠ 0)))) ∧
    ((Example.noWindow.glfwCreateWindow = NULL ∨ Example.noWindow.gladLoadGLLoader = 0) ∧
      (Program.helloTriangle.run Example.noWindow 5).exitCode = some EXIT_FAILURE) :=
  ⟨⟨by decide,
    ((exit_code_contract Program.helloWindow Example.closeAfterTwoFrames).1 5 0 (by decide)).2.1,
    ((exit_code_contract Program.helloWindow Example.closeAfterTwoFrames).1 5 0 (by decide)).2.2.1⟩,
   ⟨Or.inl (by decide),
    (exit_code_contract Program.helloTriangle Example.noWindow).2.2.2.1 (Or.inl (by decide)) 5⟩⟩

/-- C3: in both programs, after successful setup and for every sequence of
answers of `glfwWindowShouldClose`: when check `n` is the first that reads the
flag as set, `main` returns 0 as soon as the fuel reaches that check; the trace
then has `n + 1` checks, each of the first `n` followed by one complete iteration
(one clear, one input poll, one event poll, one swap) and the last followed by
nothing, so that `n` frames are rendered (none when `n = 0`).  While every check
reads the flag as not set the run stays in the loop, one iteration per check. -/
theorem render_loop_ends_at_first_set_flag (p : Program) (env : Env)
    (hw : env.glfwCreateWindow ≠ NULL) (hg : env.gladLoadGLLoader ≠ 0) :
    (∀ n, (∀ j, j < n → env.glfwWindowShouldClose j = 0) → env.glfwWindowShouldClose n ≠ 0 →
      ∀ fuel, n < fuel →
        ∃ w, p.run env fuel = Res.ok 0 w ∧
          (frames w.trace).length = n + 1 ∧
          (∀ k, k < n → ∃ f, (frames w.trace)[k]? = some f ∧
            f.countP Call.isClear = 1 ∧ f.countP Call.isGetKey = 1 ∧
            f.countP Call.isPoll = 1 ∧ f.countP Call.isSwap = 1) ∧
          (frames w.trace)[n]? = some [] ∧
          w.trace.getLast? = some (Call.glfwWindowShouldClose env.glfwCreateWindow) ∧
          w.trace.countP Call.isCheck = n + 1 ∧
          w.trace.countP Call.isClear = n ∧
          w.trace.countP Call.isSwap = n ∧
          (n = 0 → w.trace.countP Call.isFrameStep = 0)) ∧
    (∀ fuel, (∀ j, j < fuel → env.glfwWindowShouldClose j = 0) →
      ∃ w, p.run env fuel = Res.running w ∧
        (frames w.trace).length = fuel ∧
        (∀ k, k < fuel → ∃ f, (frames w.trace)[k]? = some f ∧
          f.countP Call.isClear = 1 ∧ f.countP Call.isGetKey = 1 ∧
          f.countP Call.isPoll = 1 ∧ f.countP Call.isSwap = 1) ∧
        w.trace.countP Call.isCheck = fuel ∧
        w.trace.countP Call.isSwap = fuel) := by
  constructor
  · intro n h0 h1 fuel hf
    obtain ⟨w, hrun, htr⟩ := run_closed p env hw hg n h0 h1 fuel hf
    refine ⟨w, hrun, ?_, ?_, ?_, ?_, ?_, ?_, ?_, ?_⟩
    · rw [htr, frames_closed, List.length_append, framesFrom_length]; rfl
    · intro k hk
      refine ⟨p.frameCalls env (0 + k), ?_, (countP_frameCalls p env _).1,
        (countP_frameCalls p env _).2.2.1, (countP_frameCalls p env _).2.2.2.1,
        (countP_frameCalls p env _).2.2.2.2⟩
      rw [htr, frames_closed, List.getElem?_append_left (by rw [framesFrom_length]; exact hk),
        framesFrom_getElem? _ n 0 k hk]
    · rw [htr, frames_closed, List.getElem?_append_right (by rw [framesFrom_length]),
        framesFrom_length]
      simp
    · rw [htr, ← List.append_assoc, List.getLast?_append]
      simp
    · rw [htr, countP_isCheck_run_trace]; rfl
    · have := countP_run_trace p env Call.isClear 1 n
        [Call.glfwWindowShouldClose env.glfwCreateWindow] rfl
        (fun x hx => by simp [Call.isLoopCall, hx]) rfl (fun k => (countP_frameCalls p env k).1)
      rw [htr, this]; simp
    · have := countP_run_trace p env Call.isSwap 1 n
        [Call.glfwWindowShouldClose env.glfwCreateWindow] rfl
        (fun x hx => by simp [Call.isLoopCall, hx]) rfl
        (fun k => (countP_frameCalls p env k).2.2.2.2)
      rw [htr, this]; simp
    · intro hn
      subst hn
      rw [htr]
      simp only [loopCalls, List.nil_append, List.countP_append]
      rw [countP_zero_of_imp Call.isFrameStep Call.isLoopCall _ ?_ (countP_setupCalls_loop p env)]
      · rfl
      · intro c hc
        simp only [Call.isFrameStep, Bool.or_eq_true] at hc
        simp only [Call.isLoopCall, Bool.or_eq_true]
        tauto
  · intro fuel hall
    obtain ⟨w, hrun, htr⟩ := run_running p env hw hg fuel hall
    refine ⟨w, hrun, ?_, ?_, ?_, ?_⟩
    · rw [htr, frames_running, framesFrom_length]
    · intro k hk
      refine ⟨p.frameCalls env (0 + k), ?_, (countP_frameCalls p env _).1,
        (countP_frameCalls p env _).2.2.1, (countP_frameCalls p env _).2.2.2.1,
        (countP_frameCalls p env _).2.2.2.2⟩
      rw [htr, frames_running, framesFrom_getElem? _ fuel 0 k hk]
    · have := countP_isCheck_run_trace p env fuel []
      rw [List.append_nil] at this
      rw [htr, this]; rfl
    · have := countP_run_trace p env Call.isSwap 1 fuel [] rfl
        (fun x hx => by simp [Call.isLoopCall, hx]) rfl
        (fun k => (countP_frameCalls p env k).2.2.2.2)
      rw [List.append_nil] at this
      rw [htr, this]; simp

end LearnOpenGL

namespace LearnOpenGL

/-- Witness for C3: `hello-triangle` against a library that reads the flag as
set at the third check. -/
theorem render_loop_ends_at_first_set_flag_witness :
    Example.closeAfterTwoFrames.glfwCreateWindow ≠ NULL ∧
    Example.closeAfterTwoFrames.gladLoadGLLoader ≠ 0 ∧
    (∀ j, j < 2 → Example.closeAfterTwoFrames.glfwWindowShouldClose j = 0) ∧
    Example.closeAfterTwoFrames.glfwWindowShouldClose 2 ≠ 0 ∧
    ∃ w, Program.helloTriangle.run Example.closeAfterTwoFrames 5 = Res.ok 0 w ∧
      (frames w.trace).length = 2 + 1 ∧
      (frames w.trace)[2]? = some [] ∧
      w.trace.countP Call.isSwap = 2 :=
  ⟨by decide, by decide, by decide, by decide,
    match (render_loop_ends_at_first_set_flag Program.helloTriangle Example.closeAfterTwoFrames
      (by decide) (by decide)).1 2 (by decide) (by decide) 5 (by decide) with
    | ⟨w, hrun, hlen, _, hlast, _, _, _, hswap, _⟩ => ⟨w, hrun, hlen, hlast, hswap⟩⟩

/-- C4: in every iteration of the render loop, `hello-window` issues
`glClearColor(0.2, 0.3, 0.3, 1.0)` and then one `glClear(GL_COLOR_BUFFER_BIT)`, no
other clear and no draw; `hello-triangle` issues the same clear and then two
`glDrawArrays(GL_TRIANGLES, 0, 3)`, no other clear or draw, and the swap comes
last.  Over a whole run with `n` completed iterations (`n` swaps) there are
`n` clears and, in `hello-triangle`, `2 * n` draws. -/
theorem frame_clear_and_draw_counts (env : Env) (fuel : Nat) :
    (∀ k f, (frames (Program.helloWindow.run env fuel).world.trace)[k]? = some f →
      env.glfwWindowShouldClose k = 0 →
      ∃ rest,
        f = Call.glClearColor ⟨2, 1⟩ ⟨3, 1⟩ ⟨3, 1⟩ ⟨10, 1⟩ ::
            Call.glClear GL_COLOR_BUFFER_BIT :: rest ∧
        rest.countP Call.isClear = 0 ∧ rest.countP Call.isDraw = 0 ∧
        rest.countP Call.isSwap = 1 ∧
        rest.getLast? = some (Call.glfwSwapBuffers env.glfwCreateWindow) ∧
        f.countP Call.isClear = 1 ∧ f.countP Call.isDraw = 0) ∧
    (∀ k f, (frames (Program.helloTriangle.run env fuel).world.trace)[k]? = some f →
      env.glfwWindowShouldClose k = 0 →
      ∃ o v1 y v2 rest,
        f = Call.glClearColor ⟨2, 1⟩ ⟨3, 1⟩ ⟨3, 1⟩ ⟨10, 1⟩ ::
            Call.glClear GL_COLOR_BUFFER_BIT ::
            Call.glUseProgram o :: Call.glBindVertexArray v1 ::
            Call.glDrawArrays GL_TRIANGLES 0 3 ::
            Call.glUseProgram y :: Call.glBindVertexArray v2 ::
            Call.glDrawArrays GL_TRIANGLES 0 3 :: rest ∧
        rest.countP Call.isClear = 0 ∧ rest.countP Call.isDraw = 0 ∧
        rest.countP Call.isSwap = 1 ∧
        rest.getLast? = some (Call.glfwSwapBuffers env.glfwCreateWindow) ∧
        f.countP Call.isClear = 1 ∧ f.countP Call.isDraw = 2) ∧
    ((Program.helloWindow.run env fuel).world.trace.countP Call.isClear =
        (Program.helloWindow.run env fuel).world.trace.countP Call.isSwap ∧
      (Program.helloWindow.run env fuel).world.trace.countP Call.isDraw = 0) ∧
    ((Program.helloTriangle.run env fuel).world.trace.countP Call.isClear =
        (Program.helloTriangle.run env fuel).world.trace.countP Call.isSwap ∧
      (Program.helloTriangle.run env fuel).world.trace.countP Call.isDraw =
        2 * (Program.helloTriangle.run env fuel).world.trace.countP Call.isSwap) := by
  refine ⟨?_, ?_, ?_, ?_⟩
  · intro k f hf h0
    have hfk := frame_of_run Program.helloWindow env fuel k f hf h0
    have hc := countP_frameCalls Program.helloWindow env k
    refine ⟨frameTail env env.glfwCreateWindow k, hfk, ?_, ?_, ?_, frameTail_getLast env env.glfwCreateWindow k, ?_, ?_⟩
    · rw [countP_frameTail _ _ _ _ (fun _ _ _ _ => rfl) rfl]; rfl
    · rw [countP_frameTail _ _ _ _ (fun _ _ _ _ => rfl) rfl]; rfl
    · rw [countP_frameTail _ _ _ _ (fun _ _ _ _ => rfl) rfl]; rfl
    · rw [hfk]; exact hc.1
    · rw [hfk]; exact hc.2.1
  · intro k f hf h0
    have hfk := frame_of_run Program.helloTriangle env fuel k f hf h0
    have hc := countP_frameCalls Program.helloTriangle env k
    refine ⟨env.glCreateProgram 0, env.glGenVertexArrays 0, env.glCreateProgram 1,
      env.glGenVertexArrays 1, frameTail env env.glfwCreateWindow k, hfk, ?_, ?_, ?_,
      frameTail_getLast env env.glfwCreateWindow k, ?_, ?_⟩
    · rw [countP_frameTail _ _ _ _ (fun _ _ _ _ => rfl) rfl]; rfl
    · rw [countP_frameTail _ _ _ _ (fun _ _ _ _ => rfl) rfl]; rfl
    · rw [countP_frameTail _ _ _ _ (fun _ _ _ _ => rfl) rfl]; rfl
    · rw [hfk]; exact hc.1
    · rw [hfk]; exact hc.2.1
  · obtain ⟨n, hs, hc, -, -, hd⟩ := counts_of_run Program.helloWindow env fuel
    exact ⟨by rw [hs, hc], by simpa using hd⟩
  · obtain ⟨n, hs, hc, -, -, hd⟩ := counts_of_run Program.helloTriangle env fuel
    exact ⟨by rw [hs, hc], by rw [hd, hs]; ring⟩

end LearnOpenGL

namespace LearnOpenGL

/-- Witness for C4: the second iteration of `hello-window` and the first of
`hello-triangle` against a library that reads the flag as set at the third check. -/
theorem frame_clear_and_draw_counts_witness :
    ((frames (Program.helloWindow.run Example.closeAfterTwoFrames 5).world.trace)[1]? =
        some [Call.glClearColor ⟨2, 1⟩ ⟨3, 1⟩ ⟨3, 1⟩ ⟨10, 1⟩, Call.glClear GL_COLOR_BUFFER_BIT,
          Call.glfwGetKey 7 GLFW_KEY_ESCAPE, Call.glfwSetWindowShouldClose 7 1,
          Call.glfwPollEvents, Call.glfwSwapBuffers 7] ∧
      Example.closeAfterTwoFrames.glfwWindowShouldClose 1 = 0 ∧
      ∃ rest,
        [Call.glClearColor ⟨2, 1⟩ ⟨3, 1⟩ ⟨3, 1⟩ ⟨10, 1⟩, Call.glClear GL_COLOR_BUFFER_BIT,
          Call.glfwGetKey 7 GLFW_KEY_ESCAPE, Call.glfwSetWindowShouldClose 7 1,
          Call.glfwPollEvents, Call.glfwSwapBuffers 7] =
          Call.glClearColor ⟨2, 1⟩ ⟨3, 1⟩ ⟨3, 1⟩ ⟨10, 1⟩ ::
            Call.glClear GL_COLOR_BUFFER_BIT :: rest ∧
        rest.countP Call.isClear = 0 ∧ rest.countP Call.isDraw = 0 ∧
        rest.countP Call.isSwap = 1) ∧
    ((frames (Program.helloTriangle.run Example.closeAfterTwoFrames 5).world.trace)[0]? =
        some [Call.glClearColor ⟨2, 1⟩ ⟨3, 1⟩ ⟨3, 1⟩ ⟨10, 1⟩, Call.glClear GL_COLOR_BUFFER_BIT,
          Call.glUseProgram 4, Call.glBindVertexArray 1, Call.glDrawArrays GL_TRIANGLES 0 3,
          Call.glUseProgram 5, Call.glBindVertexArray 2, Call.glDrawArrays GL_TRIANGLES 0 3,
          Call.glfwGetKey 7 GLFW_KEY_ESCAPE, Call.glfwPollEvents, Call.glViewport 0 0 1024 768,
          Call.glfwSwapBuffers 7] ∧
      Example.closeAfterTwoFrames.glfwWindowShouldClose 0 = 0 ∧
      [Call.glClearColor ⟨2, 1⟩ ⟨3, 1⟩ ⟨3, 1⟩ ⟨10, 1⟩, Call.glClear GL_COLOR_BUFFER_BIT,
          Call.glUseProgram 4, Call.glBindVertexArray 1, Call.glDrawArrays GL_TRIANGLES 0 3,
          Call.glUseProgram 5, Call.glBindVertexArray 2, Call.glDrawArrays GL_TRIANGLES 0 3,
          Call.glfwGetKey 7 GLFW_KEY_ESCAPE, Call.glfwPollEvents, Call.glViewport 0 0 1024 768,
          Call.glfwSwapBuffers 7].countP Call.isDraw = 2) :=
  ⟨⟨by decide, by decide,
    match (frame_clear_and_draw_counts Example.closeAfterTwoFrames 5).1 1 _ (by decide)
      (by decide) with
    | ⟨rest, h1, h2, h3, h4, _⟩ => ⟨rest, h1, h2, h3, h4⟩⟩,
   ⟨by decide!, by decide,
    match (frame_clear_and_draw_counts Example.closeAfterTwoFrames 5).2.1 0 _ (by decide!)
      (by decide) with
    | ⟨_, _, _, _, _, _, _, _, _, _, _, h⟩ => h⟩⟩

end LearnOpenGL

namespace LearnOpenGL

/-- C5: in `hello-triangle`, for every compile status and every link status the
library reports, `createCompiledVertexShaderObject`,
`createCompiledFragmentVertexObject` and `createShadingProgram` return the handle
that `glCreateShader` / `glCreateProgram` returned, and they query the info log
and write the diagnostic exactly when the queried status is 0.  Of a whole run,
the exit code and the trace without the diagnostics do not depend on the statuses
and logs; after successful setup the run never exits, compiles three shaders,
links two programs, uploads two vertex buffers, enters the loop, and every
iteration uses both program handles. -/
theorem shader_failures_are_not_fatal (env : Env) :
    (∀ (source : String) (w : World), ∃ w1,
      HelloTriangle.createCompiledVertexShaderObject source env w =
        Res.ok (env.glCreateShader w.nCreateShader) w1 ∧
      w1.trace = w.trace ++
        ([Call.glCreateShader GL_VERTEX_SHADER,
          Call.glShaderSource (env.glCreateShader w.nCreateShader) 1 source,
          Call.glCompileShader (env.glCreateShader w.nCreateShader),
          Call.glGetShaderiv (env.glCreateShader w.nCreateShader) GL_COMPILE_STATUS] ++
         (if env.glGetShaderiv w.nGetShaderiv = 0 then
            [Call.glGetShaderInfoLog (env.glCreateShader w.nCreateShader) 512,
             Call.cerr ("ERROR::SHADER::VERTEX::COMPILATION_FAILED\n" ++
               env.glGetShaderInfoLog w.nGetShaderInfoLog)]
          else []))) ∧
    (∀ (source : String) (w : World), ∃ w1,
      HelloTriangle.createCompiledFragmentVertexObject source env w =
        Res.ok (env.glCreateShader w.nCreateShader) w1 ∧
      w1.trace = w.trace ++
        ([Call.glCreateShader GL_FRAGMENT_SHADER,
          Call.glShaderSource (env.glCreateShader w.nCreateShader) 1 source,
          Call.glCompileShader (env.glCreateShader w.nCreateShader),
          Call.glGetShaderiv (env.glCreateShader w.nCreateShader) GL_COMPILE_STATUS] ++
         (if env.glGetShaderiv w.nGetShaderiv = 0 then
            [Call.glGetShaderInfoLog (env.glCreateShader w.nCreateShader) 512,
             Call.cerr ("ERROR::SHADER::VERTEX::COMPILATION_FAILED\n" ++
               env.glGetShaderInfoLog w.nGetShaderInfoLog)]
          else []))) ∧
    (∀ (vertexShader fragmentShader : Nat) (w : World), ∃ w1,
      HelloTriangle.createShadingProgram vertexShader fragmentShader env w =
        Res.ok (env.glCreateProgram w.nCreateProgram) w1 ∧
      w1.trace = w.trace ++
        ([Call.glCreateProgram,
          Call.glAttachShader (env.glCreateProgram w.nCreateProgram) vertexShader,
          Call.glAttachShader (env.glCreateProgram w.nCreateProgram) fragmentShader,
          Call.glLinkProgram (env.glCreateProgram w.nCreateProgram),
          Call.glGetProgramiv (env.glCreateProgram w.nCreateProgram) GL_LINK_STATUS] ++
         (if env.glGetProgramiv w.nGetProgramiv = 0 then
            [Call.glGetProgramInfoLog (env.glCreateProgram w.nCreateProgram) 512,
             Call.cout ("ERROR::SHADER::VERTEX::COMPILATION_FAILED\n" ++
               env.glGetProgramInfoLog w.nGetProgramInfoLog)]
          else []))) ∧
    (∀ (compileStatus linkStatus : Nat → Int) (shaderLog programLog : Nat → String) (fuel : Nat),
      (HelloTriangle.run (env.withStatuses compileStatus linkStatus shaderLog programLog)
          fuel).world.trace.filter (fun c => !c.isDiagnostic) =
        (HelloTriangle.run env fuel).world.trace.filter (fun c => !c.isDiagnostic) ∧
      (HelloTriangle.run (env.withStatuses compileStatus linkStatus shaderLog programLog)
          fuel).exitCode = (HelloTriangle.run env fuel).exitCode) ∧
    (env.glfwCreateWindow ≠ NULL → env.gladLoadGLLoader ≠ 0 → ∀ fuel,
      (∀ code w, HelloTriangle.run env fuel ≠ Res.exited code w) ∧
      (HelloTriangle.run env fuel).world.trace.countP Call.isCompile = 3 ∧
      (HelloTriangle.run env fuel).world.trace.countP Call.isLink = 2 ∧
      (HelloTriangle.run env fuel).world.trace.countP Call.isBufferData = 2 ∧
      (0 < fuel → 0 < (HelloTriangle.run env fuel).world.trace.countP Call.isCheck) ∧
      (∀ k f, (frames (HelloTriangle.run env fuel).world.trace)[k]? = some f →
        env.glfwWindowShouldClose k = 0 →
        Call.glUseProgram (env.glCreateProgram 0) ∈ f ∧
        Call.glUseProgram (env.glCreateProgram 1) ∈ f)) := by
  refine ⟨?_, ?_, ?_, ?_, ?_⟩
  · intro source w
    rw [triangle_vertexShader_run]
    exact ⟨_, rfl, by simp [HelloTriangle.compileCalls, HelloTriangle.checkShaderCalls]⟩
  · intro source w
    rw [triangle_fragmentShader_run]
    exact ⟨_, rfl, by simp [HelloTriangle.compileCalls, HelloTriangle.checkShaderCalls]⟩
  · intro vs fs w
    rw [triangle_program_run]
    exact ⟨_, rfl, by simp [HelloTriangle.linkCalls, HelloTriangle.checkLinkCalls]⟩
  · intro s l a b fuel
    exact filter_trace_status_free env s l a b fuel
  · intro hw hg fuel
    have hkind : ∀ q : Call → Bool,
        (∀ c, q c = true → c.isFrameCall = false ∧ c.isCheck = false) →
        (HelloTriangle.run env fuel).world.trace.countP q =
          (HelloTriangle.setupCalls env).countP q :=
      fun q hq => countP_run_setup_kind Program.helloTriangle env fuel q hq hw hg
    obtain ⟨n, tail, htail, htr, hne, hpos⟩ := run_trace_shape Program.helloTriangle env fuel hw hg
    have hcounts := triangle_setup_counts env
    refine ⟨hne, ?_, ?_, ?_, ?_, ?_⟩
    · rw [hkind _ isCompile_not_loop]
      exact hcounts.2.2.2.2.1
    · rw [hkind _ isLink_not_loop]
      exact hcounts.2.2.2.2.2.2.1
    · rw [hkind _ isBufferData_not_loop]
      exact hcounts.2.2.2.2.2.2.2.1
    · intro hf
      have hp := hpos hf
      have hcnt := countP_isCheck_run_trace Program.helloTriangle env n tail
      have : (HelloTriangle.run env fuel).world.trace.countP Call.isCheck =
          n + tail.countP Call.isCheck := by
        rw [← hcnt]; exact congrArg _ htr
      rw [this]
      rcases htail with h | h
      · subst h; simpa using hp
      · subst h; simp [Call.isCheck]
    · intro k f hf h0
      have hfk := frame_of_run Program.helloTriangle env fuel k f hf h0
      subst hfk
      simp [Program.frameCalls, HelloTriangle.frameCalls, HelloTriangle.drawCalls]

end LearnOpenGL

namespace LearnOpenGL

/-- Witness for C5: a library that reports every compilation and every link as failed. -/
theorem shader_failures_are_not_fatal_witness :
    Example.badShaders.glfwCreateWindow ≠ NULL ∧ Example.badShaders.gladLoadGLLoader ≠ 0 ∧
    Example.badShaders.glGetShaderiv 0 = 0 ∧ Example.badShaders.glGetProgramiv 0 = 0 ∧
    (∀ code w, HelloTriangle.run Example.badShaders 3 ≠ Res.exited code w) ∧
    (HelloTriangle.run Example.badShaders 3).world.trace.countP Call.isCompile = 3 ∧
    (HelloTriangle.run Example.badShaders 3).world.trace.countP Call.isLink = 2 ∧
    (HelloTriangle.run Example.badShaders 3).world.trace.countP Call.isBufferData = 2 ∧
    ((0 : Nat) < 3 → 0 < (HelloTriangle.run Example.badShaders 3).world.trace.countP Call.isCheck) :=
  ⟨by decide, by decide, by decide, by decide,
    ((shader_failures_are_not_fatal Example.badShaders).2.2.2.2 (by decide) (by decide) 3).1,
    ((shader_failures_are_not_fatal Example.badShaders).2.2.2.2 (by decide) (by decide) 3).2.1,
    ((shader_failures_are_not_fatal Example.badShaders).2.2.2.2 (by decide) (by decide) 3).2.2.1,
    ((shader_failures_are_not_fatal Example.badShaders).2.2.2.2 (by decide) (by decide) 3).2.2.2.1,
    ((shader_failures_are_not_fatal Example.badShaders).2.2.2.2 (by decide) (by decide)
      3).2.2.2.2.1⟩

/-- C6 as stated fails: `hello-triangle` does issue calls that delete handles it
created.  Against a library that returns the shader names 1, 2, 3 the run passes
each of them to `glDeleteShader`. -/
theorem handles_never_deleted_counterexample :
    Example.closeAfterTwoFrames.glCreateShader 0 = 1 ∧
    Call.glDeleteShader 1 ∈ (HelloTriangle.run Example.closeAfterTwoFrames 5).world.trace ∧
    (HelloTriangle.run Example.closeAfterTwoFrames 5).world.trace.filter Call.isDelete =
      [Call.glDeleteShader 1, Call.glDeleteShader 2, Call.glDeleteShader 3] := by
  decide!

/-- C6 (amended): in `hello-triangle`, after successful setup, the startup (the
part of the run before the first check of the close flag) issues exactly nine
creation calls, for three shaders, two programs, two buffers and two vertex
arrays, and exactly three deletion calls, `glDeleteShader` for each of the three
shaders, which come after the attach and link calls of both programs: no shader is
attached and no program linked after a `glDeleteShader` call.  The render loop
issues neither a creation nor a deletion call.  In every run, the only calls that
delete an object are these three `glDeleteShader` calls: no buffer, vertex array
or program is ever deleted. -/
theorem handles_created_at_startup_only_shaders_deleted (env : Env) (fuel : Nat) :
    (env.glfwCreateWindow ≠ NULL → env.gladLoadGLLoader ≠ 0 →
      (startup (HelloTriangle.run env fuel).world.trace).filter Call.isCreate =
        [Call.glCreateShader GL_VERTEX_SHADER, Call.glCreateShader GL_FRAGMENT_SHADER,
         Call.glCreateShader GL_FRAGMENT_SHADER, Call.glCreateProgram, Call.glCreateProgram,
         Call.glGenBuffers 1, Call.glGenVertexArrays 1, Call.glGenBuffers 1,
         Call.glGenVertexArrays 1] ∧
      (renderPart (HelloTriangle.run env fuel).world.trace).countP Call.isCreate = 0 ∧
      (startup (HelloTriangle.run env fuel).world.trace).filter Call.isDelete =
        [Call.glDeleteShader (env.glCreateShader 0), Call.glDeleteShader (env.glCreateShader 1),
         Call.glDeleteShader (env.glCreateShader 2)] ∧
      (renderPart (HelloTriangle.run env fuel).world.trace).countP Call.isDelete = 0 ∧
      (startup (HelloTriangle.run env fuel).world.trace).filter
          (fun c => c.isAttachOrLink || c.isDelete) =
        [Call.glAttachShader (env.glCreateProgram 0) (env.glCreateShader 0),
         Call.glAttachShader (env.glCreateProgram 0) (env.glCreateShader 1),
         Call.glLinkProgram (env.glCreateProgram 0),
         Call.glAttachShader (env.glCreateProgram 1) (env.glCreateShader 0),
         Call.glAttachShader (env.glCreateProgram 1) (env.glCreateShader 2),
         Call.glLinkProgram (env.glCreateProgram 1),
         Call.glDeleteShader (env.glCreateShader 0),
         Call.glDeleteShader (env.glCreateShader 1),
         Call.glDeleteShader (env.glCreateShader 2)] ∧
      deletedAfterLinking (HelloTriangle.run env fuel).world.trace = true) ∧
    (∀ c, c ∈ (HelloTriangle.run env fuel).world.trace → c.isDelete = true →
      c = Call.glDeleteShader (env.glCreateShader 0) ∨
      c = Call.glDeleteShader (env.glCreateShader 1) ∨
      c = Call.glDeleteShader (env.glCreateShader 2)) := by
  have hstart : env.glfwCreateWindow ≠ NULL → env.gladLoadGLLoader ≠ 0 →
      startup (HelloTriangle.run env fuel).world.trace = HelloTriangle.setupCalls env :=
    fun hw hg => (startup_of_run Program.helloTriangle env fuel hw hg).1
  have hdel : env.glfwCreateWindow ≠ NULL → env.gladLoadGLLoader ≠ 0 →
      (startup (HelloTriangle.run env fuel).world.trace).filter Call.isDelete =
        [Call.glDeleteShader (env.glCreateShader 0), Call.glDeleteShader (env.glCreateShader 1),
         Call.glDeleteShader (env.glCreateShader 2)] ∧
      (renderPart (HelloTriangle.run env fuel).world.trace).countP Call.isDelete = 0 := by
    intro hw hg
    constructor
    · rw [hstart hw hg]; exact filter_isDelete_triangle_setup env
    · exact countP_renderPart_zero Program.helloTriangle env fuel _ isDelete_not_loop hw hg
  refine ⟨?_, ?_⟩
  · intro hw hg
    refine ⟨?_, ?_, (hdel hw hg).1, (hdel hw hg).2, ?_, ?_⟩
    · rw [hstart hw hg]; exact filter_isCreate_triangle_setup env
    · exact countP_renderPart_zero Program.helloTriangle env fuel _ isCreate_not_loop hw hg
    · rw [hstart hw hg]; exact filter_build_delete_triangle_setup env
    · exact deletedAfterLinking_triangle_run env fuel hw hg
  intro c hc hdelc
  by_cases hw : env.glfwCreateWindow = NULL
  · have hrun := triangle_main_window_failure env fuel hw
    rw [hrun] at hc
    simp only [Res.world, windowFailureCalls, List.mem_cons, List.mem_singleton] at hc
    rcases hc with h | h | h | h | h | h | h | h | h <;> first
      | (subst h; simp [Call.isDelete] at hdelc)
      | simp at h
  · by_cases hg : env.gladLoadGLLoader = 0
    · have hrun := triangle_main_loader_failure env fuel hw hg
      rw [hrun] at hc
      simp only [Res.world, loaderFailureCalls, List.mem_cons, List.mem_singleton] at hc
      rcases hc with h | h | h | h | h | h | h | h | h | h | h <;> first
        | (subst h; simp [Call.isDelete] at hdelc)
        | simp at h
    · obtain ⟨h3, h4⟩ := hdel hw hg
      have hsplit : startup (HelloTriangle.run env fuel).world.trace ++
          renderPart (HelloTriangle.run env fuel).world.trace =
          (HelloTriangle.run env fuel).world.trace := List.takeWhile_append_dropWhile _ _
      rw [← hsplit, List.mem_append] at hc
      rcases hc with hc | hc
      · have hmem : c ∈ (startup (HelloTriangle.run env fuel).world.trace).filter Call.isDelete :=
          List.mem_filter.mpr ⟨hc, hdelc⟩
        rw [h3] at hmem
        simpa using hmem
      · rw [List.countP_eq_zero] at h4
        exact absurd hdelc (h4 c hc)

/-- Witness for C6 (amended): `hello-triangle` against a library that reads the
flag as set at the third check; the order of the build and delete calls of its
startup is also computed directly. -/
theorem handles_created_at_startup_only_shaders_deleted_witness :
    Example.closeAfterTwoFrames.glfwCreateWindow ≠ NULL ∧
    Example.closeAfterTwoFrames.gladLoadGLLoader ≠ 0 ∧
    (startup (HelloTriangle.run Example.closeAfterTwoFrames 5).world.trace).filter Call.isDelete =
      [Call.glDeleteShader (Example.closeAfterTwoFrames.glCreateShader 0),
       Call.glDeleteShader (Example.closeAfterTwoFrames.glCreateShader 1),
       Call.glDeleteShader (Example.closeAfterTwoFrames.glCreateShader 2)] ∧
    (renderPart (HelloTriangle.run Example.closeAfterTwoFrames 5).world.trace).countP
      Call.isDelete = 0 ∧
    deletedAfterLinking (HelloTriangle.run Example.closeAfterTwoFrames 5).world.trace = true ∧
    (startup (HelloTriangle.run Example.closeAfterTwoFrames 5).world.trace).filter
        (fun c => c.isAttachOrLink || c.isDelete) =
      [Call.glAttachShader 4 1, Call.glAttachShader 4 2, Call.glLinkProgram 4,
       Call.glAttachShader 5 1, Call.glAttachShader 5 3, Call.glLinkProgram 5,
       Call.glDeleteShader 1, Call.glDeleteShader 2, Call.glDeleteShader 3] :=
  ⟨by decide, by decide,
    ((handles_created_at_startup_only_shaders_deleted Example.closeAfterTwoFrames 5).1
      (by decide) (by decide)).2.2.1,
    ((handles_created_at_startup_only_shaders_deleted Example.closeAfterTwoFrames 5).1
      (by decide) (by decide)).2.2.2.1,
    ((handles_created_at_startup_only_shaders_deleted Example.closeAfterTwoFrames 5).1
      (by decide) (by decide)).2.2.2.2.2,
    by decide!⟩

end LearnOpenGL

namespace LearnOpenGL

/-- C7: in both programs `processInput` calls `glfwGetKey(window, GLFW_KEY_ESCAPE)`
once and then, exactly when the answer is `GLFW_PRESS`, calls
`glfwSetWindowShouldClose(window, true)`; it makes no other call.  Every iteration
of the render loop contains this once, after the clear and all draws and before
the event poll and the swap.  No run ever sets the close flag to a value other
than true.  If, after successful setup, Escape is reported as pressed in
iteration `k` and the check that follows reads the flag the program has set,
then the run ends after that iteration: `main` returns 0 with `k + 1`
iterations done. -/
theorem processInput_once_per_frame (p : Program) (env : Env) :
    (∀ (window : Nat) (w : World), ∃ w1,
      HelloWindow.processInput window env w = Res.ok () w1 ∧
      w1.trace = w.trace ++ (Call.glfwGetKey window GLFW_KEY_ESCAPE ::
        (if env.glfwGetKey w.nGetKey = GLFW_PRESS then
          [Call.glfwSetWindowShouldClose window 1] else []))) ∧
    (∀ (window : Nat) (w : World), ∃ w1,
      HelloTriangle.processInput window env w = Res.ok () w1 ∧
      w1.trace = w.trace ++ (Call.glfwGetKey window GLFW_KEY_ESCAPE ::
        (if env.glfwGetKey w.nGetKey = GLFW_PRESS then
          [Call.glfwSetWindowShouldClose window 1] else []))) ∧
    (∀ fuel k f, (frames (p.run env fuel).world.trace)[k]? = some f →
      env.glfwWindowShouldClose k = 0 →
      ∃ pre post,
        f = pre ++ (Call.glfwGetKey env.glfwCreateWindow GLFW_KEY_ESCAPE ::
          (if env.glfwGetKey k = GLFW_PRESS then
            [Call.glfwSetWindowShouldClose env.glfwCreateWindow 1] else [])) ++ post ∧
        pre.countP Call.isClear = 1 ∧ pre.countP Call.isDraw = f.countP Call.isDraw ∧
        pre.countP Call.isGetKey = 0 ∧ pre.countP Call.isSetClose = 0 ∧
        pre.countP Call.isPoll = 0 ∧ pre.countP Call.isSwap = 0 ∧
        post.countP Call.isClear = 0 ∧ post.countP Call.isDraw = 0 ∧
        post.countP Call.isGetKey = 0 ∧ post.countP Call.isSetClose = 0 ∧
        post.countP Call.isPoll = 1 ∧ post.countP Call.isSwap = 1) ∧
    (∀ fuel c, c ∈ (p.run env fuel).world.trace → c.isSetClose = true →
      c = Call.glfwSetWindowShouldClose env.glfwCreateWindow 1) ∧
    (env.glfwCreateWindow ≠ NULL → env.gladLoadGLLoader ≠ 0 →
      ∀ k, (∀ j, j ≤ k → env.glfwWindowShouldClose j = 0) → env.glfwGetKey k = GLFW_PRESS →
        (Call.glfwSetWindowShouldClose env.glfwCreateWindow 1 ∈ (p.run env (k + 1)).world.trace →
          env.glfwWindowShouldClose (k + 1) ≠ 0) →
        ∀ fuel, k + 1 < fuel →
          ∃ w, p.run env fuel = Res.ok 0 w ∧ w.trace.countP Call.isSwap = k + 1 ∧
            w.trace.countP Call.isGetKey = k + 1 ∧
            w.trace.getLast? = some (Call.glfwWindowShouldClose env.glfwCreateWindow)) := by
  refine ⟨?_, ?_, ?_, ?_, ?_⟩
  · intro window w
    rw [window_processInput_run]
    exact ⟨_, rfl, rfl⟩
  · intro window w
    rw [triangle_processInput_run]
    exact ⟨_, rfl, rfl⟩
  · intro fuel k f hf h0
    have hfk := frame_of_run p env fuel k f hf h0
    have hpost := fun q hv => countP_eventCalls q env env.glfwCreateWindow k hv
    cases p with
    | helloWindow =>
      refine ⟨[Call.glClearColor ⟨2, 1⟩ ⟨3, 1⟩ ⟨3, 1⟩ ⟨10, 1⟩, Call.glClear GL_COLOR_BUFFER_BIT],
        Call.glfwPollEvents :: (resizeCalls (env.framebufferResizes k) ++
          [Call.glfwSwapBuffers env.glfwCreateWindow]), ?_, rfl, ?_, rfl, rfl, rfl, rfl, ?_, ?_,
        ?_, ?_, ?_, ?_⟩
      · rw [hfk]
        simp [Program.frameCalls, HelloWindow.frameCalls, frameTail, inputCalls]
      · rw [hfk, (countP_frameCalls Program.helloWindow env k).2.1]; rfl
      · rw [hpost _ (fun _ _ _ _ => rfl)]; rfl
      · rw [hpost _ (fun _ _ _ _ => rfl)]; rfl
      · rw [hpost _ (fun _ _ _ _ => rfl)]; rfl
      · rw [hpost _ (fun _ _ _ _ => rfl)]; rfl
      · rw [hpost _ (fun _ _ _ _ => rfl)]; rfl
      · rw [hpost _ (fun _ _ _ _ => rfl)]; rfl
    | helloTriangle =>
      refine ⟨Call.glClearColor ⟨2, 1⟩ ⟨3, 1⟩ ⟨3, 1⟩ ⟨10, 1⟩ :: Call.glClear GL_COLOR_BUFFER_BIT ::
          HelloTriangle.drawCalls env,
        Call.glfwPollEvents :: (resizeCalls (env.framebufferResizes k) ++
          [Call.glfwSwapBuffers env.glfwCreateWindow]), ?_, rfl, ?_, rfl, rfl, rfl, rfl, ?_, ?_,
        ?_, ?_, ?_, ?_⟩
      · rw [hfk]
        simp [Program.frameCalls, HelloTriangle.frameCalls, frameTail, inputCalls]
      · rw [hfk, (countP_frameCalls Program.helloTriangle env k).2.1]; rfl
      · rw [hpost _ (fun _ _ _ _ => rfl)]; rfl
      · rw [hpost _ (fun _ _ _ _ => rfl)]; rfl
      · rw [hpost _ (fun _ _ _ _ => rfl)]; rfl
      · rw [hpost _ (fun _ _ _ _ => rfl)]; rfl
      · rw [hpost _ (fun _ _ _ _ => rfl)]; rfl
      · rw [hpost _ (fun _ _ _ _ => rfl)]; rfl
  · intro fuel c hc hs
    exact setClose_of_run p env fuel c hc hs
  · intro hw hg k h0 hkey hkeep fuel hf
    have hall : ∀ j, j < k + 1 → env.glfwWindowShouldClose j = 0 :=
      fun j hj => h0 j (by omega)
    obtain ⟨w1, hrun1, htr1⟩ := run_running p env hw hg (k + 1) hall
    have hmem : Call.glfwSetWindowShouldClose env.glfwCreateWindow 1 ∈
        (p.run env (k + 1)).world.trace := by
      rw [hrun1]
      simp only [Res.world]
      rw [htr1, List.mem_append]
      right
      apply frame_mem_loopCalls _ _ _ (k + 1) 0 k (by omega)
      have htail : Call.glfwSetWindowShouldClose env.glfwCreateWindow 1 ∈
          frameTail env env.glfwCreateWindow (0 + k) := by
        simp [frameTail, inputCalls, hkey]
      cases p with
      | helloWindow =>
        simp only [Program.frameCalls, HelloWindow.frameCalls, List.mem_cons]
        exact Or.inr (Or.inr htail)
      | helloTriangle =>
        simp only [Program.frameCalls, HelloTriangle.frameCalls, List.mem_cons, List.mem_append]
        exact Or.inr (Or.inr (Or.inr htail))
    have h1 := hkeep hmem
    obtain ⟨w, hrun, htr⟩ := run_closed p env hw hg (k + 1) hall h1 fuel hf
    refine ⟨w, hrun, ?_, ?_, ?_⟩
    · have := countP_run_trace p env Call.isSwap 1 (k + 1)
        [Call.glfwWindowShouldClose env.glfwCreateWindow] rfl
        (fun x hx => by simp [Call.isLoopCall, hx]) rfl
        (fun k => (countP_frameCalls p env k).2.2.2.2)
      rw [htr, this]; simp
    · have := countP_run_trace p env Call.isGetKey 1 (k + 1)
        [Call.glfwWindowShouldClose env.glfwCreateWindow] rfl
        (fun x hx => by simp [Call.isLoopCall, hx]) rfl
        (fun k => (countP_frameCalls p env k).2.2.1)
      rw [htr, this]; simp
    · rw [htr, ← List.append_assoc, List.getLast?_append]
      simp

end LearnOpenGL

namespace LearnOpenGL

/-- Witness for C7: `hello-window` against a library that reports Escape as
pressed in the second iteration and reads the flag as set at the third check. -/
theorem processInput_once_per_frame_witness :
    Example.closeAfterTwoFrames.glfwCreateWindow ≠ NULL ∧
    Example.closeAfterTwoFrames.gladLoadGLLoader ≠ 0 ∧
    (∀ j, j ≤ 1 → Example.closeAfterTwoFrames.glfwWindowShouldClose j = 0) ∧
    Example.closeAfterTwoFrames.glfwGetKey 1 = GLFW_PRESS ∧
    Call.glfwSetWindowShouldClose Example.closeAfterTwoFrames.glfwCreateWindow 1 ∈
      (Program.helloWindow.run Example.closeAfterTwoFrames (1 + 1)).world.trace ∧
    Example.closeAfterTwoFrames.glfwWindowShouldClose (1 + 1) ≠ 0 ∧
    ∃ w, Program.helloWindow.run Example.closeAfterTwoFrames 5 = Res.ok 0 w ∧
      w.trace.countP Call.isSwap = 1 + 1 ∧ w.trace.countP Call.isGetKey = 1 + 1 ∧
      w.trace.getLast? =
        some (Call.glfwWindowShouldClose Example.closeAfterTwoFrames.glfwCreateWindow) :=
  ⟨by decide, by decide, by decide, by decide, by decide, by decide,
    (processInput_once_per_frame Program.helloWindow Example.closeAfterTwoFrames).2.2.2.2
      (by decide) (by decide) 1 (by decide) (by decide) (fun _ => by decide) 5 (by decide)⟩

/-- C8: in `hello-triangle`, after successful setup, the shader sources given to
the library are the vertex source for the first shader created and the orange and
the yellow fragment source for the second and third; the two fragment sources
differ exactly in the constant colour, `vec4(1.0, 0.5, 0.2, 1.0)` against
`vec4(1.0, 1.0, 0.0, 1.0)`; exactly two programs are linked, the first from the
vertex shader and the orange fragment shader, the second from the vertex shader
and the yellow fragment shader.  Every iteration of the render loop selects the
first program, binds the first vertex array and draws, then selects the second
program, binds the second vertex array and draws, and draws nothing else; so at
the draw calls of a run, in order, the current program and bound vertex array are
alternately the first program with the first vertex array and the second program
with the second vertex array, one such pair per iteration (`n` pairs when check
`n` is the first that reads the flag as set, `fuel` pairs while no check does);
with distinct handles the two draws of an iteration share neither. -/
theorem two_programs_two_triangles (env : Env) (fuel : Nat)
    (hw : env.glfwCreateWindow ≠ NULL) (hg : env.gladLoadGLLoader ≠ 0) :
    (HelloTriangle.run env fuel).world.trace.filter Call.isShaderSource =
      [Call.glShaderSource (env.glCreateShader 0) 1 HelloTriangle.vertexShaderSource,
       Call.glShaderSource (env.glCreateShader 1) 1 HelloTriangle.fragmentShaderSourceOrange,
       Call.glShaderSource (env.glCreateShader 2) 1 HelloTriangle.fragmentShaderSourceYellow] ∧
    (∃ pre post,
      HelloTriangle.fragmentShaderSourceOrange = pre ++ "vec4(1.0f, 0.5f, 0.2f, 1.0f)" ++ post ∧
      HelloTriangle.fragmentShaderSourceYellow = pre ++ "vec4(1.0f, 1.0f, 0.0f, 1.0f)" ++ post) ∧
    HelloTriangle.fragmentShaderSourceOrange ≠ HelloTriangle.fragmentShaderSourceYellow ∧
    (HelloTriangle.run env fuel).world.trace.filter Call.isAttachOrLink =
      [Call.glAttachShader (env.glCreateProgram 0) (env.glCreateShader 0),
       Call.glAttachShader (env.glCreateProgram 0) (env.glCreateShader 1),
       Call.glLinkProgram (env.glCreateProgram 0),
       Call.glAttachShader (env.glCreateProgram 1) (env.glCreateShader 0),
       Call.glAttachShader (env.glCreateProgram 1) (env.glCreateShader 2),
       Call.glLinkProgram (env.glCreateProgram 1)] ∧
    (HelloTriangle.run env fuel).world.trace.countP Call.isLink = 2 ∧
    drawStates (none, none) (HelloTriangle.run env fuel).world.trace =
      alternate (some (env.glCreateProgram 0), some (env.glGenVertexArrays 0))
        (some (env.glCreateProgram 1), some (env.glGenVertexArrays 1))
        ((HelloTriangle.run env fuel).world.trace.countP Call.isSwap) ∧
    (env.glCreateProgram 0 ≠ env.glCreateProgram 1 →
      env.glGenVertexArrays 0 ≠ env.glGenVertexArrays 1 →
      ∀ i d1 d2,
        (drawStates (none, none) (HelloTriangle.run env fuel).world.trace)[2 * i]? = some d1 →
        (drawStates (none, none) (HelloTriangle.run env fuel).world.trace)[2 * i + 1]? = some d2 →
        d1.1 ≠ d2.1 ∧ d1.2 ≠ d2.2) ∧
    (∀ k f, (frames (HelloTriangle.run env fuel).world.trace)[k]? = some f →
      env.glfwWindowShouldClose k = 0 →
      (∃ rest,
        f = Call.glClearColor ⟨2, 1⟩ ⟨3, 1⟩ ⟨3, 1⟩ ⟨10, 1⟩ ::
            Call.glClear GL_COLOR_BUFFER_BIT ::
            Call.glUseProgram (env.glCreateProgram 0) ::
            Call.glBindVertexArray (env.glGenVertexArrays 0) ::
            Call.glDrawArrays GL_TRIANGLES 0 3 ::
            Call.glUseProgram (env.glCreateProgram 1) ::
            Call.glBindVertexArray (env.glGenVertexArrays 1) ::
            Call.glDrawArrays GL_TRIANGLES 0 3 :: rest ∧
        rest.countP Call.isDraw = 0 ∧ rest.countP Call.isUseProgram = 0) ∧
      (∀ s, drawStates s f =
        [(some (env.glCreateProgram 0), some (env.glGenVertexArrays 0)),
         (some (env.glCreateProgram 1), some (env.glGenVertexArrays 1))])) ∧
    (∀ n, n < fuel → (∀ j, j < n → env.glfwWindowShouldClose j = 0) →
      env.glfwWindowShouldClose n ≠ 0 →
      (HelloTriangle.run env fuel).world.trace.countP Call.isSwap = n ∧
      (frames (HelloTriangle.run env fuel).world.trace).length = n + 1 ∧
      (HelloTriangle.run env fuel).world.trace.countP Call.isDraw = 2 * n ∧
      drawStates (none, none) (HelloTriangle.run env fuel).world.trace =
        alternate (some (env.glCreateProgram 0), some (env.glGenVertexArrays 0))
          (some (env.glCreateProgram 1), some (env.glGenVertexArrays 1)) n) ∧
    ((∀ j, j < fuel → env.glfwWindowShouldClose j = 0) →
      (HelloTriangle.run env fuel).world.trace.countP Call.isSwap = fuel ∧
      (frames (HelloTriangle.run env fuel).world.trace).length = fuel ∧
      (HelloTriangle.run env fuel).world.trace.countP Call.isDraw = 2 * fuel ∧
      drawStates (none, none) (HelloTriangle.run env fuel).world.trace =
        alternate (some (env.glCreateProgram 0), some (env.glGenVertexArrays 0))
          (some (env.glCreateProgram 1), some (env.glGenVertexArrays 1)) fuel) := by
  have hds := drawStates_triangle_run env fuel hw hg
  have hdraws : (HelloTriangle.run env fuel).world.trace.countP Call.isDraw =
      2 * (HelloTriangle.run env fuel).world.trace.countP Call.isSwap := by
    obtain ⟨m, hs, -, -, -, hd⟩ := counts_of_run Program.helloTriangle env fuel
    have hs2 : (HelloTriangle.run env fuel).world.trace.countP Call.isSwap = m := hs
    have hd2 : (HelloTriangle.run env fuel).world.trace.countP Call.isDraw = m * 2 := hd
    rw [hs2, hd2]; ring
  refine ⟨?_, ?_, ?_, ?_, ?_, hds, ?_, ?_, ?_, ?_⟩
  · rw [filter_triangle_run env fuel Call.isShaderSource
      (fun c hc => by cases c <;> simp_all [Call.isShaderSource, Call.isFrameCall, Call.isCheck])
      (fun c hc => by cases c <;> simp_all [Call.isShaderSource, Call.isDiagnostic]) hw hg,
      filter_shaderSetupCalls]
    rfl
  · exact ⟨"#version 330 core\nout vec4 FragColor;\n\nvoid main()\n\x7b\n    FragColor = ",
      ";\n\x7d ", by decide, by decide⟩
  · decide
  · rw [filter_triangle_run env fuel Call.isAttachOrLink isAttachOrLink_not_loop
      (fun c hc => by cases c <;> simp_all [Call.isAttachOrLink, Call.isAttach, Call.isLink,
        Call.isDiagnostic]) hw hg,
      filter_shaderSetupCalls]
    rfl
  · have h : (HelloTriangle.run env fuel).world.trace.countP Call.isLink =
        (HelloTriangle.setupCalls env).countP Call.isLink :=
      countP_run_setup_kind Program.helloTriangle env fuel _ isLink_not_loop hw hg
    rw [h]
    exact (triangle_setup_counts env).2.2.2.2.2.2.1
  · intro hp hv i d1 d2 h1 h2
    rw [hds] at h1 h2
    obtain ⟨e1, e2⟩ := alternate_getElem? _ _ _ i d1 d2 h1 h2
    subst e1 e2
    exact ⟨by simpa using hp, by simpa using hv⟩
  · intro k f hf h0
    have hfk : f = HelloTriangle.frameCalls env k :=
      frame_of_run Program.helloTriangle env fuel k f hf h0
    subst hfk
    refine ⟨⟨frameTail env env.glfwCreateWindow k, rfl, ?_, ?_⟩,
      fun s => drawStates_triangle_frame env k s⟩
    · rw [countP_frameTail _ _ _ _ (fun _ _ _ _ => rfl) rfl]; rfl
    · rw [countP_frameTail _ _ _ _ (fun _ _ _ _ => rfl) rfl]; rfl
  · intro n hn h0 h1
    obtain ⟨hs, hl⟩ := iterations_of_closed_run Program.helloTriangle env hw hg n h0 h1 fuel hn
    have hs2 : (HelloTriangle.run env fuel).world.trace.countP Call.isSwap = n := hs
    refine ⟨hs2, hl, ?_, ?_⟩
    · rw [hdraws, hs2]
    · rw [hds, hs2]
  · intro hall
    obtain ⟨hs, hl⟩ := iterations_of_running_run Program.helloTriangle env hw hg fuel hall
    have hs2 : (HelloTriangle.run env fuel).world.trace.countP Call.isSwap = fuel := hs
    refine ⟨hs2, hl, ?_, ?_⟩
    · rw [hdraws, hs2]
    · rw [hds, hs2]

/-- Witness for C8: `hello-triangle` against a library with distinct handles that
reads the flag as set at the third check.  The run has two iterations and four
draw calls; the states they read are also computed directly, and the first
iteration is given in full. -/
theorem two_programs_two_triangles_witness :
    Example.closeAfterTwoFrames.glfwCreateWindow ≠ NULL ∧
    Example.closeAfterTwoFrames.gladLoadGLLoader ≠ 0 ∧
    (∀ j, j < 2 → Example.closeAfterTwoFrames.glfwWindowShouldClose j = 0) ∧
    Example.closeAfterTwoFrames.glfwWindowShouldClose 2 ≠ 0 ∧
    ((HelloTriangle.run Example.closeAfterTwoFrames 5).world.trace.countP Call.isSwap = 2 ∧
      (frames (HelloTriangle.run Example.closeAfterTwoFrames 5).world.trace).length = 2 + 1 ∧
      (HelloTriangle.run Example.closeAfterTwoFrames 5).world.trace.countP Call.isDraw = 2 * 2 ∧
      drawStates (none, none) (HelloTriangle.run Example.closeAfterTwoFrames 5).world.trace =
        alternate
          (some (Example.closeAfterTwoFrames.glCreateProgram 0),
            some (Example.closeAfterTwoFrames.glGenVertexArrays 0))
          (some (Example.closeAfterTwoFrames.glCreateProgram 1),
            some (Example.closeAfterTwoFrames.glGenVertexArrays 1)) 2) ∧
    drawStates (none, none) (HelloTriangle.run Example.closeAfterTwoFrames 5).world.trace =
      [(some 4, some 1), (some 5, some 2), (some 4, some 1), (some 5, some 2)] ∧
    Example.closeAfterTwoFrames.glCreateProgram 0 ≠ Example.closeAfterTwoFrames.glCreateProgram 1 ∧
    Example.closeAfterTwoFrames.glGenVertexArrays 0 ≠
      Example.closeAfterTwoFrames.glGenVertexArrays 1 ∧
    (drawStates (none, none)
      (HelloTriangle.run Example.closeAfterTwoFrames 5).world.trace)[2 * 1]? =
        some (some 4, some 1) ∧
    (drawStates (none, none)
      (HelloTriangle.run Example.closeAfterTwoFrames 5).world.trace)[2 * 1 + 1]? =
        some (some 5, some 2) ∧
    (((some 4, some 1) : Option Nat × Option Nat).1 ≠
        ((some 5, some 2) : Option Nat × Option Nat).1 ∧
      ((some 4, some 1) : Option Nat × Option Nat).2 ≠
        ((some 5, some 2) : Option Nat × Option Nat).2) ∧
    (frames (HelloTriangle.run Example.closeAfterTwoFrames 5).world.trace)[1]? =
      some [Call.glClearColor ⟨2, 1⟩ ⟨3, 1⟩ ⟨3, 1⟩ ⟨10, 1⟩, Call.glClear GL_COLOR_BUFFER_BIT,
        Call.glUseProgram 4, Call.glBindVertexArray 1, Call.glDrawArrays GL_TRIANGLES 0 3,
        Call.glUseProgram 5, Call.glBindVertexArray 2, Call.glDrawArrays GL_TRIANGLES 0 3,
        Call.glfwGetKey 7 GLFW_KEY_ESCAPE, Call.glfwSetWindowShouldClose 7 1,
        Call.glfwPollEvents, Call.glfwSwapBuffers 7] ∧
    Example.closeAfterTwoFrames.glfwWindowShouldClose 1 = 0 ∧
    (∀ s, drawStates s
      [Call.glClearColor ⟨2, 1⟩ ⟨3, 1⟩ ⟨3, 1⟩ ⟨10, 1⟩, Call.glClear GL_COLOR_BUFFER_BIT,
        Call.glUseProgram 4, Call.glBindVertexArray 1, Call.glDrawArrays GL_TRIANGLES 0 3,
        Call.glUseProgram 5, Call.glBindVertexArray 2, Call.glDrawArrays GL_TRIANGLES 0 3,
        Call.glfwGetKey 7 GLFW_KEY_ESCAPE, Call.glfwSetWindowShouldClose 7 1,
        Call.glfwPollEvents, Call.glfwSwapBuffers 7] =
      [(some (Example.closeAfterTwoFrames.glCreateProgram 0),
          some (Example.closeAfterTwoFrames.glGenVertexArrays 0)),
       (some (Example.closeAfterTwoFrames.glCreateProgram 1),
          some (Example.closeAfterTwoFrames.glGenVertexArrays 1))]) :=
  ⟨by decide, by decide, by decide, by decide,
    (two_programs_two_triangles Example.closeAfterTwoFrames 5 (by decide)
      (by decide)).2.2.2.2.2.2.2.2.1 2 (by decide) (by decide) (by decide),
    by decide!, by decide, by decide, by decide!, by decide!,
    (two_programs_two_triangles Example.closeAfterTwoFrames 5 (by decide)
      (by decide)).2.2.2.2.2.2.1 (by decide) (by decide) 1 _ _ (by decide!) (by decide!),
    by decide!, by decide,
    ((two_programs_two_triangles Example.closeAfterTwoFrames 5 (by decide)
      (by decide)).2.2.2.2.2.2.2.1 1 _ (by decide!) (by decide)).2⟩

end LearnOpenGL

namespace LearnOpenGL

/-- C9: in `hello-triangle` each of the two vertex arrays holds nine floats and,
with `sizeof(float) = 4`, has size 36 bytes; `setupVAO` uploads the array it is
given with the size it is given and configures attribute 0 with 3 float
components, stride `3 * sizeof(float) = 12` and offset 0.  In every run every
upload is of 36 bytes and 9 floats, every attribute layout is that one, and every
draw call is `glDrawArrays(GL_TRIANGLES, 0, 3)`, so that
`first * stride + count * stride` equals the uploaded size, 36, and the fetch
starts at byte 0.  After successful setup there are exactly two uploads, one of
each array. -/
theorem vertex_fetch_within_upload (env : Env) (fuel : Nat) :
    HelloTriangle.firstTriangleVertices.length = 9 ∧
    HelloTriangle.secondTriangleVertices.length = 9 ∧
    HelloTriangle.sizeof_array HelloTriangle.firstTriangleVertices = 36 ∧
    HelloTriangle.sizeof_array HelloTriangle.secondTriangleVertices = 36 ∧
    (∀ (vertices : List Dec) (verticesSize : Int) (w : World), ∃ w1,
      HelloTriangle.setupVAO vertices verticesSize env w =
        Res.ok (env.glGenVertexArrays w.nGenVertexArrays) w1 ∧
      w1.trace = w.trace ++
        [Call.glGenBuffers 1, Call.glGenVertexArrays 1,
         Call.glBindVertexArray (env.glGenVertexArrays w.nGenVertexArrays),
         Call.glBindBuffer GL_ARRAY_BUFFER (env.glGenBuffers w.nGenBuffers),
         Call.glBufferData GL_ARRAY_BUFFER verticesSize vertices GL_STATIC_DRAW,
         Call.glVertexAttribPointer 0 3 GL_FLOAT GL_FALSE 12 0,
         Call.glEnableVertexAttribArray 0]) ∧
    (∀ (target : Nat) (size : Int) (data : List Dec) (usage index : Nat) (components : Int)
        (type normalized : Nat) (stride : Int) (pointer mode : Nat) (first count : Int),
      Call.glBufferData target size data usage ∈ (HelloTriangle.run env fuel).world.trace →
      Call.glVertexAttribPointer index components type normalized stride pointer ∈
        (HelloTriangle.run env fuel).world.trace →
      Call.glDrawArrays mode first count ∈ (HelloTriangle.run env fuel).world.trace →
      size = 36 ∧ data.length = 9 ∧
      index = 0 ∧ components = 3 ∧ type = GL_FLOAT ∧ stride = 12 ∧ pointer = 0 ∧
      mode = GL_TRIANGLES ∧ first = 0 ∧ count = 3 ∧
      first * stride + count * stride = size ∧ 0 ≤ first * stride) ∧
    (env.glfwCreateWindow ≠ NULL → env.gladLoadGLLoader ≠ 0 →
      (HelloTriangle.run env fuel).world.trace.filter Call.isBufferData =
        [Call.glBufferData GL_ARRAY_BUFFER 36 HelloTriangle.firstTriangleVertices GL_STATIC_DRAW,
         Call.glBufferData GL_ARRAY_BUFFER 36 HelloTriangle.secondTriangleVertices
           GL_STATIC_DRAW] ∧
      (HelloTriangle.run env fuel).world.trace.filter Call.isAttribPointer =
        [Call.glVertexAttribPointer 0 3 GL_FLOAT GL_FALSE 12 0,
         Call.glVertexAttribPointer 0 3 GL_FLOAT GL_FALSE 12 0]) := by
  have hb1 : ∀ c, Call.isBufferData c = true → c.isDiagnostic = false := by
    intro c hc; cases c <;> simp_all [Call.isBufferData, Call.isDiagnostic]
  have ha0 : ∀ c, Call.isAttribPointer c = true → c.isFrameCall = false ∧ c.isCheck = false := by
    intro c hc; cases c <;> simp_all [Call.isAttribPointer, Call.isFrameCall, Call.isCheck]
  have ha1 : ∀ c, Call.isAttribPointer c = true → c.isDiagnostic = false := by
    intro c hc; cases c <;> simp_all [Call.isAttribPointer, Call.isDiagnostic]
  refine ⟨rfl, rfl, by decide, by decide, ?_, ?_, ?_⟩
  · intro vertices verticesSize w
    rw [triangle_setupVAO_run]
    exact ⟨_, rfl, rfl⟩
  · intro target size data usage index components type normalized stride pointer mode first
      count hb ha hd
    have hb2 := mem_triangle_setup_kind env fuel Call.isBufferData _ isBufferData_not_loop hb1
      rfl rfl hb rfl
    have ha2 := mem_triangle_setup_kind env fuel Call.isAttribPointer _ ha0 ha1 rfl rfl ha rfl
    have hd2 := draw_of_run Program.helloTriangle env fuel _ hd rfl
    rw [filter_shaderSetupCalls] at hb2 ha2
    have hb3 : Call.glBufferData target size data usage ∈
        [Call.glBufferData GL_ARRAY_BUFFER 36 HelloTriangle.firstTriangleVertices GL_STATIC_DRAW,
         Call.glBufferData GL_ARRAY_BUFFER 36 HelloTriangle.secondTriangleVertices
           GL_STATIC_DRAW] := hb2
    have ha3 : Call.glVertexAttribPointer index components type normalized stride pointer ∈
        [Call.glVertexAttribPointer 0 3 GL_FLOAT GL_FALSE 12 0,
         Call.glVertexAttribPointer 0 3 GL_FLOAT GL_FALSE 12 0] := ha2
    simp only [List.mem_cons, Call.glBufferData.injEq, List.mem_singleton, List.not_mem_nil,
      or_false] at hb3
    simp only [List.mem_cons, Call.glVertexAttribPointer.injEq, List.mem_singleton,
      List.not_mem_nil, or_false, or_self] at ha3
    simp only [Call.glDrawArrays.injEq] at hd2
    obtain ⟨i1, i2, i3, i4, i5, i6⟩ := ha3
    obtain ⟨d1, d2, d3⟩ := hd2
    have hsize : size = 36 ∧ data.length = 9 := by
      rcases hb3 with ⟨-, h2, h3, -⟩ | ⟨-, h2, h3, -⟩
      · subst h2 h3; exact ⟨rfl, rfl⟩
      · subst h2 h3; exact ⟨rfl, rfl⟩
    obtain ⟨s1, s2⟩ := hsize
    subst i1 i2 i3 i5 i6 d1 d2 d3 s1
    exact ⟨rfl, s2, rfl, rfl, rfl, rfl, rfl, rfl, rfl, rfl, by decide, by decide⟩
  · intro hw hg
    constructor
    · rw [filter_triangle_run env fuel Call.isBufferData isBufferData_not_loop hb1 hw hg,
        filter_shaderSetupCalls]
      rfl
    · rw [filter_triangle_run env fuel Call.isAttribPointer ha0 ha1 hw hg,
        filter_shaderSetupCalls]
      rfl

end LearnOpenGL

namespace LearnOpenGL

/-- Witness for C9: the uploads, layouts and draws of a run of `hello-triangle`. -/
theorem vertex_fetch_within_upload_witness :
    Call.glBufferData GL_ARRAY_BUFFER 36 HelloTriangle.firstTriangleVertices GL_STATIC_DRAW ∈
      (HelloTriangle.run Example.closeAfterTwoFrames 5).world.trace ∧
    Call.glVertexAttribPointer 0 3 GL_FLOAT GL_FALSE 12 0 ∈
      (HelloTriangle.run Example.closeAfterTwoFrames 5).world.trace ∧
    Call.glDrawArrays GL_TRIANGLES 0 3 ∈
      (HelloTriangle.run Example.closeAfterTwoFrames 5).world.trace ∧
    ((36 : Int) = 36 ∧ HelloTriangle.firstTriangleVertices.length = 9 ∧
      (0 : Nat) = 0 ∧ (3 : Int) = 3 ∧ GL_FLOAT = GL_FLOAT ∧ (12 : Int) = 12 ∧ (0 : Nat) = 0 ∧
      GL_TRIANGLES = GL_TRIANGLES ∧ (0 : Int) = 0 ∧ (3 : Int) = 3 ∧
      (0 : Int) * 12 + 3 * 12 = 36 ∧ (0 : Int) ≤ 0 * 12) :=
  ⟨by decide!, by decide!, by decide!,
    (vertex_fetch_within_upload Example.closeAfterTwoFrames 5).2.2.2.2.2.1
      GL_ARRAY_BUFFER 36 HelloTriangle.firstTriangleVertices GL_STATIC_DRAW 0 3 GL_FLOAT GL_FALSE
      12 0 GL_TRIANGLES 0 3 (by decide!) (by decide!) (by decide!)⟩

/-- C10: in `hello-triangle`, in every run that reaches shader setup, the only
calls that delete an object are three `glDeleteShader` calls, one for each created
shader in the order of creation (no program, vertex array or buffer is passed to a
delete call).  They come after the attach and link calls of both programs, and the
calls that follow them pass no shader name to the library.  Hence every handle the
library gave to one shader only (the library names distinct shaders differently;
only its failure value 0 can come back twice) is passed to `glDeleteShader`
exactly once and is not passed to the library again after that call; with three
pairwise distinct handles this holds for all three. -/
theorem shaders_deleted_once_after_linking (env : Env) (fuel : Nat)
    (hw : env.glfwCreateWindow ≠ NULL) (hg : env.gladLoadGLLoader ≠ 0) :
    (HelloTriangle.run env fuel).world.trace.filter Call.isDelete =
      [Call.glDeleteShader (env.glCreateShader 0), Call.glDeleteShader (env.glCreateShader 1),
       Call.glDeleteShader (env.glCreateShader 2)] ∧
    deletedAfterLinking (HelloTriangle.run env fuel).world.trace = true ∧
    (HelloTriangle.run env fuel).world.trace.filter Call.isAttachOrLink =
      [Call.glAttachShader (env.glCreateProgram 0) (env.glCreateShader 0),
       Call.glAttachShader (env.glCreateProgram 0) (env.glCreateShader 1),
       Call.glLinkProgram (env.glCreateProgram 0),
       Call.glAttachShader (env.glCreateProgram 1) (env.glCreateShader 0),
       Call.glAttachShader (env.glCreateProgram 1) (env.glCreateShader 2),
       Call.glLinkProgram (env.glCreateProgram 1)] ∧
    (env.glCreateShader 0 ≠ env.glCreateShader 1 → env.glCreateShader 0 ≠ env.glCreateShader 2 →
      env.glCreateShader 1 ≠ env.glCreateShader 2 →
      (HelloTriangle.run env fuel).world.trace.count
        (Call.glDeleteShader (env.glCreateShader 0)) = 1 ∧
      (HelloTriangle.run env fuel).world.trace.count
        (Call.glDeleteShader (env.glCreateShader 1)) = 1 ∧
      (HelloTriangle.run env fuel).world.trace.count
        (Call.glDeleteShader (env.glCreateShader 2)) = 1 ∧
      noUseAfterDelete (HelloTriangle.run env fuel).world.trace = true) ∧
    (∃ pre rest,
      (HelloTriangle.run env fuel).world.trace =
        pre ++ (Call.glDeleteShader (env.glCreateShader 0) ::
          Call.glDeleteShader (env.glCreateShader 1) ::
          Call.glDeleteShader (env.glCreateShader 2) :: rest) ∧
      pre.countP Call.isDelete = 0 ∧
      pre.filter Call.isAttachOrLink =
        [Call.glAttachShader (env.glCreateProgram 0) (env.glCreateShader 0),
         Call.glAttachShader (env.glCreateProgram 0) (env.glCreateShader 1),
         Call.glLinkProgram (env.glCreateProgram 0),
         Call.glAttachShader (env.glCreateProgram 1) (env.glCreateShader 0),
         Call.glAttachShader (env.glCreateProgram 1) (env.glCreateShader 2),
         Call.glLinkProgram (env.glCreateProgram 1)] ∧
      rest.countP Call.usesShader = 0 ∧ rest.countP Call.isAttachOrLink = 0 ∧
      rest.countP Call.isDelete = 0) ∧
    (∀ k, k < 3 →
      (∀ j, j < 3 → j ≠ k → env.glCreateShader j ≠ env.glCreateShader k) →
      (HelloTriangle.run env fuel).world.trace.count
        (Call.glDeleteShader (env.glCreateShader k)) = 1 ∧
      noUseAfterDeleteOf (env.glCreateShader k) (HelloTriangle.run env fuel).world.trace =
        true) := by
  have hdel : (HelloTriangle.run env fuel).world.trace.filter Call.isDelete =
      [Call.glDeleteShader (env.glCreateShader 0), Call.glDeleteShader (env.glCreateShader 1),
       Call.glDeleteShader (env.glCreateShader 2)] := by
    rw [filter_triangle_run env fuel Call.isDelete isDelete_not_loop
      isDelete_not_diagnostic hw hg, filter_shaderSetupCalls]
    rfl
  obtain ⟨pre, rest, htr, hp1, hp2, hp3, hr1, hr2, hr3, hr4⟩ :=
    triangle_trace_around_delete env fuel hw hg
  have hcount : ∀ s, (HelloTriangle.run env fuel).world.trace.count (Call.glDeleteShader s) =
      ([Call.glDeleteShader (env.glCreateShader 0), Call.glDeleteShader (env.glCreateShader 1),
        Call.glDeleteShader (env.glCreateShader 2)]).count (Call.glDeleteShader s) := by
    intro s
    rw [← hdel, List.count_filter (by rfl)]
  have hsa : ∀ s, (Call.glDeleteShader s).shaderArg = some s := fun _ => rfl
  have h0 := all_shaderArg_ne_of_countP (env.glCreateShader 0) rest hr1
  have h1 := all_shaderArg_ne_of_countP (env.glCreateShader 1) rest hr1
  have h2 := all_shaderArg_ne_of_countP (env.glCreateShader 2) rest hr1
  refine ⟨hdel, deletedAfterLinking_triangle_run env fuel hw hg, ?_, ?_,
    ⟨pre, rest, htr, hp1, hp3, hr1, hr2, hr3⟩, ?_⟩
  · rw [filter_triangle_run env fuel Call.isAttachOrLink isAttachOrLink_not_loop
      isAttachOrLink_not_diagnostic hw hg, filter_shaderSetupCalls]
    rfl
  · intro h01 h02 h12
    refine ⟨?_, ?_, ?_, ?_⟩
    · rw [hcount]
      simp [List.count_cons, h01, h02, Ne.symm h01, Ne.symm h02]
    · rw [hcount]
      simp [List.count_cons, h01, h12, Ne.symm h01, Ne.symm h12]
    · rw [hcount]
      simp [List.count_cons, h02, h12, Ne.symm h02, Ne.symm h12]
    · rw [htr, noUseAfterDelete_append _ _ hp2]
      have h3 := noUseAfterDelete_of_none rest hr4
      simp only [noUseAfterDelete, List.all_cons, h0, h1, h2, h3, hsa]
      simp [h01, h02, h12, Ne.symm h01, Ne.symm h02, Ne.symm h12]
  · intro k hk hfresh
    have h3 : ∀ s, noUseAfterDeleteOf s rest = true :=
      fun s => noUseAfterDeleteOf_of_none s rest hr4
    have hk3 : k = 0 ∨ k = 1 ∨ k = 2 := by omega
    rcases hk3 with e | e | e
    · subst e
      have a1 := hfresh 1 (by omega) (by omega)
      have a2 := hfresh 2 (by omega) (by omega)
      constructor
      · rw [hcount]
        simp [List.count_cons, a1, a2, Ne.symm a1, Ne.symm a2]
      · rw [htr, noUseAfterDeleteOf_append _ _ _ hp2]
        simp only [noUseAfterDeleteOf, List.all_cons, h0, h3, hsa]
        simp [a1, a2, Ne.symm a1, Ne.symm a2]
    · subst e
      have a0 := hfresh 0 (by omega) (by omega)
      have a2 := hfresh 2 (by omega) (by omega)
      constructor
      · rw [hcount]
        simp [List.count_cons, a0, a2, Ne.symm a0, Ne.symm a2]
      · rw [htr, noUseAfterDeleteOf_append _ _ _ hp2]
        simp only [noUseAfterDeleteOf, List.all_cons, h1, h3, hsa]
        simp [a0, a2, Ne.symm a0, Ne.symm a2]
    · subst e
      have a0 := hfresh 0 (by omega) (by omega)
      have a1 := hfresh 1 (by omega) (by omega)
      constructor
      · rw [hcount]
        simp [List.count_cons, a0, a1, Ne.symm a0, Ne.symm a1]
      · rw [htr, noUseAfterDeleteOf_append _ _ _ hp2]
        simp only [noUseAfterDeleteOf, List.all_cons, h2, h3, hsa]
        simp [a0, a1, Ne.symm a0, Ne.symm a1]

/-- Witness for C10: a library that returns the shader names 1, 2, 3, a library
that fails twice and then returns the shader name 5, and a library whose
`glCreateShader` always fails. -/
theorem shaders_deleted_once_after_linking_witness :
    (Example.closeAfterTwoFrames.glfwCreateWindow ≠ NULL ∧
      Example.closeAfterTwoFrames.gladLoadGLLoader ≠ 0 ∧
      Example.closeAfterTwoFrames.glCreateShader 0 ≠
        Example.closeAfterTwoFrames.glCreateShader 1 ∧
      Example.closeAfterTwoFrames.glCreateShader 0 ≠
        Example.closeAfterTwoFrames.glCreateShader 2 ∧
      Example.closeAfterTwoFrames.glCreateShader 1 ≠
        Example.closeAfterTwoFrames.glCreateShader 2 ∧
      (HelloTriangle.run Example.closeAfterTwoFrames 5).world.trace.count
        (Call.glDeleteShader (Example.closeAfterTwoFrames.glCreateShader 0)) = 1 ∧
      (HelloTriangle.run Example.closeAfterTwoFrames 5).world.trace.count
        (Call.glDeleteShader (Example.closeAfterTwoFrames.glCreateShader 1)) = 1 ∧
      (HelloTriangle.run Example.closeAfterTwoFrames 5).world.trace.count
        (Call.glDeleteShader (Example.closeAfterTwoFrames.glCreateShader 2)) = 1 ∧
      noUseAfterDelete (HelloTriangle.run Example.closeAfterTwoFrames 5).world.trace = true) ∧
    (Example.oneShader.glfwCreateWindow ≠ NULL ∧ Example.oneShader.gladLoadGLLoader ≠ 0 ∧
      (2 : Nat) < 3 ∧
      (∀ j, j < 3 → j ≠ 2 →
        Example.oneShader.glCreateShader j ≠ Example.oneShader.glCreateShader 2) ∧
      (HelloTriangle.run Example.oneShader 5).world.trace.count
        (Call.glDeleteShader (Example.oneShader.glCreateShader 2)) = 1 ∧
      noUseAfterDeleteOf (Example.oneShader.glCreateShader 2)
        (HelloTriangle.run Example.oneShader 5).world.trace = true) ∧
    (Example.noShader.glfwCreateWindow ≠ NULL ∧ Example.noShader.gladLoadGLLoader ≠ 0 ∧
      deletedAfterLinking (HelloTriangle.run Example.noShader 5).world.trace = true) ∧
    (HelloTriangle.run Example.closeAfterTwoFrames 5).world.trace.filter
        (fun c => c.isAttachOrLink || c.isDelete) =
      [Call.glAttachShader 4 1, Call.glAttachShader 4 2, Call.glLinkProgram 4,
       Call.glAttachShader 5 1, Call.glAttachShader 5 3, Call.glLinkProgram 5,
       Call.glDeleteShader 1, Call.glDeleteShader 2, Call.glDeleteShader 3] :=
  ⟨⟨by decide, by decide, by decide, by decide, by decide,
    (shaders_deleted_once_after_linking Example.closeAfterTwoFrames 5 (by decide)
      (by decide)).2.2.2.1 (by decide) (by decide) (by decide)⟩,
   ⟨by decide, by decide, by decide, by decide,
    (shaders_deleted_once_after_linking Example.oneShader 5 (by decide)
      (by decide)).2.2.2.2.2 2 (by decide) (by decide)⟩,
   ⟨by decide, by decide,
    (shaders_deleted_once_after_linking Example.noShader 5 (by decide) (by decide)).2.1⟩,
   by decide!⟩

end LearnOpenGL
